import Mathlib

/-!
# Verification of the trex terminal rendering engine (src/tui.c)

This file is a shallow embedding, in Lean 4, of the parts of `src/tui.c`
that the specification's claims are about:

* the scatter-gather output buffer (`adjust_iovecs_after_partial_write`,
  `tui_flush_vectored`),
* the lazy color-pair allocator (`get_or_alloc_pair` and its caches),
* the rendition-sequence builder (`get_cached_attr_sequence`,
  `get_rgb_values`),
* the hierarchical/sparse dirty-region tracker (`mark_dirty`,
  `mark_dirty_region`, `reset_dirty_region`, the tile pool and bitmaps),
* the refresh/diff engine (`tui_refresh` on the primary window, with
  `optimize_dirty_region`, `row_has_changes`, `col_has_changes`,
  `scan_l1_tile`, `tui_move_cached`, `apply_attributes`,
  `output_buffered_run`),
* the drawing surface (`tui_print_at`, `tui_clear_screen`,
  `tui_clear_window`, `handle_resize`).

Modelling conventions:

* C `int` values are modelled as `Int`; C `/` and `%` on `int` truncate
  toward zero, which is `Int.tdiv` / `Int.tmod` in Lean.
* Attribute words (`attr_buf` entries, window attributes) are 32-bit
  patterns compared only for equality; they are modelled as `Nat` holding
  the 32-bit pattern (the sentinel `0xFFFFFFFF` used to invalidate
  `prev_attr_buf` cells is the literal pattern).
* Screen cells (`char`) are modelled as `Nat` byte values.
* The 2-D grids are total functions `Int → Int → Nat`; C reads of cells
  that are in bounds are the only ones any theorem relies on.
* Fixed-size C `bool` arrays (`l1_tiles[64][128]`, `l2_blocks[16][32]`)
  and the membership bitmaps (`l1_tile_bitmap`, `l2_block_bitmap`) are
  modelled as bit sets packed in a single `Nat`, indexed by
  `row * rowWidth + col` exactly as the C bitmap code computes its
  `bit_index`.  This keeps the dirty-tracker state decidable.
* Loops are structural recursions over an explicit fuel that is always
  instantiated with the exact iteration count of the C loop, so the fuel
  never runs out on the modelled executions.
* Output is modelled as a list of tokens (`out_tok`), each carrying the
  bytes the C code hands to `tui_write`; the byte-level buffering /
  `writev` layer is modelled separately (it does not change which bytes
  are offered, only how they are flushed).
* Statistics-only counters of the C code (e.g. `esc_seq_stats`,
  `rle_stats`, `writev_stats`, the `l1_scans_avoided` family) are omitted:
  no control flow depends on them.  Counters that do feed decisions
  (`frame_count`, `sparse_beneficial_count`, `prefer_sparse_mode`) are
  kept.
* The escape-sequence interning pool (`esc_seq_cache`) is not given
  mutable state: `intern_esc_sequence` returns a pointer to bytes equal
  to its input, and `get_cached_attr_sequence` caches byte strings that
  are rebuilt identically for identical `(fg, bg, attrs)` keys, so the
  bytes emitted are exactly those of the builder, which is embedded
  below.
-/

set_option maxRecDepth 100000

/-! ## Small helpers -/

/-- C truncating division on `int` (rounds toward zero). -/
def cdiv (a b : Int) : Int := Int.tdiv a b

/-- C `%` on `int` (sign follows the dividend). -/
def cmod (a b : Int) : Int := Int.tmod a b

/-- The inclusive integer range `[lo, hi]` as a list (empty when `hi < lo`). -/
def intRange (lo hi : Int) : List Int :=
  (List.range (hi + 1 - lo).toNat).map (fun i => lo + (i : Int))

/-- Point update of a two-argument function (a single grid cell write). -/
def upd2 (f : Int → Int → Nat) (r c : Int) (v : Nat) : Int → Int → Nat :=
  fun r' c' => if r' = r && c' = c then v else f r' c'

/-- Region update of a grid: every cell of `[r1,r2] × [c1,c2]` is set to `v`
(the model of a row-by-row `memset` over a rectangle). -/
def updRect (f : Int → Int → Nat) (r1 r2 c1 c2 : Int) (v : Nat) :
    Int → Int → Nat :=
  fun r' c' =>
    if r1 ≤ r' && r' ≤ r2 && c1 ≤ c' && c' ≤ c2 then v else f r' c'

/-- Generic counted `for` loop: runs `body` for `i = lo, lo+1, …` while
`i ≤ hi`, stopping early only if the fuel is exhausted.  Every use instantiates
`fuel` with at least the exact iteration count `(hi + 1 - lo).toNat`. -/
def forInt (fuel : Nat) (lo hi : Int) (body : Int → σ → σ) (s : σ) : σ :=
  match fuel with
  | 0 => s
  | fuel + 1 => if lo ≤ hi then forInt fuel (lo + 1) hi body (body lo s) else s

/-! ## Constants from trex.h / tui.h / tui.c -/

def TUI_COLOR_BLACK : Int := 0
def TUI_COLOR_RED : Int := 1
def TUI_COLOR_GREEN : Int := 2
def TUI_COLOR_YELLOW : Int := 3
def TUI_COLOR_BLUE : Int := 4
def TUI_COLOR_MAGENTA : Int := 5
def TUI_COLOR_CYAN : Int := 6
def TUI_COLOR_WHITE : Int := 7

def TUI_A_NORMAL : Nat := 0
def TUI_A_BOLD : Nat := 0x00200000
def TUI_A_COLOR : Nat := 0xFF00

/-- Source `TUI_PAIR_NUMBER(a) = ((a) >> 8) & 0xff`. -/
def TUI_PAIR_NUMBER (a : Nat) : Int := ((a >>> 8) &&& 0xFF : Nat)

/-- Attribute word with the `TUI_A_COLOR` bits cleared
(`attr & ~TUI_A_COLOR` on a 32-bit word). -/
def maskOutColor (a : Nat) : Nat := a &&& 0xFFFF00FF

def TUI_COLOR_PAIRS : Int := 256
def MAX_CUSTOM_COLORS : Int := 256

def TILE_L1_SIZE : Int := 8
def TILE_L2_SIZE : Int := 32
def MAX_L1_TILES_X : Int := 128
def MAX_L1_TILES_Y : Int := 64
def MAX_L2_BLOCKS_X : Int := 32
def MAX_L2_BLOCKS_Y : Int := 16
def DIRTY_TILE_POOL_SIZE : Nat := 512

def INT_MAX : Int := 2147483647

def CURSOR_CACHE_ROWS : Int := 100
def CURSOR_CACHE_COLS : Int := 200
def CURSOR_POS_POOL_SIZE : Int := 256

/-! ## Scatter-gather output buffer (`tui_flush_vectored`)

Spans are modelled by value: `tui_write_vectored` copies the caller's bytes
into the private `data_pool`, so a span's bytes are stable until the flush;
a `List (List Nat)` of byte lists captures exactly the information the
`(iov_base, iov_len)` array plus pool holds. -/

/-- One result of the underlying `writev` system call: `ok n` means the call
accepted `n` bytes, `eintr` models `-1` with `errno == EINTR`, `err` models
`-1` with any other `errno`. -/
inductive WriteResult
  | ok (n : Nat)
  | eintr
  | err
deriving DecidableEq

/-- How the flush loop of `tui_flush_vectored` terminated:
`done` = the `while` condition became false, `zeroBreak` = a write returned
0, `errBreak` = hard I/O error, `stuck` = the oracle of write results was
exhausted while the loop still wanted to write (not a C behaviour, only a
modelling artefact for short oracles). -/
inductive FlushExit
  | done
  | zeroBreak
  | errBreak
  | stuck
deriving DecidableEq

/-- Source `adjust_iovecs_after_partial_write` (tui.c:776-801): drop whole spans
that were completely written, trim the first partially written span, and
shift the remainder down. -/
def adjust_iovecs_after_partial_write (vecs : List (List Nat)) (written : Nat) :
    List (List Nat) :=
  match vecs with
  | [] => []
  | v :: rest =>
    if written = 0 then v :: rest
    else if v.length ≤ written then
      adjust_iovecs_after_partial_write rest (written - v.length)
    else (v.drop written) :: rest

/-- The retry loop of `tui_flush_vectored` (tui.c:819-845).  One oracle entry
is consumed per `writev` call (also on `EINTR`, which the C code retries).
The bytes a call accepts are the first `n` bytes of the current span list,
in order.  Mirrors the C loop state exactly: `written_total` accumulates,
`total_bytes` is decremented after each successful call, and the loop runs
while `written_total < total_bytes && vecs_remaining > 0`. -/
def writev_loop (vecs : List (List Nat)) (totalBytes writtenTotal : Int)
    (oracle : List WriteResult) (emitted : List Nat) : List Nat × FlushExit :=
  if writtenTotal < totalBytes ∧ 0 < vecs.length then
    match oracle with
    | [] => (emitted, FlushExit.stuck)
    | WriteResult.err :: _ => (emitted, FlushExit.errBreak)
    | WriteResult.eintr :: rest =>
      writev_loop vecs totalBytes writtenTotal rest emitted
    | WriteResult.ok n :: rest =>
      if n = 0 then (emitted, FlushExit.zeroBreak)
      else
        writev_loop (adjust_iovecs_after_partial_write vecs n)
          (totalBytes - n) (writtenTotal + n) rest
          (emitted ++ vecs.flatten.take n)
  else (emitted, FlushExit.done)

/-- Source `tui_flush_vectored` (tui.c:803-851): flush the pending span list against
a sequence of `writev` outcomes; afterwards the buffer is reset
unconditionally (`count = 0`, `total_bytes = 0`, `data_pool_used = 0`), so
only the emitted bytes and the exit kind are returned.
`writev_buf.total_bytes` always equals the total length of the pending
spans, which is `vecs.flatten.length` here. -/
def tui_flush_vectored (vecs : List (List Nat)) (oracle : List WriteResult) :
    List Nat × FlushExit :=
  if vecs.length = 0 then ([], FlushExit.done)
  else writev_loop vecs (vecs.flatten.length : Int) 0 oracle []

/-! ## Lazy color-pair allocation (`get_or_alloc_pair`) -/

/-- Source `common_pair_t` (tui.c:191-195). -/
structure common_pair_t where
  fg : Int
  bg : Int
  pair_num : Int
  usage_count : Nat
deriving DecidableEq

/-- Source `color_pair_node_t` (tui.c:178-184); the `next` chain pointer becomes
the list structure of the hash bucket. -/
structure color_pair_node_t where
  fg_bg : Nat
  pair_num : Int
  fg : Int
  bg : Int
deriving DecidableEq

/-- Source `color_pair_cache` (tui.c:197-223).  The hash table maps a bucket index
to its collision chain (most recently inserted node first, as the C code
prepends).  The node pool is abstracted to its two counters: a node can be
taken exactly when `node_used < node_count`. -/
structure color_pair_cache_t where
  table : Nat → List color_pair_node_t
  next_pair : Int
  allocated_count : Nat
  node_used : Nat
  node_count : Nat
  cache_hits : Nat
  cache_misses : Nat
  hash_collisions : Nat
  common_pairs : List common_pair_t

/-- Engine color state: the allocator cache, the legacy `color_pairs` array
(tui.c:226) and the `colors_initialized` flag. -/
structure color_state_t where
  cache : color_pair_cache_t
  color_pairs : Int → Int × Int
  colors_initialized : Bool

/-- Source `pack_fg_bg` (tui.c:1943-1946): `((fg & 0xFF) << 8) | (bg & 0xFF)`.
`& 0xFF` on a (possibly negative) C integer takes the low byte of its
two's-complement pattern, which is `Int.emod _ 256`. -/
def pack_fg_bg (fg bg : Int) : Nat :=
  ((Int.emod fg 256).toNat <<< 8) ||| (Int.emod bg 256).toNat

/-- Source `hash_color_pair` (tui.c:1949-1959): FNV-1a over the two bytes of the
packed `uint16`, in memory order on a little-endian host (low byte first),
then reduced mod `COLOR_PAIR_HASH_SIZE = 256`. -/
def hash_color_pair (fg_bg : Nat) : Nat :=
  let b0 := fg_bg &&& 0xFF
  let b1 := (fg_bg >>> 8) &&& 0xFF
  let h1 := ((2166136261 ^^^ b0) * 16777619) % 4294967296
  let h2 := ((h1 ^^^ b1) * 16777619) % 4294967296
  h2 % 256

/-- Source `init_common_pairs_cache` (tui.c:1963-1990): the ten pre-seeded pairs,
with `pair_num = i + 1` ("Reserve 0 for default"). -/
def init_common_pairs_cache : List common_pair_t :=
  [ ⟨TUI_COLOR_WHITE, TUI_COLOR_BLACK, 1, 0⟩,
    ⟨TUI_COLOR_GREEN, TUI_COLOR_BLACK, 2, 0⟩,
    ⟨TUI_COLOR_RED, TUI_COLOR_BLACK, 3, 0⟩,
    ⟨TUI_COLOR_YELLOW, TUI_COLOR_BLACK, 4, 0⟩,
    ⟨TUI_COLOR_BLUE, TUI_COLOR_BLACK, 5, 0⟩,
    ⟨TUI_COLOR_CYAN, TUI_COLOR_BLACK, 6, 0⟩,
    ⟨TUI_COLOR_MAGENTA, TUI_COLOR_BLACK, 7, 0⟩,
    ⟨TUI_COLOR_WHITE, TUI_COLOR_RED, 8, 0⟩,
    ⟨TUI_COLOR_BLACK, TUI_COLOR_WHITE, 9, 0⟩,
    ⟨TUI_COLOR_BLACK, TUI_COLOR_GREEN, 10, 0⟩ ]

/-- Source `init_color_pair_cache` (tui.c:1992-2012). -/
def init_color_pair_cache : color_pair_cache_t where
  table := fun _ => []
  next_pair := 1
  allocated_count := 0
  node_used := 0
  node_count := 256
  cache_hits := 0
  cache_misses := 0
  hash_collisions := 0
  common_pairs := init_common_pairs_cache

/-- The common-pairs scan of `get_or_alloc_pair` (tui.c:2037-2044): find the
first matching entry and bump its `usage_count`, returning its pair number
and the updated list. -/
def bump_common (l : List common_pair_t) (fg bg : Int) :
    Option Int × List common_pair_t :=
  match l with
  | [] => (none, [])
  | p :: rest =>
    if p.fg = fg ∧ p.bg = bg then
      (some p.pair_num, { p with usage_count := p.usage_count + 1 } :: rest)
    else
      let (r, rest') := bump_common rest fg bg
      (r, p :: rest')

/-- The hash-chain walk of `get_or_alloc_pair` (tui.c:2050-2059): first node
whose packed key matches. -/
def chain_find (chain : List color_pair_node_t) (fg_bg : Nat) :
    Option color_pair_node_t :=
  chain.find? (fun n => n.fg_bg = fg_bg)

/-- Source `get_or_alloc_pair` (tui.c:2028-2094). -/
def get_or_alloc_pair (cs : color_state_t) (fg bg : Int) :
    Int × color_state_t :=
  -- Handle default case
  if fg = TUI_COLOR_WHITE ∧ bg = TUI_COLOR_BLACK then
    (0, { cs with cache := { cs.cache with
            cache_hits := cs.cache.cache_hits + 1 } })
  else
    -- First, check common pairs cache for fast lookup
    match bump_common cs.cache.common_pairs fg bg with
    | (some pn, common') =>
      (pn, { cs with cache := { cs.cache with
               common_pairs := common',
               cache_hits := cs.cache.cache_hits + 1 } })
    | (none, _) =>
      let fg_bg := pack_fg_bg fg bg
      let h := hash_color_pair fg_bg
      match chain_find (cs.cache.table h) fg_bg with
      | some node =>
        (node.pair_num, { cs with cache := { cs.cache with
            cache_hits := cs.cache.cache_hits + 1 } })
      | none =>
        -- collision statistics, then: not found, allocate new pair
        let cc := { cs.cache with
          hash_collisions :=
            cs.cache.hash_collisions + (cs.cache.table h).length,
          cache_misses := cs.cache.cache_misses + 1 }
        if TUI_COLOR_PAIRS ≤ cc.next_pair ∨ cc.node_count ≤ cc.node_used then
          -- Out of pairs or nodes, return default
          (0, { cs with cache := cc })
        else
          let node : color_pair_node_t :=
            ⟨fg_bg, cc.next_pair, fg, bg⟩
          let cc := { cc with
            node_used := cc.node_used + 1,
            next_pair := cc.next_pair + 1,
            table := fun b => if b = h then node :: cc.table b else cc.table b,
            allocated_count := cc.allocated_count + 1 }
          -- Also update legacy array for compatibility
          let pairs' :=
            if node.pair_num < TUI_COLOR_PAIRS then
              fun p => if p = node.pair_num then (fg, bg) else cs.color_pairs p
            else cs.color_pairs
          (node.pair_num, { cs with cache := cc, color_pairs := pairs' })

/-- Source `get_pair_colors` (tui.c:2098-2127), returning `(fg, bg, found)`.
The trailing linear scan of the node pool is only reachable for pair
numbers outside `[0, TUI_COLOR_PAIRS)`; since allocated `pair_num`s always
lie in `[1, TUI_COLOR_PAIRS)`, that scan never finds anything and falls
through to the same white-on-black default modelled here. -/
def get_pair_colors (cs : color_state_t) (pair : Int) : Int × Int × Bool :=
  if pair = 0 then (TUI_COLOR_WHITE, TUI_COLOR_BLACK, true)
  else if 0 < pair ∧ pair < TUI_COLOR_PAIRS then
    ((cs.color_pairs pair).1, (cs.color_pairs pair).2, true)
  else (TUI_COLOR_WHITE, TUI_COLOR_BLACK, false)

/-! ## Color definitions and the rendition-sequence builder -/

/-- The initial `color_defs` array (tui.c:352-361); entries 8..255 are
zero-initialised. -/
def color_defs_init : Int → Int × Int × Int := fun c =>
  if c = 0 then (0, 0, 0)
  else if c = 1 then (1000, 0, 0)
  else if c = 2 then (0, 1000, 0)
  else if c = 3 then (1000, 1000, 0)
  else if c = 4 then (0, 0, 1000)
  else if c = 5 then (1000, 0, 1000)
  else if c = 6 then (0, 1000, 1000)
  else if c = 7 then (1000, 1000, 1000)
  else (0, 0, 0)

/-- Source `tui_init_color` (tui.c:2480-2489). -/
def tui_init_color (defs : Int → Int × Int × Int) (color r g b : Int) :
    Int → Int × Int × Int :=
  if 0 ≤ color ∧ color < MAX_CUSTOM_COLORS then
    fun c => if c = color then (r, g, b) else defs c
  else defs

/-- Source `get_rgb_values` (tui.c:2709-2726): scale 0–1000 components to 0–255
only when some component exceeds 255, otherwise pass the values through. -/
def get_rgb_values (r g b : Int) : Int × Int × Int :=
  if 255 < r ∨ 255 < g ∨ 255 < b then
    (cdiv (r * 255) 1000, cdiv (g * 255) 1000, cdiv (b * 255) 1000)
  else (r, g, b)

/-- The foreground-color fragment of the rendition sequence
(tui.c:2420-2434): nothing for white; a truecolor `;38;2;R;G;B` triplet via
`get_rgb_values` for custom colors `8..255`; `;3N` for the basic colors. -/
def fg_color_directive (defs : Int → Int × Int × Int) (fg : Int) : String :=
  if fg ≠ TUI_COLOR_WHITE then
    if 8 ≤ fg ∧ fg < MAX_CUSTOM_COLORS then
      let (r, g, b) :=
        get_rgb_values (defs fg).1 (defs fg).2.1 (defs fg).2.2
      ";38;2;" ++ toString r ++ ";" ++ toString g ++ ";" ++ toString b
    else if fg < 8 then ";3" ++ toString fg
    else ""
  else ""

/-- The background-color fragment (tui.c:2437-2450). -/
def bg_color_directive (defs : Int → Int × Int × Int) (bg : Int) : String :=
  if bg ≠ TUI_COLOR_BLACK then
    if 8 ≤ bg ∧ bg < MAX_CUSTOM_COLORS then
      let (r, g, b) :=
        get_rgb_values (defs bg).1 (defs bg).2.1 (defs bg).2.2
      ";48;2;" ++ toString r ++ ";" ++ toString g ++ ";" ++ toString b
    else if bg < 8 then ";4" ++ toString bg
    else ""
  else ""

/-- The sequence text built by `get_cached_attr_sequence` (tui.c:2404-2454):
`ESC [ 0 [;1] [fg] [bg] m`.  On a cache hit the C function returns a
previously interned copy of the same bytes, so this builder is the byte
content of the returned sequence in either case. -/
def get_cached_attr_sequence (defs : Int → Int × Int × Int)
    (fg bg : Int) (attrs : Nat) : String :=
  "\x1b[0" ++ (if attrs &&& TUI_A_BOLD ≠ 0 then ";1" else "")
    ++ fg_color_directive defs fg ++ bg_color_directive defs bg ++ "m"

/-! ## Hierarchical / sparse dirty-region tracking -/

/-- State of `dirty_region` (tui.c:116-157) together with the sparse tile
pool (tui.c:98-114): bounding rectangle, dense tile arrays (as bit sets),
the sparse linked lists (most recently inserted first, as the C code
prepends), the membership bitmaps and the pool usage counter.  The free
list always holds exactly `DIRTY_TILE_POOL_SIZE - dirty_tile_pool_used`
nodes (nodes are only taken in `alloc_dirty_tile` and returned in
`reset_sparse_dirty_tracking`), so the counter determines it. -/
structure dirty_rec_t where
  min_row : Int
  max_row : Int
  min_col : Int
  max_col : Int
  has_changes : Bool
  l1_tiles : Nat
  l2_blocks : Nat
  l1_tiles_x : Int
  l1_tiles_y : Int
  l2_blocks_x : Int
  l2_blocks_y : Int
  use_hierarchical_tiles : Bool
  use_sparse_tracking : Bool
  frame_count : Nat
  sparse_beneficial_count : Nat
  prefer_sparse_mode : Bool
  dirty_l1_tiles : List (Nat × Nat)
  dirty_l2_blocks : List (Nat × Nat)
  l1_tile_bitmap : Nat
  l2_block_bitmap : Nat
  dirty_tile_pool_used : Nat
deriving DecidableEq

/-- Read one entry of the dense `bool l1_tiles[MAX_L1_TILES_Y][MAX_L1_TILES_X]`
array, stored as a bit set indexed `row * 128 + col`. -/
def l1_dense_get (bits : Nat) (r c : Int) : Bool :=
  if 0 ≤ r ∧ 0 ≤ c then bits.testBit (r * MAX_L1_TILES_X + c).toNat else false

/-- Write `true` into the dense L1 tile array.  A negative index would be an
out-of-bounds array write in C (unreachable from in-bounds cell writes); the
model leaves the bits unchanged in that case. -/
def l1_dense_set (bits : Nat) (r c : Int) : Nat :=
  if 0 ≤ r ∧ 0 ≤ c then bits ||| (1 <<< (r * MAX_L1_TILES_X + c).toNat)
  else bits

/-- Read one entry of the dense `bool l2_blocks[MAX_L2_BLOCKS_Y][MAX_L2_BLOCKS_X]`
array, stored as a bit set indexed `row * 32 + col`. -/
def l2_dense_get (bits : Nat) (r c : Int) : Bool :=
  if 0 ≤ r ∧ 0 ≤ c then bits.testBit (r * MAX_L2_BLOCKS_X + c).toNat else false

/-- Write `true` into the dense L2 block array (see `l1_dense_set`). -/
def l2_dense_set (bits : Nat) (r c : Int) : Nat :=
  if 0 ≤ r ∧ 0 ≤ c then bits ||| (1 <<< (r * MAX_L2_BLOCKS_X + c).toNat)
  else bits

/-- Source `check_l1_tile_bitmap` (tui.c:1199-1207); `bit_index =
tile_row * MAX_L1_TILES_X + tile_col`, bit `bit_index % 64` of word
`bit_index / 64`, which is bit `bit_index` of the whole bitmap. -/
def check_l1_tile_bitmap (bits : Nat) (tile_row tile_col : Int) : Bool :=
  if MAX_L1_TILES_Y ≤ tile_row ∨ MAX_L1_TILES_X ≤ tile_col then false
  else if 0 ≤ tile_row ∧ 0 ≤ tile_col then
    bits.testBit (tile_row * MAX_L1_TILES_X + tile_col).toNat
  else false

/-- Source `set_l1_tile_bitmap` (tui.c:1189-1197). -/
def set_l1_tile_bitmap (bits : Nat) (tile_row tile_col : Int) : Nat :=
  if MAX_L1_TILES_Y ≤ tile_row ∨ MAX_L1_TILES_X ≤ tile_col then bits
  else if 0 ≤ tile_row ∧ 0 ≤ tile_col then
    bits ||| (1 <<< (tile_row * MAX_L1_TILES_X + tile_col).toNat)
  else bits

/-- Source `check_l2_block_bitmap` (tui.c:1219-1227). -/
def check_l2_block_bitmap (bits : Nat) (block_row block_col : Int) : Bool :=
  if MAX_L2_BLOCKS_Y ≤ block_row ∨ MAX_L2_BLOCKS_X ≤ block_col then false
  else if 0 ≤ block_row ∧ 0 ≤ block_col then
    bits.testBit (block_row * MAX_L2_BLOCKS_X + block_col).toNat
  else false

/-- Source `set_l2_block_bitmap` (tui.c:1209-1217). -/
def set_l2_block_bitmap (bits : Nat) (block_row block_col : Int) : Nat :=
  if MAX_L2_BLOCKS_Y ≤ block_row ∨ MAX_L2_BLOCKS_X ≤ block_col then bits
  else if 0 ≤ block_row ∧ 0 ≤ block_col then
    bits ||| (1 <<< (block_row * MAX_L2_BLOCKS_X + block_col).toNat)
  else bits

/-- Source `add_sparse_l1_tile` (tui.c:1283-1296): skip if the bitmap already
records the tile, otherwise `alloc_dirty_tile` (which fails when the pool is
exhausted, tui.c:1164-1176) and on success prepend the tile and set its
bitmap bit.  Tile coordinates are stored as `uint16_t`. -/
def add_sparse_l1_tile (d : dirty_rec_t) (tile_row tile_col : Int) :
    dirty_rec_t :=
  if check_l1_tile_bitmap d.l1_tile_bitmap tile_row tile_col then d
  else if d.dirty_tile_pool_used < DIRTY_TILE_POOL_SIZE then
    { d with
      dirty_l1_tiles := (tile_row.toNat, tile_col.toNat) :: d.dirty_l1_tiles,
      l1_tile_bitmap := set_l1_tile_bitmap d.l1_tile_bitmap tile_row tile_col,
      dirty_tile_pool_used := d.dirty_tile_pool_used + 1 }
  else d

/-- Source `add_sparse_l2_block` (tui.c:1298-1311). -/
def add_sparse_l2_block (d : dirty_rec_t) (block_row block_col : Int) :
    dirty_rec_t :=
  if check_l2_block_bitmap d.l2_block_bitmap block_row block_col then d
  else if d.dirty_tile_pool_used < DIRTY_TILE_POOL_SIZE then
    { d with
      dirty_l2_blocks :=
        (block_row.toNat, block_col.toNat) :: d.dirty_l2_blocks,
      l2_block_bitmap :=
        set_l2_block_bitmap d.l2_block_bitmap block_row block_col,
      dirty_tile_pool_used := d.dirty_tile_pool_used + 1 }
  else d

/-- The bounding-rectangle part of `mark_dirty` (tui.c:1315-1323). -/
def mark_dirty_rect (d : dirty_rec_t) (row col : Int) : dirty_rec_t :=
  { d with
    min_row := if row < d.min_row then row else d.min_row,
    max_row := if d.max_row < row then row else d.max_row,
    min_col := if col < d.min_col then col else d.min_col,
    max_col := if d.max_col < col then col else d.max_col,
    has_changes := true }

/-- The L1 half of `mark_dirty` (tui.c:1326-1337): dense bit, then the
sparse insertion when sparse tracking is on. -/
def mark_dirty_l1 (d : dirty_rec_t) (l1_tile_row l1_tile_col : Int) :
    dirty_rec_t :=
  if l1_tile_row < d.l1_tiles_y ∧ l1_tile_col < d.l1_tiles_x then
    let d := { d with
      l1_tiles := l1_dense_set d.l1_tiles l1_tile_row l1_tile_col }
    if d.use_sparse_tracking then add_sparse_l1_tile d l1_tile_row l1_tile_col
    else d
  else d

/-- The L2 half of `mark_dirty` (tui.c:1339-1350). -/
def mark_dirty_l2 (d : dirty_rec_t) (l2_block_row l2_block_col : Int) :
    dirty_rec_t :=
  if l2_block_row < d.l2_blocks_y ∧ l2_block_col < d.l2_blocks_x then
    let d := { d with
      l2_blocks := l2_dense_set d.l2_blocks l2_block_row l2_block_col }
    if d.use_sparse_tracking then
      add_sparse_l2_block d l2_block_row l2_block_col
    else d
  else d

/-- Source `mark_dirty` (tui.c:1313-1351). -/
def mark_dirty (d : dirty_rec_t) (row col : Int) : dirty_rec_t :=
  let d := mark_dirty_rect d row col
  if d.use_hierarchical_tiles then
    mark_dirty_l2
      (mark_dirty_l1 d (cdiv row TILE_L1_SIZE) (cdiv col TILE_L1_SIZE))
      (cdiv row TILE_L2_SIZE) (cdiv col TILE_L2_SIZE)
  else d

/-- One row of the L1 tile loop of `mark_dirty_region` (tui.c:1373-1384),
columns `tc1 .. tc2` (the caller has already folded the
`tc < l1_tiles_x` bound into `tc2`; the loop body does not change
`l1_tiles_x`). -/
def mark_l1_rect_row (d : dirty_rec_t) (tr tc1 tc2 : Int) : dirty_rec_t :=
  forInt (tc2 + 1 - tc1).toNat tc1 tc2
    (fun tc d =>
      let d := { d with l1_tiles := l1_dense_set d.l1_tiles tr tc }
      if d.use_sparse_tracking then add_sparse_l1_tile d tr tc else d) d

/-- The L1 tile double loop of `mark_dirty_region` (tui.c:1367-1384). -/
def mark_l1_rect (d : dirty_rec_t) (tr1 tr2 tc1 tc2 : Int) : dirty_rec_t :=
  forInt (tr2 + 1 - tr1).toNat tr1 tr2
    (fun tr d => mark_l1_rect_row d tr tc1 tc2) d

/-- One row of the L2 block loop of `mark_dirty_region` (tui.c:1392-1402). -/
def mark_l2_rect_row (d : dirty_rec_t) (br bc1 bc2 : Int) : dirty_rec_t :=
  forInt (bc2 + 1 - bc1).toNat bc1 bc2
    (fun bc d =>
      let d := { d with l2_blocks := l2_dense_set d.l2_blocks br bc }
      if d.use_sparse_tracking then add_sparse_l2_block d br bc else d) d

/-- The L2 block double loop of `mark_dirty_region` (tui.c:1386-1402). -/
def mark_l2_rect (d : dirty_rec_t) (br1 br2 bc1 bc2 : Int) : dirty_rec_t :=
  forInt (br2 + 1 - br1).toNat br1 br2
    (fun br d => mark_l2_rect_row d br bc1 bc2) d

/-- Source `mark_dirty_region` (tui.c:1353-1404).  The loop bound
`tr <= l1_tile_row2 && tr < l1_tiles_y` is folded into the upper limit
`min l1_tile_row2 (l1_tiles_y - 1)` (the body never changes the tile
counts), and likewise for the other three limits. -/
def mark_dirty_region (d : dirty_rec_t) (row1 col1 row2 col2 : Int) :
    dirty_rec_t :=
  let d := { d with
    min_row := if row1 < d.min_row then row1 else d.min_row,
    max_row := if d.max_row < row2 then row2 else d.max_row,
    min_col := if col1 < d.min_col then col1 else d.min_col,
    max_col := if d.max_col < col2 then col2 else d.max_col,
    has_changes := true }
  if d.use_hierarchical_tiles then
    let d := mark_l1_rect d (cdiv row1 TILE_L1_SIZE)
      (min (cdiv row2 TILE_L1_SIZE) (d.l1_tiles_y - 1))
      (cdiv col1 TILE_L1_SIZE)
      (min (cdiv col2 TILE_L1_SIZE) (d.l1_tiles_x - 1))
    mark_l2_rect d (cdiv row1 TILE_L2_SIZE)
      (min (cdiv row2 TILE_L2_SIZE) (d.l2_blocks_y - 1))
      (cdiv col1 TILE_L2_SIZE)
      (min (cdiv col2 TILE_L2_SIZE) (d.l2_blocks_x - 1))
  else d

/-- Source `reset_sparse_dirty_tracking` (tui.c:1229-1251): every node of
both lists is returned to the free list (`dirty_tile_pool_used` drops by
the number of listed tiles) and the bitmaps are cleared. -/
def reset_sparse_dirty_tracking (d : dirty_rec_t) : dirty_rec_t :=
  { d with
    dirty_tile_pool_used :=
      d.dirty_tile_pool_used -
        (d.dirty_l1_tiles.length + d.dirty_l2_blocks.length),
    dirty_l1_tiles := [],
    dirty_l2_blocks := [],
    l1_tile_bitmap := 0,
    l2_block_bitmap := 0 }

/-- Source `reset_dirty_region` (tui.c:1406-1424). -/
def reset_dirty_region (d : dirty_rec_t) : dirty_rec_t :=
  let d := { d with
    min_row := INT_MAX, max_row := -1,
    min_col := INT_MAX, max_col := -1,
    has_changes := false }
  let d :=
    if d.use_hierarchical_tiles then { d with l1_tiles := 0, l2_blocks := 0 }
    else d
  if d.use_sparse_tracking then reset_sparse_dirty_tracking d else d

/-- Source `has_l1_tile_changes` (tui.c:1427-1435). -/
def has_l1_tile_changes (d : dirty_rec_t) (tile_row tile_col : Int) : Bool :=
  if ¬d.use_hierarchical_tiles then true
  else tile_row < d.l1_tiles_y ∧ tile_col < d.l1_tiles_x ∧
    l1_dense_get d.l1_tiles tile_row tile_col

/-- Source `has_l2_block_changes` (tui.c:1437-1445). -/
def has_l2_block_changes (d : dirty_rec_t) (block_row block_col : Int) : Bool :=
  if ¬d.use_hierarchical_tiles then true
  else block_row < d.l2_blocks_y ∧ block_col < d.l2_blocks_x ∧
    l2_dense_get d.l2_blocks block_row block_col

/-- Source `init_hierarchical_dirty_tracking` (tui.c:1254-1280). -/
def init_hierarchical_dirty_tracking (d : dirty_rec_t)
    (screen_cols screen_rows : Int) : dirty_rec_t :=
  let d := { d with
    l1_tiles_x := cdiv (screen_cols + TILE_L1_SIZE - 1) TILE_L1_SIZE,
    l1_tiles_y := cdiv (screen_rows + TILE_L1_SIZE - 1) TILE_L1_SIZE,
    l2_blocks_x := cdiv (screen_cols + TILE_L2_SIZE - 1) TILE_L2_SIZE,
    l2_blocks_y := cdiv (screen_rows + TILE_L2_SIZE - 1) TILE_L2_SIZE }
  if d.l1_tiles_x ≤ MAX_L1_TILES_X ∧ d.l1_tiles_y ≤ MAX_L1_TILES_Y ∧
      d.l2_blocks_x ≤ MAX_L2_BLOCKS_X ∧ d.l2_blocks_y ≤ MAX_L2_BLOCKS_Y then
    { d with use_hierarchical_tiles := true, l1_tiles := 0, l2_blocks := 0 }
  else d

/-- Source `init_sparse_dirty_tracking` (tui.c:1148-1161): rebuild the free
list (pool usage 0, no tiles outstanding) and enable sparse tracking. -/
def init_sparse_dirty_tracking (d : dirty_rec_t) : dirty_rec_t :=
  { d with
    dirty_l1_tiles := [], dirty_l2_blocks := [],
    dirty_tile_pool_used := 0,
    use_sparse_tracking := true }

/-- The static initializer of `dirty_region` (tui.c:143-157) together with
the zero-initialised bitmaps and pool. -/
def dirty_region_init : dirty_rec_t where
  min_row := INT_MAX
  max_row := -1
  min_col := INT_MAX
  max_col := -1
  has_changes := false
  l1_tiles := 0
  l2_blocks := 0
  l1_tiles_x := 0
  l1_tiles_y := 0
  l2_blocks_x := 0
  l2_blocks_y := 0
  use_hierarchical_tiles := false
  use_sparse_tracking := false
  frame_count := 0
  sparse_beneficial_count := 0
  prefer_sparse_mode := false
  dirty_l1_tiles := []
  dirty_l2_blocks := []
  l1_tile_bitmap := 0
  l2_block_bitmap := 0
  dirty_tile_pool_used := 0

/-! ## Output tokens and the engine state -/

/-- Bytes of a Lean string (all sequences emitted by the engine are ASCII). -/
def strBytes (s : String) : List Nat := s.toList.map Char.toNat

/-- One call to `tui_write` made during rendering, with the bytes it hands
to the output buffer:
* `moveAbs row col` — an absolute cursor-position sequence
  `ESC [ row+1 ; col+1 H` (emitted from the precomputed pool, the runtime
  cursor cache or the dynamic `snprintf` fallback, whose bytes coincide);
* `moveRel bytes` — a relative cursor movement (the `"\r\n"` / `"\r"`
  special cases or a composed `ESC [ n A/B/C/D` sequence);
* `attrSeq bytes` — a rendition sequence emitted by `apply_attributes`;
* `chars bytes` — the characters of a run from `output_buffered_run`;
* `reset` — the final `ESC [ 0 m` reset of a refresh pass. -/
inductive out_tok
  | moveAbs (row col : Int)
  | moveRel (bytes : List Nat)
  | attrSeq (bytes : List Nat)
  | chars (bytes : List Nat)
  | reset
deriving DecidableEq

/-- The absolute cursor-position sequence `"\x1b[%d;%dH"` with 1-based
coordinates (tui.c:982, 1117, 2171). -/
def cursor_position_bytes (row col : Int) : List Nat :=
  strBytes ("\x1b[" ++ toString (row + 1) ++ ";" ++ toString (col + 1) ++ "H")

/-- The bytes a token stands for. -/
def out_tok.bytes : out_tok → List Nat
  | out_tok.moveAbs row col => cursor_position_bytes row col
  | out_tok.moveRel bs => bs
  | out_tok.attrSeq bs => bs
  | out_tok.chars bs => bs
  | out_tok.reset => strBytes "\x1b[0m"

/-- All bytes of a token stream, in order. -/
def out_bytes (toks : List out_tok) : List Nat :=
  (toks.map out_tok.bytes).flatten

/-- Cursor position cache (tui.c:81-87): only the tracked last position; the
precomputed sequence tables hold fixed strings and need no state. -/
structure cursor_cache_t where
  last_row : Int
  last_col : Int
deriving DecidableEq

/-- Source `attr_state` (tui.c:160-170). -/
structure attr_state_t where
  last_fg : Int
  last_bg : Int
  last_attrs : Int
  initialized : Bool
deriving DecidableEq

/-- Source `reset_attr_state` (tui.c:1658-1664). -/
def reset_attr_state : attr_state_t :=
  ⟨-1, -1, -1, false⟩

/-- The engine state: grid dimensions (`buf_rows`/`buf_cols` fixed at
allocation), the cached terminal extents (`tui_lines`/`tui_cols`), the four
grids, the dirty tracker, the cursor and attribute caches, the color
subsystem, capability flags, the primary window's extent/cursor fields
(`tui_stdscr->maxy/maxx/cury/curx`), the emitted token stream `out`, and
`acc`, the log of grid cells accessed by `tui_print_at`, the refresh scan
loops and the tile scanner (each entry is the `(row, col)` index of a read
or write of one of the four grid arrays). -/
structure tui_st where
  buf_rows : Int
  buf_cols : Int
  tui_lines : Int
  tui_cols : Int
  screen_buf : Int → Int → Nat
  prev_screen_buf : Int → Int → Nat
  attr_buf : Int → Int → Nat
  prev_attr_buf : Int → Int → Nat
  dirty : dirty_rec_t
  cursor : cursor_cache_t
  attr_state : attr_state_t
  colors : color_state_t
  color_defs : Int → Int × Int × Int
  supports_unicode : Bool
  use_writev : Bool
  auto_flush : Bool
  std_maxy : Int
  std_maxx : Int
  std_cury : Int
  std_curx : Int
  out : List out_tok
  acc : List (Int × Int)

/-- A `tui_window_t` (tui.h:73-82); the per-row dirty flags of sub-windows
are a function of the row index, and `has_dirty` records whether the
`dirty` array was allocated (`tui_newwin` allocates it; the primary window
`tui_stdscr` has `dirty == NULL`). -/
structure tui_window_t where
  begy : Int
  begx : Int
  maxy : Int
  maxx : Int
  cury : Int
  curx : Int
  attr : Nat
  bkgd : Nat
  has_dirty : Bool
  dirtyRows : Int → Bool

/-- Append one output token. -/
def emitTok (s : tui_st) (t : out_tok) : tui_st :=
  { s with out := s.out ++ [t] }

/-- Record a list of grid-cell accesses. -/
def logAcc (s : tui_st) (l : List (Int × Int)) : tui_st :=
  { s with acc := s.acc ++ l }

/-- Record a single grid-cell access. -/
def logCell (s : tui_st) (r c : Int) : tui_st :=
  { s with acc := s.acc ++ [(r, c)] }

/-! ## Cursor movement (`tui_move_cached`) -/

/-- The composed relative-movement bytes of `tui_move_cached`
(tui.c:1026-1074): vertical part (`ESC [ n A/B`, single step without the
count) then horizontal part (`ESC [ n C/D`). -/
def rel_move_bytes (row_diff col_diff : Int) : List Nat :=
  (if 0 < row_diff then
    (if row_diff = 1 then strBytes "\x1b[B"
     else strBytes ("\x1b[" ++ toString row_diff ++ "B"))
   else if row_diff < 0 then
    (if row_diff = -1 then strBytes "\x1b[A"
     else strBytes ("\x1b[" ++ toString (-row_diff) ++ "A"))
   else []) ++
  (if 0 < col_diff then
    (if col_diff = 1 then strBytes "\x1b[C"
     else strBytes ("\x1b[" ++ toString col_diff ++ "C"))
   else if col_diff < 0 then
    (if col_diff = -1 then strBytes "\x1b[D"
     else strBytes ("\x1b[" ++ toString (-col_diff) ++ "D"))
   else [])

/-- Source `tui_move_cached` (tui.c:1002-1127).  No-op when already at the
target; for small deltas (≤ 5 in both axes from a known position) emit the
`"\r\n"` / `"\r"` special cases or the composed relative sequence; otherwise
emit the absolute position sequence (the precomputed pool, the runtime
cache and the interned `snprintf` fallback all produce the same
`"\x1b[%d;%dH"` bytes, so they are one `moveAbs` token). -/
def tui_move_cached (s : tui_st) (row col : Int) : tui_st :=
  if row = s.cursor.last_row ∧ col = s.cursor.last_col then s
  else
    let rel : Option out_tok :=
      if 0 ≤ s.cursor.last_row ∧ 0 ≤ s.cursor.last_col then
        let row_diff := row - s.cursor.last_row
        let col_diff := col - s.cursor.last_col
        if row_diff.natAbs ≤ 5 ∧ col_diff.natAbs ≤ 5 then
          if row_diff = 1 ∧ col = 0 then
            some (out_tok.moveRel (strBytes "\r\n"))
          else if row_diff = 0 ∧ col = 0 ∧ 0 < s.cursor.last_col then
            some (out_tok.moveRel (strBytes "\r"))
          else
            let b := rel_move_bytes row_diff col_diff
            if 0 < b.length then some (out_tok.moveRel b) else none
        else none
      else none
    match rel with
    | some t =>
      { s with out := s.out ++ [t], cursor := ⟨row, col⟩ }
    | none =>
      { s with out := s.out ++ [out_tok.moveAbs row col],
               cursor := ⟨row, col⟩ }

/-! ## Attribute application (`apply_attributes`) -/

/-- Source `apply_attributes` (tui.c:2823-2927): extract the pair colors
(white on black unless colors are initialised and `TUI_A_COLOR` bits are
present), mask out the color bits, skip if the state is unchanged, else
emit the cached rendition sequence (`esc_seq_cache` is initialised for the
whole life of the engine, so the manual fallback branch is unreachable)
and record the new state. -/
def apply_attributes (s : tui_st) (attr : Nat) : tui_st :=
  let fgbg : Int × Int :=
    if s.colors.colors_initialized ∧ attr &&& TUI_A_COLOR ≠ 0 then
      let pc := get_pair_colors s.colors (TUI_PAIR_NUMBER attr)
      (pc.1, pc.2.1)
    else (TUI_COLOR_WHITE, TUI_COLOR_BLACK)
  let text_attrs := maskOutColor attr
  if s.attr_state.initialized ∧ s.attr_state.last_fg = fgbg.1 ∧
      s.attr_state.last_bg = fgbg.2 ∧
      s.attr_state.last_attrs = (text_attrs : Int) then s
  else
    let bytes :=
      strBytes (get_cached_attr_sequence s.color_defs fgbg.1 fgbg.2 text_attrs)
    { s with
      out := s.out ++ [out_tok.attrSeq bytes],
      attr_state := ⟨fgbg.1, fgbg.2, (text_attrs : Int), true⟩ }

/-! ## Run output (`output_buffered_run`) -/

/-- The copy loop shared by both variants of `output_buffered_run`
(tui.c:2746-2750 and 2802-2806): read each cell of the run, append its byte
to the run buffer and commit it to the physical snapshot
(`prev_screen_buf[y][x] = screen_buf[y][x]`,
`prev_attr_buf[y][x] = attr_buf[y][x]`). -/
def run_copy_cells (s : tui_st) (y start_x end_x : Int) :
    List Nat × tui_st :=
  forInt (end_x + 1 - start_x).toNat start_x end_x
    (fun x (p : List Nat × tui_st) =>
      let s := p.2
      let ch := s.screen_buf y x
      let s := logCell s y x
      let s := { s with
        prev_screen_buf := upd2 s.prev_screen_buf y x ch,
        prev_attr_buf := upd2 s.prev_attr_buf y x (s.attr_buf y x) }
      (p.1 ++ [ch], s))
    ([], s)

/-- The per-character fallback of both variants (tui.c:2766-2771 and
2811-2816): one `tui_putchar` per cell, same snapshot commit. -/
def run_putchar_cells (s : tui_st) (y start_x end_x : Int) : tui_st :=
  forInt (end_x + 1 - start_x).toNat start_x end_x
    (fun x s =>
      let ch := s.screen_buf y x
      let s := logCell s y x
      let s := { s with
        prev_screen_buf := upd2 s.prev_screen_buf y x ch,
        prev_attr_buf := upd2 s.prev_attr_buf y x (s.attr_buf y x) }
      emitTok s (out_tok.chars [ch]))
    s

/-- Source `output_buffered_run_vectored` (tui.c:2728-2776): for runs of at
most 512 cells, move the cursor if the tracked column disagrees with the
run start, collect the run into one buffer and emit it as a single write;
longer runs fall back to per-character output.  The opportunistic
mid-refresh `tui_flush_vectored` call only flushes already-offered bytes
(it emits nothing new) and is not part of the token stream. -/
def output_buffered_run_vectored (s : tui_st) (y start_x end_x : Int) :
    tui_st :=
  let run_len := end_x - start_x + 1
  let s :=
    if run_len ≤ 512 then
      let s :=
        if s.cursor.last_col ≠ start_x then tui_move_cached s y start_x else s
      let p := run_copy_cells s y start_x end_x
      emitTok p.2 (out_tok.chars p.1)
    else run_putchar_cells s y start_x end_x
  { s with cursor := { s.cursor with last_col := end_x + 1 } }

/-- The non-vectored `output_buffered_run` body (tui.c:2791-2820): cursor
move first (if the tracked column disagrees), then one buffered write for
runs of at most 256 cells, else per-character output. -/
def output_buffered_run_fallback (s : tui_st) (y start_x end_x : Int) :
    tui_st :=
  let s :=
    if s.cursor.last_col ≠ start_x then tui_move_cached s y start_x else s
  let run_len := end_x - start_x + 1
  let s :=
    if run_len ≤ 256 then
      let p := run_copy_cells s y start_x end_x
      emitTok p.2 (out_tok.chars p.1)
    else run_putchar_cells s y start_x end_x
  { s with cursor := { s.cursor with last_col := end_x + 1 } }

/-- Source `output_buffered_run` (tui.c:2778-2821). -/
def output_buffered_run (s : tui_st) (y start_x end_x : Int) : tui_st :=
  if s.use_writev then output_buffered_run_vectored s y start_x end_x
  else output_buffered_run_fallback s y start_x end_x

/-! ## Change detection -/

/-- The cell-difference test used by every scan
(`screen_buf[y][x] != prev_screen_buf[y][x] ||
 attr_buf[y][x] != prev_attr_buf[y][x]`). -/
def changed_cell (s : tui_st) (y x : Int) : Bool :=
  s.screen_buf y x != s.prev_screen_buf y x ||
    s.attr_buf y x != s.prev_attr_buf y x

/-- Source `row_has_changes` (tui.c:413-430): guarded against rows/columns
at or beyond the buffer, then a bulk compare of the characters and, when
those agree, of the attributes, over `[start_col, end_col]`.  The `memcmp`
contract may touch the whole range, so the whole range is logged. -/
def row_has_changes (s : tui_st) (y start_col end_col : Int) :
    Bool × tui_st :=
  if s.buf_rows ≤ y ∨ s.buf_cols ≤ start_col ∨ s.buf_cols ≤ end_col then
    (false, s)
  else
    let cells := intRange start_col end_col
    let s := logAcc s (cells.map (fun c => (y, c)))
    ((cells.any fun c => s.screen_buf y c != s.prev_screen_buf y c) ||
     (cells.any fun c => s.attr_buf y c != s.prev_attr_buf y c), s)

/-- The row walk of `col_has_changes` (tui.c:1587-1592), with its early
exit at the first difference. -/
def col_scan_rows (s : tui_st) (x y end_row : Int) (fuel : Nat) :
    Bool × tui_st :=
  match fuel with
  | 0 => (false, s)
  | fuel + 1 =>
    if y ≤ end_row then
      let s := logCell s y x
      if changed_cell s y x then (true, s)
      else col_scan_rows s x (y + 1) end_row fuel
    else (false, s)

/-- Source `col_has_changes` (tui.c:1582-1594). -/
def col_has_changes (s : tui_st) (x start_row end_row : Int) :
    Bool × tui_st :=
  if s.buf_cols ≤ x ∨ s.buf_rows ≤ start_row ∨ s.buf_rows ≤ end_row then
    (false, s)
  else col_scan_rows s x start_row end_row ((end_row + 1 - start_row).toNat)

/-! ## Dirty-rectangle tightening (`optimize_dirty_region`) -/

/-- The top-down search for the first changed row (tui.c:1608-1616). -/
def find_min_row (s : tui_st) (y max_row mincol endcol : Int) (fuel : Nat) :
    Option Int × tui_st :=
  match fuel with
  | 0 => (none, s)
  | fuel + 1 =>
    if y ≤ max_row ∧ y < s.buf_rows then
      let p := row_has_changes s y mincol endcol
      if p.1 then (some y, p.2)
      else find_min_row p.2 (y + 1) max_row mincol endcol fuel
    else (none, s)

/-- The bottom-up search for the last changed row (tui.c:1619-1627); the
loop runs while `y >= min_row && y >= 0`, that is down to `lo`. -/
def find_max_row (s : tui_st) (y lo mincol endcol : Int) (fuel : Nat) :
    Option Int × tui_st :=
  match fuel with
  | 0 => (none, s)
  | fuel + 1 =>
    if lo ≤ y then
      let p := row_has_changes s y mincol endcol
      if p.1 then (some y, p.2)
      else find_max_row p.2 (y - 1) lo mincol endcol fuel
    else (none, s)

/-- The left-to-right search for the first changed column (tui.c:1636-1642). -/
def find_min_col (s : tui_st) (x max_col top bot : Int) (fuel : Nat) :
    Option Int × tui_st :=
  match fuel with
  | 0 => (none, s)
  | fuel + 1 =>
    if x ≤ max_col ∧ x < s.buf_cols then
      let p := col_has_changes s x top bot
      if p.1 then (some x, p.2)
      else find_min_col p.2 (x + 1) max_col top bot fuel
    else (none, s)

/-- The right-to-left search for the last changed column (tui.c:1645-1651). -/
def find_max_col (s : tui_st) (x lo top bot : Int) (fuel : Nat) :
    Option Int × tui_st :=
  match fuel with
  | 0 => (none, s)
  | fuel + 1 =>
    if lo ≤ x then
      let p := col_has_changes s x top bot
      if p.1 then (some x, p.2)
      else find_max_col p.2 (x - 1) lo top bot fuel
    else (none, s)

/-- Source `optimize_dirty_region` (tui.c:1597-1656). -/
def optimize_dirty_region (s : tui_st) : tui_st :=
  if ¬s.dirty.has_changes then s
  else
    let omn_r := s.dirty.min_row
    let omx_r := s.dirty.max_row
    let omn_c := s.dirty.min_col
    let omx_c := s.dirty.max_col
    let endcol := if omx_c < s.buf_cols then omx_c else s.buf_cols - 1
    let p1 := find_min_row s omn_r omx_r omn_c endcol (omx_r + 1 - omn_r).toNat
    let new_min_row := p1.1.getD INT_MAX
    let p2 := find_max_row p1.2 omx_r (max new_min_row 0) omn_c endcol
      (omx_r + 1 - max new_min_row 0).toNat
    let new_max_row := p2.1.getD (-1)
    if new_min_row = INT_MAX ∨ new_max_row = -1 then
      { p2.2 with dirty := { p2.2.dirty with
          min_row := new_min_row, max_row := new_max_row,
          has_changes := false } }
    else
      let p3 := find_min_col p2.2 omn_c omx_c new_min_row new_max_row
        (omx_c + 1 - omn_c).toNat
      let new_min_col := p3.1.getD INT_MAX
      let p4 := find_max_col p3.2 omx_c (max new_min_col 0) new_min_row
        new_max_row (omx_c + 1 - max new_min_col 0).toNat
      let new_max_col := p4.1.getD (-1)
      let d := { p4.2.dirty with
        min_row := new_min_row, max_row := new_max_row,
        min_col := new_min_col, max_col := new_max_col }
      let d :=
        if new_min_col = INT_MAX ∨ new_max_col = -1 then
          { d with has_changes := false }
        else d
      { p4.2 with dirty := d }

/-! ## Scan bounds and strategy choice (tui.c:2950-3011) -/

/-- The tightened scan rectangle of `tui_refresh` (tui.c:2951-2964). -/
structure scan_bounds_t where
  smin_row : Int
  smax_row : Int
  smin_col : Int
  smax_col : Int
deriving DecidableEq

/-- Scan-area computation of `tui_refresh` (tui.c:2951-2964): clamp the
dirty rectangle to the buffer, then to the terminal extents. -/
def compute_scan_bounds (s : tui_st) : scan_bounds_t :=
  let r1 := if 0 ≤ s.dirty.min_row then s.dirty.min_row else 0
  let r2 := if s.dirty.max_row < s.buf_rows then s.dirty.max_row
            else s.buf_rows - 1
  let c1 := if 0 ≤ s.dirty.min_col then s.dirty.min_col else 0
  let c2 := if s.dirty.max_col < s.buf_cols then s.dirty.max_col
            else s.buf_cols - 1
  { smin_row := if r1 < s.tui_lines then r1 else s.tui_lines - 1,
    smax_row := if r2 < s.tui_lines then r2 else s.tui_lines - 1,
    smin_col := if c1 < s.tui_cols then c1 else s.tui_cols - 1,
    smax_col := if c2 < s.tui_cols then c2 else s.tui_cols - 1 }

/-- The capped sparse-tile count of `tui_refresh` (tui.c:2973-2979):
walk the list, stopping at 100. -/
def count_sparse_capped (l : List (Nat × Nat)) (count : Nat) : Nat :=
  match l with
  | [] => count
  | _ :: rest =>
    if count < 100 then count_sparse_capped rest (count + 1) else count

/-- The adaptive strategy selection of `tui_refresh` (tui.c:2966-3011):
bump `frame_count`, count the sparse tiles (capped), judge whether sparse
scanning would be beneficial (tile count below a third of the covered tile
area), update the 60-frame windowed preference, and decide
`use_sparse_scanning`.  Returns the state with the updated counters and
the decision. -/
def choose_scan_strategy (s : tui_st) (b : scan_bounds_t) :
    tui_st × Bool :=
  let d := { s.dirty with frame_count := s.dirty.frame_count + 1 }
  if d.use_sparse_tracking then
    let cnt := count_sparse_capped d.dirty_l1_tiles 0
    let scan_area :=
      (b.smax_row - b.smin_row + 1) * (b.smax_col - b.smin_col + 1)
    let tile_area := cdiv scan_area (TILE_L1_SIZE * TILE_L1_SIZE)
    let beneficial := 0 < cnt ∧ (cnt : Int) < cdiv tile_area 3
    let d :=
      if beneficial then
        { d with sparse_beneficial_count := d.sparse_beneficial_count + 1 }
      else d
    let d :=
      if d.frame_count % 60 = 0 then
        if 30 < d.sparse_beneficial_count then
          { d with prefer_sparse_mode := true, sparse_beneficial_count := 0 }
        else if d.sparse_beneficial_count < 15 then
          { d with prefer_sparse_mode := false, sparse_beneficial_count := 0 }
        else { d with sparse_beneficial_count := 0 }
      else d
    let use_sparse := beneficial ∨
      (d.prefer_sparse_mode ∧ 0 < cnt ∧ (cnt : Int) < cdiv tile_area 2)
    ({ s with dirty := d }, use_sparse)
  else ({ s with dirty := d }, false)

/-! ## The tile scanner (`scan_l1_tile`) -/

/-- The run-extension loop of `scan_l1_tile` (tui.c:1547-1555): extend the
run while the next cell is inside the tile and the scan region, carries the
same attribute, and differs from the snapshot. -/
def tile_run_extend (s : tui_st) (y end_col scan_max_col : Int)
    (curr_attr : Nat) (end_x : Int) (fuel : Nat) : Int × tui_st :=
  match fuel with
  | 0 => (end_x, s)
  | fuel + 1 =>
    if end_x + 1 < end_col ∧ end_x + 1 ≤ scan_max_col then
      let s := logCell s y (end_x + 1)
      if s.attr_buf y (end_x + 1) = curr_attr ∧ changed_cell s y (end_x + 1)
      then tile_run_extend s y end_col scan_max_col curr_attr (end_x + 1) fuel
      else (end_x, s)
    else (end_x, s)

/-- One row of `scan_l1_tile` (tui.c:1534-1578): walk the columns, and for
each changed cell build the run, emit cursor move, attributes and the run
characters, and continue past the run. -/
def scan_tile_row (s : tui_st) (hc : Bool) (y end_col scan_max_col x : Int)
    (fuel : Nat) : tui_st × Bool :=
  match fuel with
  | 0 => (s, hc)
  | fuel + 1 =>
    if x < end_col then
      let s := logCell s y x
      if changed_cell s y x then
        let curr_attr := s.attr_buf y x
        let p := tile_run_extend s y end_col scan_max_col curr_attr x
          ((end_col - x).toNat)
        let end_x := p.1
        let s := tui_move_cached p.2 y x
        let s := apply_attributes s curr_attr
        let s := output_buffered_run s y x end_x
        let s := { s with cursor := { s.cursor with last_col := end_x + 1 } }
        scan_tile_row s true y end_col scan_max_col (end_x + 1) fuel
      else scan_tile_row s hc y end_col scan_max_col (x + 1) fuel
    else (s, hc)

/-- Source `scan_l1_tile` (tui.c:1499-1579): clamp the 8×8 tile to the
buffer, the terminal extents and the scan region, then scan each row. -/
def scan_l1_tile (s : tui_st) (hc : Bool)
    (tile_row tile_col scan_min_row scan_max_row scan_min_col scan_max_col :
      Int) : tui_st × Bool :=
  let end_row0 := min (min ((tile_row + 1) * TILE_L1_SIZE) s.buf_rows)
    s.tui_lines
  let end_col0 := min (min ((tile_col + 1) * TILE_L1_SIZE) s.buf_cols)
    s.tui_cols
  let start_row := max (tile_row * TILE_L1_SIZE) scan_min_row
  let end_row := min end_row0 (scan_max_row + 1)
  let start_col := max (tile_col * TILE_L1_SIZE) scan_min_col
  let end_col := min end_col0 (scan_max_col + 1)
  forInt (end_row - start_row).toNat start_row (end_row - 1)
    (fun y (p : tui_st × Bool) =>
      scan_tile_row p.1 p.2 y end_col scan_max_col start_col
        ((end_col - start_col).toNat))
    (s, hc)

/-! ## The three scan drivers and the linear fallback (tui.c:3013-3248) -/

/-- The sparse scan (tui.c:3013-3040): iterate the dirty L1 tile list and
scan every tile whose 8×8 box intersects the scan region. -/
def scan_sparse_list (s : tui_st) (hc : Bool) (tiles : List (Nat × Nat))
    (b : scan_bounds_t) : tui_st × Bool :=
  match tiles with
  | [] => (s, hc)
  | t :: rest =>
    let tile_row : Int := t.1
    let tile_col : Int := t.2
    let tile_start_row := tile_row * TILE_L1_SIZE
    let tile_end_row := tile_start_row + TILE_L1_SIZE - 1
    let tile_start_col := tile_col * TILE_L1_SIZE
    let tile_end_col := tile_start_col + TILE_L1_SIZE - 1
    let p :=
      if b.smin_row ≤ tile_end_row ∧ tile_start_row ≤ b.smax_row ∧
          b.smin_col ≤ tile_end_col ∧ tile_start_col ≤ b.smax_col then
        scan_l1_tile s hc tile_row tile_col b.smin_row b.smax_row
          b.smin_col b.smax_col
      else (s, hc)
    scan_sparse_list p.1 p.2 rest b

/-- The inner L1 walk of the sparse hierarchical scan (tui.c:3061-3094):
scan the listed L1 tiles that belong to the given L2 block and intersect
the scan region. -/
def scan_sparse_hier_l1 (s : tui_st) (hc : Bool) (l1s : List (Nat × Nat))
    (l2_row l2_col : Int) (b : scan_bounds_t) : tui_st × Bool :=
  match l1s with
  | [] => (s, hc)
  | t :: rest =>
    let l1_row : Int := t.1
    let l1_col : Int := t.2
    let p :=
      if cdiv l1_row (TILE_L2_SIZE / TILE_L1_SIZE) = l2_row ∧
          cdiv l1_col (TILE_L2_SIZE / TILE_L1_SIZE) = l2_col then
        let l1_start_row := l1_row * TILE_L1_SIZE
        let l1_end_row := l1_start_row + TILE_L1_SIZE - 1
        let l1_start_col := l1_col * TILE_L1_SIZE
        let l1_end_col := l1_start_col + TILE_L1_SIZE - 1
        if b.smin_row ≤ l1_end_row ∧ l1_start_row ≤ b.smax_row ∧
            b.smin_col ≤ l1_end_col ∧ l1_start_col ≤ b.smax_col then
          scan_l1_tile s hc l1_row l1_col b.smin_row b.smax_row
            b.smin_col b.smax_col
        else (s, hc)
      else (s, hc)
    scan_sparse_hier_l1 p.1 p.2 rest l2_row l2_col b

/-- The sparse hierarchical scan (tui.c:3045-3097): iterate the dirty L2
block list; for each block intersecting the scan region, walk the L1 list
for its member tiles. -/
def scan_sparse_hier (s : tui_st) (hc : Bool) (l2s : List (Nat × Nat))
    (l1s : List (Nat × Nat)) (b : scan_bounds_t) : tui_st × Bool :=
  match l2s with
  | [] => (s, hc)
  | blk :: rest =>
    let l2_row : Int := blk.1
    let l2_col : Int := blk.2
    let l2_start_row := l2_row * TILE_L2_SIZE
    let l2_end_row := l2_start_row + TILE_L2_SIZE - 1
    let l2_start_col := l2_col * TILE_L2_SIZE
    let l2_end_col := l2_start_col + TILE_L2_SIZE - 1
    let p :=
      if b.smin_row ≤ l2_end_row ∧ l2_start_row ≤ b.smax_row ∧
          b.smin_col ≤ l2_end_col ∧ l2_start_col ≤ b.smax_col then
        scan_sparse_hier_l1 s hc l1s l2_row l2_col b
      else (s, hc)
    scan_sparse_hier p.1 p.2 rest l1s b

/-- The inner L1 loop of the dense hierarchical scan (tui.c:3115-3164) for
one L2 block: derive the L1 tile range of the block, clamp it to the tile
tables and to the scan region's tile range, and scan the dirty tiles. -/
def scan_dense_l2_block (s : tui_st) (hc : Bool) (l2_row l2_col : Int)
    (b : scan_bounds_t) : tui_st × Bool :=
  let ratio := TILE_L2_SIZE / TILE_L1_SIZE
  let l1_start_row0 := l2_row * ratio
  let l1_end_row0 := (l2_row + 1) * ratio - 1
  let l1_start_col0 := l2_col * ratio
  let l1_end_col0 := (l2_col + 1) * ratio - 1
  let l1_end_row1 := min l1_end_row0 (s.dirty.l1_tiles_y - 1)
  let l1_end_col1 := min l1_end_col0 (s.dirty.l1_tiles_x - 1)
  let l1_start_row := max l1_start_row0 (cdiv b.smin_row TILE_L1_SIZE)
  let l1_end_row := min l1_end_row1 (cdiv b.smax_row TILE_L1_SIZE)
  let l1_start_col := max l1_start_col0 (cdiv b.smin_col TILE_L1_SIZE)
  let l1_end_col := min l1_end_col1 (cdiv b.smax_col TILE_L1_SIZE)
  forInt (l1_end_row + 1 - l1_start_row).toNat l1_start_row l1_end_row
    (fun l1_row p =>
      forInt (l1_end_col + 1 - l1_start_col).toNat l1_start_col l1_end_col
        (fun l1_col (p : tui_st × Bool) =>
          if ¬has_l1_tile_changes p.1.dirty l1_row l1_col then p
          else scan_l1_tile p.1 p.2 l1_row l1_col b.smin_row b.smax_row
            b.smin_col b.smax_col)
        p)
    (s, hc)

/-- The dense hierarchical scan (tui.c:3099-3167): iterate the L2 block
range covering the scan region, skipping clean blocks. -/
def scan_dense_hier (s : tui_st) (hc : Bool) (b : scan_bounds_t) :
    tui_st × Bool :=
  let l2_start_row := cdiv b.smin_row TILE_L2_SIZE
  let l2_end_row := cdiv b.smax_row TILE_L2_SIZE
  let l2_start_col := cdiv b.smin_col TILE_L2_SIZE
  let l2_end_col := cdiv b.smax_col TILE_L2_SIZE
  forInt (l2_end_row + 1 - l2_start_row).toNat l2_start_row l2_end_row
    (fun l2_row p =>
      forInt (l2_end_col + 1 - l2_start_col).toNat l2_start_col l2_end_col
        (fun l2_col (p : tui_st × Bool) =>
          if ¬has_l2_block_changes p.1.dirty l2_row l2_col then p
          else scan_dense_l2_block p.1 p.2 l2_row l2_col b)
        p)
    (s, hc)

/-- The gap-coalescing run extension of the linear scan (tui.c:3193-3216):
extend while the neighbour keeps the same attribute; changed neighbours
reset the gap, up to `MAX_GAP = 3` unchanged cells are bridged, a longer
gap ends the run. -/
def linear_run_extend (s : tui_st) (y : Int) (curr_attr : Nat)
    (end_x : Int) (gap : Int) (fuel : Nat) : Int × tui_st :=
  match fuel with
  | 0 => (end_x, s)
  | fuel + 1 =>
    if end_x + 1 < s.buf_cols ∧ end_x + 1 < s.tui_cols then
      let s := logCell s y (end_x + 1)
      if s.attr_buf y (end_x + 1) = curr_attr then
        if changed_cell s y (end_x + 1) then
          linear_run_extend s y curr_attr (end_x + 1) 0 fuel
        else if gap < 3 then
          linear_run_extend s y curr_attr (end_x + 1) (gap + 1) fuel
        else (end_x, s)
      else (end_x, s)
    else (end_x, s)

/-- The trailing-trim loop of the linear scan (tui.c:3219-3224): drop
unchanged cells from the end of the run. -/
def linear_run_trim (s : tui_st) (y x end_x : Int) (fuel : Nat) :
    Int × tui_st :=
  match fuel with
  | 0 => (end_x, s)
  | fuel + 1 =>
    if x < end_x then
      let s := logCell s y end_x
      if s.screen_buf y end_x = s.prev_screen_buf y end_x ∧
          s.attr_buf y end_x = s.prev_attr_buf y end_x then
        linear_run_trim s y x (end_x - 1) fuel
      else (end_x, s)
    else (end_x, s)

/-- One row of the linear scan (tui.c:3179-3246). -/
def scan_linear_row (s : tui_st) (hc : Bool) (y : Int) (b : scan_bounds_t)
    (x : Int) (fuel : Nat) : tui_st × Bool :=
  match fuel with
  | 0 => (s, hc)
  | fuel + 1 =>
    if x ≤ b.smax_col ∧ x < s.buf_cols ∧ x < s.tui_cols then
      let s := logCell s y x
      if changed_cell s y x then
        let curr_attr := s.attr_buf y x
        let p1 := linear_run_extend s y curr_attr x 0
          ((min s.buf_cols s.tui_cols) - x).toNat
        let p2 := linear_run_trim p1.2 y x p1.1 (p1.1 - x).toNat
        let end_x := p2.1
        let s := tui_move_cached p2.2 y x
        let s := apply_attributes s curr_attr
        let s := output_buffered_run s y x end_x
        let s := { s with cursor := { s.cursor with last_col := end_x + 1 } }
        scan_linear_row s true y b (end_x + 1) fuel
      else scan_linear_row s hc y b (x + 1) fuel
    else (s, hc)

/-- The linear fallback scan (tui.c:3168-3247): per row, a fast
`row_has_changes` skip, then the run loop. -/
def scan_linear (s : tui_st) (hc : Bool) (b : scan_bounds_t) :
    tui_st × Bool :=
  forInt (b.smax_row + 1 - b.smin_row).toNat b.smin_row b.smax_row
    (fun y (p : tui_st × Bool) =>
      let endcol := if b.smax_col < p.1.buf_cols then b.smax_col
                    else p.1.buf_cols - 1
      let q := row_has_changes p.1 y b.smin_col endcol
      if ¬q.1 then (q.2, p.2)
      else scan_linear_row q.2 p.2 y b b.smin_col
        ((b.smax_col + 1 - b.smin_col).toNat))
    (s, hc)

/-! ## The refresh engine (`tui_refresh`, primary-window branch) -/

/-- Source `tui_refresh` for the primary window (tui.c:2929-3270,
`win == tui_stdscr`): disable auto-flush, exit immediately when nothing is
dirty, otherwise tighten the dirty rectangle, compute the scan bounds,
choose the strategy, run the matching scan, emit the final attribute reset
and force a flush when anything was rendered, re-enable auto-flush and
clear the dirty state.  The NULL-buffer guard of the source cannot fire in
the model (the grids always exist), and the return value is 0 on this
branch. -/
def tui_refresh (s : tui_st) : Int × tui_st :=
  let s := { s with auto_flush := false }
  if ¬s.dirty.has_changes then (0, { s with auto_flush := true })
  else
    let s := optimize_dirty_region s
    let b := compute_scan_bounds s
    let p := choose_scan_strategy s b
    let s := p.1
    let q :=
      if p.2 then scan_sparse_list s false s.dirty.dirty_l1_tiles b
      else if s.dirty.use_hierarchical_tiles then
        if s.dirty.use_sparse_tracking then
          scan_sparse_hier s false s.dirty.dirty_l2_blocks
            s.dirty.dirty_l1_tiles b
        else scan_dense_hier s false b
      else scan_linear s false b
    let s :=
      if q.2 then
        { q.1 with out := q.1.out ++ [out_tok.reset],
                   attr_state := reset_attr_state }
      else q.1
    let s := { s with auto_flush := true }
    (0, { s with dirty := reset_dirty_region s.dirty })

/-! ## UTF-8 helpers (tui.c:3343-3408) -/

/-- Source `utf8_char_length` (tui.c:3343-3355). -/
def utf8_char_length (b : Nat) : Nat :=
  if b < 0x80 then 1
  else if b &&& 0xE0 = 0xC0 then 2
  else if b &&& 0xF0 = 0xE0 then 3
  else if b &&& 0xF8 = 0xF0 then 4
  else 1

/-- Source `is_valid_utf8_sequence` (tui.c:3357-3380).  Every length class
returns from the first-byte checks, so the trailing continuation-byte loop
of the source is dead code; only the first byte decides. -/
def is_valid_utf8_sequence (first : Nat) (len : Nat) : Bool :=
  if len = 0 ∨ 4 < len then false
  else if len = 1 then first < 0x80
  else if len = 2 then first &&& 0xE0 = 0xC0 ∧ 0xC2 ≤ first
  else if len = 3 then first &&& 0xF0 = 0xE0
  else first &&& 0xF8 = 0xF0 ∧ first ≤ 0xF4

/-- Source `utf8_display_width` (tui.c:3382-3408): every branch returns 1. -/
def utf8_display_width (_first : Nat) (_len : Nat) : Nat := 1

/-! ## The drawing surface -/

/-- The per-character body of the UTF-8 branch of `tui_print_at`
(tui.c:3446-3478) at one nominal column: store the lead byte, store the
continuation bytes (marked with the high attribute bit) while they stay
inside the buffer, store the window attribute at the lead column, and
invalidate the snapshot for the whole character.  All performed writes are
logged. -/
def print_put_char (s : tui_st) (sy sx : Int) (wattr : Nat)
    (bytes : List Nat) (char_len : Nat) : tui_st :=
  let b := bytes.headD 0
  let s := logCell s sy sx
  let s := { s with screen_buf := upd2 s.screen_buf sy sx b }
  let contHi := min ((char_len : Int) - 1) (s.buf_cols - 1 - sx)
  let s := forInt (contHi).toNat 1 contHi
    (fun i s =>
      if 0 ≤ sx + i then
        let s := logCell s sy (sx + i)
        { s with
          screen_buf := upd2 s.screen_buf sy (sx + i) (bytes.getD i.toNat 0),
          attr_buf := upd2 s.attr_buf sy (sx + i) (wattr ||| 0x80000000) }
      else s) s
  let s := { s with attr_buf := upd2 s.attr_buf sy sx wattr }
  forInt (contHi + 1).toNat 0 contHi
    (fun i s =>
      if 0 ≤ sx + i then
        let s := logCell s sy (sx + i)
        { s with
          prev_screen_buf := upd2 s.prev_screen_buf sy (sx + i) 0,
          prev_attr_buf := upd2 s.prev_attr_buf sy (sx + i) 0xFFFFFFFF }
      else s) s

/-- The UTF-8 processing loop of `tui_print_at` (tui.c:3432-3482); returns
the final `screen_x`.  `utf8_display_width` is constantly 1, so the column
advances by one per character. -/
def print_loop_unicode (s : tui_st) (sy : Int) (wattr : Nat)
    (screen_x : Int) (p : List Nat) (fuel : Nat) : Int × tui_st :=
  match fuel with
  | 0 => (screen_x, s)
  | fuel + 1 =>
    match p with
    | [] => (screen_x, s)
    | b :: rest =>
      if screen_x < s.buf_cols then
        let remaining := rest.length + 1
        let cl0 := utf8_char_length b
        let cl1 := if remaining < cl0 then 1 else cl0
        let char_len :=
          if 1 < cl1 ∧ ¬is_valid_utf8_sequence b cl1 then 1 else cl1
        let s :=
          if 0 ≤ screen_x then print_put_char s sy screen_x wattr (b :: rest) char_len
          else s
        print_loop_unicode s sy wattr
          (screen_x + utf8_display_width b char_len)
          ((b :: rest).drop char_len) fuel
      else (screen_x, s)

/-- The byte-by-byte fallback loop of `tui_print_at` (tui.c:3484-3496). -/
def print_loop_bytes (s : tui_st) (sy : Int) (wattr : Nat)
    (screen_x : Int) (p : List Nat) : Int × tui_st :=
  match p with
  | [] => (screen_x, s)
  | b :: rest =>
    if screen_x < s.buf_cols then
      let s :=
        if 0 ≤ screen_x then
          let s := logCell s sy screen_x
          { s with
            screen_buf := upd2 s.screen_buf sy screen_x b,
            attr_buf := upd2 s.attr_buf sy screen_x wattr,
            prev_screen_buf := upd2 s.prev_screen_buf sy screen_x 0,
            prev_attr_buf := upd2 s.prev_attr_buf sy screen_x 0xFFFFFFFF }
        else s
      print_loop_bytes s sy wattr (screen_x + 1) rest
    else (screen_x, s)

/-- Source `tui_print_at` (tui.c:3410-3509).  The formatted bytes of the
`vsnprintf` call are taken as the input `str`; `vsnprintf` caps them at
1023 bytes and the loops stop at a terminating zero byte. -/
def tui_print_at (s : tui_st) (w : tui_window_t) (y x : Int)
    (str : List Nat) : Int × tui_window_t × tui_st :=
  let buffer := (str.take 1023).takeWhile (fun b => b ≠ 0)
  let screen_y := w.begy + y
  let screen_x := w.begx + x
  if screen_y < 0 ∨ s.buf_rows ≤ screen_y then (-1, w, s)
  else
    let start_x := screen_x
    let p :=
      if s.supports_unicode then
        print_loop_unicode s screen_y w.attr screen_x buffer buffer.length
      else print_loop_bytes s screen_y w.attr screen_x buffer
    let fx := p.1
    let s := p.2
    let s :=
      if start_x < fx then
        { s with dirty :=
            mark_dirty_region s.dirty screen_y start_x screen_y (fx - 1) }
      else s
    let w :=
      if w.has_dirty ∧ y < w.maxy then
        { w with dirtyRows := fun r => if r = y then true else w.dirtyRows r }
      else w
    (0, { w with cury := y, curx := fx - w.begx }, s)

/-- Source `tui_clear_screen` (tui.c:2613-2639): blank the logical grid,
invalidate the whole snapshot, home the primary cursor, mark everything
dirty and reset the cursor and attribute tracking.  (Accesses of the
clearing `memset`s are bounded by construction and are not logged; the
access log covers `tui_print_at`, the refresh scans and the tile
scanner.) -/
def tui_clear_screen (s : tui_st) : Int × tui_st :=
  let s := { s with
    screen_buf := updRect s.screen_buf 0 (s.buf_rows - 1) 0 (s.buf_cols - 1) 32,
    attr_buf := updRect s.attr_buf 0 (s.buf_rows - 1) 0 (s.buf_cols - 1)
      TUI_A_NORMAL,
    prev_screen_buf :=
      updRect s.prev_screen_buf 0 (s.buf_rows - 1) 0 (s.buf_cols - 1) 0,
    prev_attr_buf :=
      updRect s.prev_attr_buf 0 (s.buf_rows - 1) 0 (s.buf_cols - 1)
        0xFFFFFFFF,
    std_cury := 0, std_curx := 0 }
  let s := { s with
    dirty := mark_dirty_region s.dirty 0 0 (s.buf_rows - 1) (s.buf_cols - 1) }
  (0, { s with cursor := ⟨-1, -1⟩, attr_state := reset_attr_state })

/-- Source `tui_clear_window` (tui.c:2678-2706): blank the window's cells
(attribute = the window background), invalidate their snapshot entries and
mark each cell dirty; flag every window row dirty and home the window
cursor. -/
def tui_clear_window (s : tui_st) (w : tui_window_t) :
    Int × tui_window_t × tui_st :=
  let p := forInt w.maxy.toNat 0 (w.maxy - 1)
    (fun y (p : tui_window_t × tui_st) =>
      let w := p.1
      let s := p.2
      let screen_y := w.begy + y
      let s :=
        if 0 ≤ screen_y ∧ screen_y < s.buf_rows then
          forInt w.maxx.toNat 0 (w.maxx - 1)
            (fun x s =>
              let screen_x := w.begx + x
              if 0 ≤ screen_x ∧ screen_x < s.buf_cols then
                { s with
                  screen_buf := upd2 s.screen_buf screen_y screen_x 32,
                  attr_buf := upd2 s.attr_buf screen_y screen_x w.bkgd,
                  prev_screen_buf :=
                    upd2 s.prev_screen_buf screen_y screen_x 0,
                  prev_attr_buf :=
                    upd2 s.prev_attr_buf screen_y screen_x 0xFFFFFFFF,
                  dirty := mark_dirty s.dirty screen_y screen_x }
              else s) s
        else s
      let w :=
        if w.has_dirty then
          { w with dirtyRows := fun r => if r = y then true else w.dirtyRows r }
        else w
      (w, s))
    (w, s)
  (0, { p.1 with cury := 0, curx := 0 }, p.2)

/-- Bitwise complement on a 32-bit attribute word (`~attrs` on `int`,
used only under a following `&`). -/
def bnot32 (x : Nat) : Nat := 0xFFFFFFFF ^^^ (x &&& 0xFFFFFFFF)

/-- Source `tui_wattron` (tui.c:3511-3520). -/
def tui_wattron (w : tui_window_t) (attrs : Nat) : tui_window_t :=
  let a := if attrs &&& TUI_A_COLOR ≠ 0 then w.attr &&& bnot32 TUI_A_COLOR
           else w.attr
  { w with attr := a ||| attrs }

/-- Source `tui_wattroff` (tui.c:3522-3531). -/
def tui_wattroff (w : tui_window_t) (attrs : Nat) : tui_window_t :=
  let a := if attrs &&& TUI_A_COLOR ≠ 0 then w.attr &&& bnot32 TUI_A_COLOR
           else w.attr
  { w with attr := a &&& bnot32 attrs }

/-- Source `handle_resize` (tui.c:1685-1693): refetch the terminal size and
overwrite the cached extents and the primary window's `maxy`/`maxx`; the
grids and `buf_rows`/`buf_cols` are untouched. -/
def handle_resize (s : tui_st) (lines cols : Int) : tui_st :=
  { s with tui_lines := lines, tui_cols := cols,
           std_maxy := lines, std_maxx := cols }

/-- The engine state `tui_init` builds (tui.c:1819-1886) for a terminal of
`lines × cols` cells: freshly allocated grids (logical grid blanked, the
snapshot invalidated, tui.c:1768-1783), hierarchical and sparse dirty
tracking initialised for this size, cursor and attribute tracking reset,
the color caches initialised, colors not started.  Cells outside the
allocation read as 0 in the model. -/
def tui_init_state (lines cols : Int) (unicode : Bool) : tui_st where
  buf_rows := lines
  buf_cols := cols
  tui_lines := lines
  tui_cols := cols
  screen_buf := fun r c =>
    if 0 ≤ r ∧ r < lines ∧ 0 ≤ c ∧ c < cols then 32 else 0
  prev_screen_buf := fun _ _ => 0
  attr_buf := fun _ _ => 0
  prev_attr_buf := fun r c =>
    if 0 ≤ r ∧ r < lines ∧ 0 ≤ c ∧ c < cols then 0xFFFFFFFF else 0
  dirty :=
    init_sparse_dirty_tracking
      (init_hierarchical_dirty_tracking dirty_region_init cols lines)
  cursor := ⟨-1, -1⟩
  attr_state := reset_attr_state
  colors :=
    { cache := init_color_pair_cache,
      color_pairs := fun _ => (0, 0),
      colors_initialized := false }
  color_defs := color_defs_init
  supports_unicode := unicode
  use_writev := true
  auto_flush := true
  std_maxy := lines
  std_maxx := cols
  std_cury := 0
  std_curx := 0
  out := []
  acc := []

/-! ## Token counting and frame statistics -/

/-- Cursor-repositioning tokens. -/
def is_move_tok : out_tok → Bool
  | out_tok.moveAbs _ _ => true
  | out_tok.moveRel _ => true
  | _ => false

/-- Attribute-change (rendition) tokens emitted by `apply_attributes`. -/
def is_attr_tok : out_tok → Bool
  | out_tok.attrSeq _ => true
  | _ => false

/-- Character-run tokens emitted by `output_buffered_run`. -/
def is_chars_tok : out_tok → Bool
  | out_tok.chars _ => true
  | _ => false

/-- Number of cursor-repositioning sequences in a token stream. -/
def count_moves (l : List out_tok) : Nat := l.countP is_move_tok

/-- Number of attribute-change sequences in a token stream. -/
def count_attrs (l : List out_tok) : Nat := l.countP is_attr_tok

/-- Number of character-run writes in a token stream. -/
def count_chars (l : List out_tok) : Nat := l.countP is_chars_tok

/-- A token stream with at most one attribute emission and at most one
cursor reposition per character-run write. -/
def balanced_toks (l : List out_tok) : Prop :=
  count_attrs l ≤ count_chars l ∧ count_moves l ≤ count_chars l

/-- The cells (inside the allocated grid) where the logical grid and the
physical snapshot disagree. -/
def diff_cells (s : tui_st) : List (Int × Int) :=
  ((intRange 0 (s.buf_rows - 1)).flatMap fun r =>
    (intRange 0 (s.buf_cols - 1)).map fun c => (r, c)).filter
    fun p => changed_cell s p.1 p.2

/-- The number of distinct attribute values among the differing cells. -/
def distinct_attr_count (s : tui_st) : Nat :=
  ((diff_cells s).map fun p => s.attr_buf p.1 p.2).dedup.length

/-- The scan rectangle a refresh pass with pending dirt uses: the bounds
computed from the tightened dirty rectangle (tui.c:2948-2964). -/
def refresh_scan_bounds (s : tui_st) : scan_bounds_t :=
  compute_scan_bounds (optimize_dirty_region { s with auto_flush := false })

/-! ## State invariant and the reachable states of the drawing surface -/

/-- The access-safety invariant: positive allocated and cached dimensions,
and a dirty rectangle whose lower corner never goes negative. -/
def state_inv (s : tui_st) : Prop :=
  1 ≤ s.buf_rows ∧ 1 ≤ s.buf_cols ∧ 1 ≤ s.tui_lines ∧ 1 ≤ s.tui_cols ∧
    0 ≤ s.dirty.min_row ∧ 0 ≤ s.dirty.min_col

/-- States reachable through the public drawing surface when every print
starts at a non-negative screen column (`begx + x ≥ 0`) and every resize
notification reports positive extents. -/
inductive reach_nn : tui_st → Prop
  | init (lines cols : Int) (unicode : Bool) (hl : 1 ≤ lines) (hc : 1 ≤ cols) :
      reach_nn (tui_init_state lines cols unicode)
  | print (s : tui_st) (w : tui_window_t) (y x : Int) (str : List Nat)
      (hs : reach_nn s) (hx : 0 ≤ w.begx + x) :
      reach_nn (tui_print_at s w y x str).2.2
  | clear_screen (s : tui_st) (hs : reach_nn s) :
      reach_nn (tui_clear_screen s).2
  | clear_window (s : tui_st) (w : tui_window_t) (hs : reach_nn s) :
      reach_nn (tui_clear_window s w).2.2
  | refresh (s : tui_st) (hs : reach_nn s) : reach_nn (tui_refresh s).2
  | resize (s : tui_st) (lines cols : Int) (hs : reach_nn s)
      (hl : 1 ≤ lines) (hc : 1 ≤ cols) : reach_nn (handle_resize s lines cols)

/-- A grid access inside the allocated `buf_rows × buf_cols` region. -/
def acc_in_bounds (s : tui_st) (p : Int × Int) : Prop :=
  0 ≤ p.1 ∧ p.1 < s.buf_rows ∧ 0 ≤ p.2 ∧ p.2 < s.buf_cols

/-! ## Concrete scenario states -/

/-- The 70 bytes of the partial-write scenario, in three spans of
30 + 20 + 20 bytes. -/
def c4_spans : List (List Nat) :=
  [List.range 30, (List.range 20).map (fun i => 30 + i),
   (List.range 20).map (fun i => 50 + i)]

/-- A started color subsystem in its freshly initialised state
(`init_color_pair_cache` has run, the legacy array is zeroed). -/
def cs_init : color_state_t :=
  { cache := init_color_pair_cache,
    color_pairs := fun _ => (0, 0),
    colors_initialized := true }

/-- Color definitions with custom color 8 set to `(200, 0, 0)` — every
component inside the engine's 0–1000 range, but none above 255. -/
def defs_200 : Int → Int × Int × Int := tui_init_color color_defs_init 8 200 0 0

/-- A 10×10 frame in which exactly three cells `(0,0)`, `(0,1)`, `(0,2)`
differ from the snapshot (an `X` was drawn over blanks), carrying the
attributes bold, normal, bold; the dirty tracker has recorded the three
cells.  This is the concrete frame for the diff-minimality claim. -/
def c3_frame : tui_st :=
  let base := tui_init_state 10 10 false
  { base with
    screen_buf := fun r c =>
      if r = 0 ∧ (c = 0 ∨ c = 1 ∨ c = 2) then 88 else 32,
    prev_screen_buf := fun r c =>
      if 0 ≤ r ∧ r < 10 ∧ 0 ≤ c ∧ c < 10 then 32 else 0,
    attr_buf := fun r c =>
      if r = 0 ∧ (c = 0 ∨ c = 2) then TUI_A_BOLD else 0,
    prev_attr_buf := fun r c =>
      if r = 0 ∧ (c = 0 ∨ c = 2) then TUI_A_BOLD else 0,
    dirty := mark_dirty (mark_dirty (mark_dirty base.dirty 0 0) 0 1) 0 2 }

/-- A plain full-screen window for a 24×80 terminal (the shape of
`tui_stdscr`, whose `dirty` array is NULL). -/
def w_std_24_80 : tui_window_t :=
  { begy := 0, begx := 0, maxy := 24, maxx := 80, cury := 0, curx := 0,
    attr := 0, bkgd := 0, has_dirty := false, dirtyRows := fun _ => false }

/-- The state after printing the six bytes `"ABCDEF"` at column −5 of row 0
on a fresh 24×80 engine: the write is clipped, but the dirty rectangle
records `min_col = −5`. -/
def c10_state : tui_st :=
  (tui_print_at (tui_init_state 24 80 false) w_std_24_80 0 (-5)
    [65, 66, 67, 68, 69, 70]).2.2

/-! ### The pool-exhaustion scenario (128 rows × 264 columns)

A 128×264 terminal has 16×33 = 528 L1 tiles, more than the 512-entry
dirty-tile pool.  `tui_clear_screen` marks the whole screen dirty: the
first 512 L1 tiles are recorded in the sparse list, the last 16 tiles of
the bottom row (columns 17–32) and all L2 blocks find the pool exhausted.
The state after the clear is computed here in staged literal form. -/

/-- The fresh 128×264 engine. -/
def sBig : tui_st := tui_init_state 128 264 false

/-- The sparse L1 tile list after the clear: the 17 allocated tiles of row
15 (columns 16 … 0) in front of rows 14 … 0 (each row's columns 32 … 0). -/
def bigL1List : List (Nat × Nat) :=
  ((List.range 17).reverse.map (fun c => (15, c))) ++
    ((List.range 15).reverse.flatMap
      (fun r => (List.range 33).reverse.map (fun c => (r, c))))

/-- Dense-array / bitmap bits for `r` complete tile rows of 33 tiles. -/
def denseRowsL1 (r : Nat) : Nat :=
  (List.range r).foldl (fun b i => b ||| (0x1FFFFFFFF <<< (128 * i))) 0

/-- The sparse L1 bitmap after the clear: 15 complete rows plus columns
0–16 of row 15. -/
def bigL1Bitmap : Nat := denseRowsL1 15 ||| (0x1FFFF <<< (128 * 15))

/-- The dense L2 block array after the clear: rows 0–3, columns 0–8. -/
def bigL2Dense : Nat :=
  (List.range 4).foldl (fun b i => b ||| (0x1FF <<< (32 * i))) 0

/-- The sparse list contents after `k` complete tile rows. -/
def bigRowsList (k : Nat) : List (Nat × Nat) :=
  (List.range k).reverse.flatMap
    (fun r => (List.range 33).reverse.map (fun c => (r, c)))

/-- The dirty record of the fresh 128×264 engine right after the
bounding-rectangle update of `mark_dirty_region 0 0 127 263`. -/
def bigDRect : dirty_rec_t :=
  { sBig.dirty with min_row := 0, max_row := 127, min_col := 0,
                    max_col := 263, has_changes := true }

/-- The dirty record after marking `k ≤ 15` complete L1 tile rows. -/
def bigStage (k : Nat) : dirty_rec_t :=
  { bigDRect with
    l1_tiles := denseRowsL1 k,
    dirty_l1_tiles := bigRowsList k,
    l1_tile_bitmap := denseRowsL1 k,
    dirty_tile_pool_used := 33 * k }

/-- The dirty record after the whole L1 loop: every tile dense-marked, the
pool exhausted at 512, the last 16 tiles of row 15 missing from the sparse
list and bitmap. -/
def bigStage16 : dirty_rec_t :=
  { bigDRect with
    l1_tiles := denseRowsL1 16,
    dirty_l1_tiles := bigL1List,
    l1_tile_bitmap := bigL1Bitmap,
    dirty_tile_pool_used := 512 }

/-- The dirty record after the L2 loop (every L2 allocation fails on the
exhausted pool; only the dense bits are set). -/
def bigDFinal : dirty_rec_t := { bigStage16 with l2_blocks := bigL2Dense }

/-- The L1 row-marking body of `mark_dirty_region` on the 128×264 screen. -/
def bigRowFn : Int → dirty_rec_t → dirty_rec_t :=
  fun tr d => mark_l1_rect_row d tr 0 32

/-- The full engine state after `tui_clear_screen` on the fresh 128×264
engine, in literal form (proved equal to the computed state below). -/
def sBigLit : tui_st :=
  { sBig with
    screen_buf := updRect sBig.screen_buf 0 (sBig.buf_rows - 1) 0
      (sBig.buf_cols - 1) 32,
    attr_buf := updRect sBig.attr_buf 0 (sBig.buf_rows - 1) 0
      (sBig.buf_cols - 1) TUI_A_NORMAL,
    prev_screen_buf := updRect sBig.prev_screen_buf 0 (sBig.buf_rows - 1) 0
      (sBig.buf_cols - 1) 0,
    prev_attr_buf := updRect sBig.prev_attr_buf 0 (sBig.buf_rows - 1) 0
      (sBig.buf_cols - 1) 0xFFFFFFFF,
    std_cury := 0, std_curx := 0,
    dirty := bigDFinal,
    cursor := ⟨-1, -1⟩, attr_state := reset_attr_state }

/-- A 1×1 window at screen cell `(127, 263)` of the 128×264 terminal. -/
def w_bottom_corner : tui_window_t :=
  { begy := 127, begx := 263, maxy := 1, maxx := 1, cury := 0, curx := 0,
    attr := 0, bkgd := 0, has_dirty := false, dirtyRows := fun _ => false }

/-- A clean 10×10 engine that has just finished a refresh of one drawn
cell (used as the concrete clean state for the idempotence witness). -/
def s_clean : tui_st :=
  (tui_refresh (tui_print_at (tui_init_state 10 10 false)
    { w_std_24_80 with maxy := 10, maxx := 10 } 0 0 [88]).2.2).2

/-- A color state whose pair numbers are exhausted
(`next_pair = TUI_COLOR_PAIRS`). -/
def cs_exhausted : color_state_t :=
  { cs_init with cache := { init_color_pair_cache with next_pair := 256 } }

/-- The 128×264 state with auto-flush disabled (the first step of a
refresh of `sBigLit`). -/
def sBigAF : tui_st := { sBigLit with auto_flush := false }


/-- The access log produced by the dirty-rectangle tightening pass on the
big cleared state. -/
def bigOptAcc : List (Int × Int) := (optimize_dirty_region sBigAF).acc


/-- The big cleared state after `optimize_dirty_region` (dirty rectangle
unchanged, accesses logged). -/
def sBigOpt : tui_st := { sBigAF with dirty := bigDFinal, acc := bigOptAcc }


/-- The big cleared state after strategy selection (frame counter bumped,
the sparse strategy judged beneficial). -/
def sBigScan : tui_st :=
  { sBigOpt with
    dirty := { bigDFinal with
      frame_count := 1, sparse_beneficial_count := 1 } }

/-! # Theorems -/

/-! ## The scatter-gather flush (claim C4) -/

/-- Trimming after a partial write drops exactly the already-written bytes
from the front of the span list: the remaining spans concatenate to the
suffix of the pending bytes. -/
theorem adjust_iovecs_flatten (vecs : List (List Nat)) (written : Nat) :
    (adjust_iovecs_after_partial_write vecs written).flatten =
      vecs.flatten.drop written := by
  induction vecs generalizing written with
  | nil => simp [adjust_iovecs_after_partial_write]
  | cons v rest ih =>
    rw [adjust_iovecs_after_partial_write]
    by_cases h0 : written = 0
    · simp [h0]
    · simp only [h0, if_false]
      by_cases hlen : v.length ≤ written
      · simp only [hlen, if_true]
        rw [ih]
        simp [List.drop_append_eq_append_drop, List.drop_eq_nil_of_le hlen,
          Nat.sub_eq_zero_of_le]
      · simp only [hlen, if_false]
        have hlt : written < v.length := Nat.lt_of_not_le hlen
        simp [List.drop_append_eq_append_drop,
          Nat.sub_eq_zero_of_le (Nat.le_of_lt hlt)]

/-- C4: the flush loop of `tui_flush_vectored` compares the cumulative
byte count against the *decremented* remaining count
(`while (written_total < total_bytes ...)` with `total_bytes -= written`),
so after a partial write that covers at least half of what remained the
loop exits normally and the rest of the buffer is silently discarded: with
70 pending bytes in three spans and a first `writev` accepting 40 bytes,
the flush completes via the loop condition (no error, no EINTR, no
zero-length write), but only the first 40 bytes were ever handed to the
OS, contradicting the claim that the emitted bytes equal the buffered
content. -/
theorem c4_flush_drops_bytes_after_large_partial_write :
    (tui_flush_vectored c4_spans [WriteResult.ok 40]).2 = FlushExit.done ∧
    (tui_flush_vectored c4_spans [WriteResult.ok 40]).1 =
      c4_spans.flatten.take 40 ∧
    (tui_flush_vectored c4_spans [WriteResult.ok 40]).1 ≠ c4_spans.flatten ∧
    c4_spans.flatten.length = 70 := by decide

/-! ## The color-pair allocator (claims C6, C7, C9) -/

/-- A missed common-pairs scan leaves the common-pairs list unchanged. -/
theorem bump_common_miss_unchanged (l : List common_pair_t) (fg bg : Int)
    (h : (bump_common l fg bg).1 = none) : (bump_common l fg bg).2 = l := by
  induction l with
  | nil => simp [bump_common]
  | cons p rest ih =>
    by_cases hp : p.fg = fg ∧ p.bg = bg
    · simp [bump_common, hp] at h
    · simp only [bump_common, hp, if_false] at h ⊢
      rw [ih]
      exact h

/-- A second common-pairs scan with the same colors finds the same pair
number (bumping a usage counter does not change which entry matches). -/
theorem bump_common_hit_again (l l' : List common_pair_t) (fg bg : Int)
    (pn : Int) (h : bump_common l fg bg = (some pn, l')) :
    (bump_common l' fg bg).1 = some pn := by
  induction l generalizing l' with
  | nil => simp [bump_common] at h
  | cons p rest ih =>
    by_cases hp : p.fg = fg ∧ p.bg = bg
    · simp only [bump_common, hp, if_true] at h
      injection h with ha hb
      subst hb
      simp [bump_common, hp]
      injection ha
    · simp only [bump_common, hp, if_false] at h
      rcases hr : bump_common rest fg bg with ⟨o, rest'⟩
      rw [hr] at h
      injection h with ha hb
      subst hb ha
      simp only [bump_common, hp, if_false]
      rcases hr2 : bump_common rest' fg bg with ⟨o2, rest2⟩
      have := ih rest' (by rw [hr])
      rw [hr2] at this
      simpa using this

/-- C6: calling `get_or_alloc_pair` twice in succession with the same
`(fg, bg)` while the pair pool is not exhausted returns the same
identifier both times — the second call finds the default case, the
common-pairs entry, the existing hash node, or the node the first call
just inserted. -/
theorem c6_get_or_alloc_pair_deterministic (cs : color_state_t)
    (fg bg : Int)
    (h1 : cs.cache.next_pair < TUI_COLOR_PAIRS)
    (h2 : cs.cache.node_used < cs.cache.node_count) :
    (get_or_alloc_pair (get_or_alloc_pair cs fg bg).2 fg bg).1 =
      (get_or_alloc_pair cs fg bg).1 := by
  by_cases hdef : fg = TUI_COLOR_WHITE ∧ bg = TUI_COLOR_BLACK
  · simp [get_or_alloc_pair, hdef]
  · rcases hbc : bump_common cs.cache.common_pairs fg bg with ⟨o, l'⟩
    cases o with
    | some pn =>
      simp only [get_or_alloc_pair, hdef, if_false, hbc]
      rcases hbc2 : bump_common l' fg bg with ⟨o2, l2⟩
      have ho2 : o2 = some pn := by
        have := bump_common_hit_again cs.cache.common_pairs l' fg bg pn hbc
        rw [hbc2] at this
        simpa using this
      subst ho2
      simp [hbc2]
    | none =>
      rcases hcf : chain_find
          (cs.cache.table (hash_color_pair (pack_fg_bg fg bg)))
          (pack_fg_bg fg bg) with _ | node
      · simp only [get_or_alloc_pair, hdef, if_false, hbc, hcf]
        simp only [not_le.mpr h1, not_le.mpr h2, or_self, if_false]
        rcases hbc2 : bump_common cs.cache.common_pairs fg bg with ⟨o2, l2⟩
        have ho2 : o2 = none := by
          rw [hbc] at hbc2
          injection hbc2 with ha _
          exact ha.symm
        subst ho2
        simp only [chain_find, List.find?]
        simp [if_pos rfl, chain_find]
      · simp only [get_or_alloc_pair, hdef, if_false, hbc, hcf]

/-- Witness for C6: blue-on-blue on the freshly initialised cache. -/
theorem c6_get_or_alloc_pair_deterministic_witness :
    cs_init.cache.next_pair < TUI_COLOR_PAIRS ∧
    cs_init.cache.node_used < cs_init.cache.node_count ∧
    (get_or_alloc_pair (get_or_alloc_pair cs_init 4 4).2 4 4).1 =
      (get_or_alloc_pair cs_init 4 4).1 :=
  ⟨by decide, by decide,
    c6_get_or_alloc_pair_deterministic cs_init 4 4 (by decide) (by decide)⟩

/-- C7: once the pair pool is exhausted (`next_pair` at the pair-table
bound or the node pool used up), a request for a not-yet-allocated
combination returns the default pair 0 and allocates nothing: the pair
counter, node counter, hash table, allocation count and legacy array are
unchanged. -/
theorem c7_pair_pool_exhaustion_returns_default (cs : color_state_t)
    (fg bg : Int)
    (hdef : ¬(fg = TUI_COLOR_WHITE ∧ bg = TUI_COLOR_BLACK))
    (hcommon : (bump_common cs.cache.common_pairs fg bg).1 = none)
    (hchain : chain_find
      (cs.cache.table (hash_color_pair (pack_fg_bg fg bg)))
      (pack_fg_bg fg bg) = none)
    (hfull : TUI_COLOR_PAIRS ≤ cs.cache.next_pair ∨
      cs.cache.node_count ≤ cs.cache.node_used) :
    (get_or_alloc_pair cs fg bg).1 = 0 ∧
    (get_or_alloc_pair cs fg bg).2.cache.next_pair = cs.cache.next_pair ∧
    (get_or_alloc_pair cs fg bg).2.cache.node_used = cs.cache.node_used ∧
    (get_or_alloc_pair cs fg bg).2.cache.table = cs.cache.table ∧
    (get_or_alloc_pair cs fg bg).2.cache.allocated_count =
      cs.cache.allocated_count ∧
    (get_or_alloc_pair cs fg bg).2.color_pairs = cs.color_pairs := by
  rcases hbc : bump_common cs.cache.common_pairs fg bg with ⟨o, l'⟩
  have ho : o = none := by rw [hbc] at hcommon; exact hcommon
  subst ho
  simp only [get_or_alloc_pair, hdef, if_false, hbc, hchain]
  simp [hfull]

/-- Witness for C7: red-on-green on the exhausted cache degrades to 0. -/
theorem c7_pair_pool_exhaustion_returns_default_witness :
    (¬((1 : Int) = TUI_COLOR_WHITE ∧ (2 : Int) = TUI_COLOR_BLACK)) ∧
    (get_or_alloc_pair cs_exhausted 1 2).1 = 0 ∧
    (get_or_alloc_pair cs_exhausted 1 2).2.cache.node_used =
      cs_exhausted.cache.node_used :=
  ⟨by decide,
    (c7_pair_pool_exhaustion_returns_default cs_exhausted 1 2 (by decide)
      (by decide) (by decide) (Or.inl (by decide))).1,
    (c7_pair_pool_exhaustion_returns_default cs_exhausted 1 2 (by decide)
      (by decide) (by decide) (Or.inl (by decide))).2.2.1⟩

/-- C9: the pre-seeded common-pairs table uses identifiers 1–10 while the
dynamic allocator's `next_pair` also starts at 1, so the identifier
spaces overlap: in one run from the initialised cache, the second
dynamically allocated combination (blue-on-blue, then magenta-on-magenta)
receives identifier 2, the same identifier the pre-seeded common pair
green-on-black reports — two distinct `(fg, bg)` combinations, one common
and one not, with the same pair identifier. -/
theorem c9_common_and_dynamic_pair_ids_overlap :
    init_common_pairs_cache.map common_pair_t.pair_num =
      [1, 2, 3, 4, 5, 6, 7, 8, 9, 10] ∧
    init_color_pair_cache.next_pair = 1 ∧
    ((5 : Int), (5 : Int)) ≠ ((2 : Int), (0 : Int)) ∧
    (bump_common init_common_pairs_cache 5 5).1 = none ∧
    (bump_common init_common_pairs_cache 2 0).1 = some 2 ∧
    (get_or_alloc_pair (get_or_alloc_pair cs_init 4 4).2 5 5).1 = 2 ∧
    (get_or_alloc_pair
      (get_or_alloc_pair (get_or_alloc_pair cs_init 4 4).2 5 5).2 2 0).1 =
      2 := by
  decide

/-! ## The truecolor scaling of custom colors (claim C8) -/

/-- Counterexample to C8 as stated: custom color 8 defined as
`(200, 0, 0)` — every component inside the engine's 0–1000 range — is
emitted as the raw triplet `200;0;0`, not as the scaled triplet
`(200·255)/1000 ; 0 ; 0 = 51;0;0` that the claim requires, because
`get_rgb_values` only scales when some component exceeds 255. -/
theorem c8_low_components_not_scaled_cex :
    (8 ≤ (8 : Int) ∧ (8 : Int) < 256) ∧
    defs_200 8 = (200, 0, 0) ∧
    ((0 : Int) ≤ 200 ∧ (200 : Int) ≤ 1000) ∧
    get_cached_attr_sequence defs_200 8 0 0 = "\x1b[0;38;2;200;0;0m" ∧
    get_cached_attr_sequence defs_200 8 0 0 ≠
      "\x1b[0" ++ ";38;2;" ++ toString (cdiv (200 * 255) 1000) ++ ";" ++
        toString (cdiv (0 * 255) 1000) ++ ";" ++
        toString (cdiv (0 * 255) 1000) ++ "m" := by
  decide

/-- C8 (amended): for a custom color `c ∈ [8, 256)` whose defined
components lie in 0–1000, the rendition sequence embeds a truecolor
`;38;2;R;G;B` directive where the components are scaled by
`(v·255)/1000` when at least one component exceeds 255 and are passed
through unchanged otherwise. -/
theorem c8_rgb_scaling_amended (defs : Int → Int × Int × Int)
    (c r g b : Int) (hc8 : 8 ≤ c) (hc256 : c < 256)
    (hdefs : defs c = (r, g, b))
    (hr : 0 ≤ r ∧ r ≤ 1000) (hg : 0 ≤ g ∧ g ≤ 1000)
    (hb : 0 ≤ b ∧ b ≤ 1000) :
    (∀ bg attrs, get_cached_attr_sequence defs c bg attrs =
      "\x1b[0" ++ (if attrs &&& TUI_A_BOLD ≠ 0 then ";1" else "") ++
        fg_color_directive defs c ++ bg_color_directive defs bg ++ "m") ∧
    fg_color_directive defs c =
      (if 255 < r ∨ 255 < g ∨ 255 < b then
        ";38;2;" ++ toString (cdiv (r * 255) 1000) ++ ";" ++
          toString (cdiv (g * 255) 1000) ++ ";" ++
          toString (cdiv (b * 255) 1000)
      else ";38;2;" ++ toString r ++ ";" ++ toString g ++ ";" ++
        toString b) := by
  constructor
  · intro bg attrs
    rfl
  · have hne : c ≠ TUI_COLOR_WHITE := by
      simp only [TUI_COLOR_WHITE]; omega
    have hrange : 8 ≤ c ∧ c < MAX_CUSTOM_COLORS := by
      simp only [MAX_CUSTOM_COLORS]; exact ⟨hc8, hc256⟩
    by_cases hcond : 255 < r ∨ 255 < g ∨ 255 < b
    · simp [fg_color_directive, hne, hrange.1, hrange.2, hdefs,
        get_rgb_values, hcond]
    · simp [fg_color_directive, hne, hrange.1, hrange.2, hdefs,
        get_rgb_values, hcond]

/-- Witness for the amended C8 at the concrete color `(200, 0, 0)`. -/
theorem c8_rgb_scaling_amended_witness :
    defs_200 8 = (200, 0, 0) ∧
    fg_color_directive defs_200 8 = ";38;2;200;0;0" := by
  refine ⟨by decide, ?_⟩
  have := (c8_rgb_scaling_amended defs_200 8 200 0 0 (by decide) (by decide)
    (by decide) (by decide) (by decide) (by decide)).2
  rw [this]
  decide

/-! ## Idempotent no-op refresh (claim C2) -/

/-- Clearing the dirty state leaves nothing pending. -/
theorem reset_dirty_region_clears (d : dirty_rec_t) :
    (reset_dirty_region d).has_changes = false := by
  rw [reset_dirty_region]
  split <;> split <;> rfl

/-- The primary-window refresh always returns 0. -/
theorem tui_refresh_ret_zero (s : tui_st) : (tui_refresh s).1 = 0 := by
  rw [tui_refresh]
  split <;> rfl

/-- Every refresh ends with no dirty state pending (the early exit had
none; the rendering path ends in `reset_dirty_region`). -/
theorem tui_refresh_clears_dirty (s : tui_st) :
    (tui_refresh s).2.dirty.has_changes = false := by
  rw [tui_refresh]
  split
  · next h => simpa using h
  · exact reset_dirty_region_clears _

/-- C2: a refresh of the primary window with no pending dirty state
returns 0 and emits nothing (its token stream, and hence its byte output,
is unchanged); in particular a second refresh immediately after any
refresh — which always clears the dirty state — returns 0 and emits zero
bytes. -/
theorem c2_clean_refresh_is_noop (s : tui_st) :
    (s.dirty.has_changes = false →
      (tui_refresh s).1 = 0 ∧ (tui_refresh s).2.out = s.out) ∧
    (tui_refresh (tui_refresh s).2).1 = 0 ∧
    (tui_refresh (tui_refresh s).2).2.out = (tui_refresh s).2.out := by
  have key : ∀ t : tui_st, t.dirty.has_changes = false →
      (tui_refresh t).1 = 0 ∧ (tui_refresh t).2.out = t.out := by
    intro t ht
    rw [tui_refresh]
    rw [if_pos (by simp [ht])]
    exact ⟨rfl, rfl⟩
  exact ⟨key s, key _ (tui_refresh_clears_dirty s)⟩

/-- Witness for C2: a concrete engine that has just refreshed one drawn
cell is clean, and refreshing it again emits nothing. -/
theorem c2_clean_refresh_is_noop_witness :
    s_clean.dirty.has_changes = false ∧
    (tui_refresh s_clean).1 = 0 ∧ (tui_refresh s_clean).2.out = s_clean.out :=
  ⟨by decide, (c2_clean_refresh_is_noop s_clean).1 (by decide)⟩

/-! Balance infrastructure -/

theorem forInt_preserve {σ : Type} (P : σ → Prop) (body : Int → σ → σ)
    (h : ∀ i x, P x → P (body i x)) :
    ∀ (fuel : Nat) (lo hi : Int) (x : σ), P x → P (forInt fuel lo hi body x) := by
  intro fuel
  induction fuel with
  | zero => intro lo hi x hx; exact hx
  | succ n ih =>
    intro lo hi x hx
    rw [forInt]
    split
    · exact ih (lo + 1) hi (body lo x) (h lo x hx)
    · exact hx

theorem balanced_toks_nil : balanced_toks [] := by
  constructor <;> simp [count_attrs, count_chars, count_moves]

theorem balanced_toks_append {a b : List out_tok}
    (ha : balanced_toks a) (hb : balanced_toks b) :
    balanced_toks (a ++ b) := by
  obtain ⟨a1, a2⟩ := ha
  obtain ⟨b1, b2⟩ := hb
  simp only [count_attrs, count_chars, count_moves] at a1 a2 b1 b2
  constructor <;> simp only [count_attrs, count_chars, count_moves,
    List.countP_append] <;> omega

theorem counts_all_chars {new : List out_tok}
    (h : ∀ t ∈ new, is_chars_tok t = true) :
    count_moves new = 0 ∧ count_attrs new = 0 ∧
      count_chars new = new.length := by
  refine ⟨?_, ?_, ?_⟩
  · rw [count_moves, List.countP_eq_zero]
    intro t ht
    have := h t ht
    cases t <;> simp_all [is_chars_tok, is_move_tok]
  · rw [count_attrs, List.countP_eq_zero]
    intro t ht
    have := h t ht
    cases t <;> simp_all [is_chars_tok, is_attr_tok]
  · rw [count_chars, List.countP_eq_length]
    intro t ht
    exact h t ht

/-! Per-function out-stream lemmas -/

theorem run_copy_cells_preserved (s : tui_st) (y a b : Int) :
    (run_copy_cells s y a b).2.out = s.out ∧
    (run_copy_cells s y a b).2.cursor = s.cursor := by
  rw [run_copy_cells]
  exact forInt_preserve
    (fun p : List Nat × tui_st => p.2.out = s.out ∧ p.2.cursor = s.cursor)
    _ (by intro i p hp; simpa [logCell] using hp)
    _ a b ([], s) ⟨rfl, rfl⟩

theorem run_putchar_cells_out (s : tui_st) (y a b : Int) :
    ∃ new, (run_putchar_cells s y a b).out = s.out ++ new ∧
      ∀ t ∈ new, is_chars_tok t = true := by
  rw [run_putchar_cells]
  exact forInt_preserve
    (fun x : tui_st => ∃ new, x.out = s.out ++ new ∧
      ∀ t ∈ new, is_chars_tok t = true)
    _ (by
      intro i x hx
      obtain ⟨new, he, hc⟩ := hx
      refine ⟨new ++ [out_tok.chars [x.screen_buf y i]], ?_, ?_⟩
      · simp [emitTok, logCell, he]
      · intro t ht
        rcases List.mem_append.mp ht with h1 | h2
        · exact hc t h1
        · simp at h2; subst h2; rfl)
    _ a b s ⟨[], by simp, by simp⟩

theorem run_putchar_cells_longer (s : tui_st) (y a b : Int) (hab : a ≤ b) :
    s.out.length < (run_putchar_cells s y a b).out.length := by
  have hpos : 0 < (b + 1 - a).toNat := by omega
  obtain ⟨k, hk⟩ : ∃ k, (b + 1 - a).toNat = k + 1 :=
    ⟨(b + 1 - a).toNat - 1, by omega⟩
  rw [run_putchar_cells, hk, forInt, if_pos hab]
  refine forInt_preserve (fun x : tui_st => s.out.length < x.out.length)
    _ (by
      intro i x hx
      simp only [emitTok, logCell, List.length_append]
      omega)
    k (a + 1) b _ ?_
  simp [emitTok, logCell]

theorem output_buffered_run_out (s : tui_st) (y sx ex : Int)
    (hcur : s.cursor.last_col = sx) (hle : sx ≤ ex) :
    ∃ new, (output_buffered_run s y sx ex).out = s.out ++ new ∧
      count_moves new = 0 ∧ count_attrs new = 0 ∧ 1 ≤ count_chars new := by
  have putchar_case : ∀ (t : tui_st), t.out = s.out → t.cursor = s.cursor →
      ∃ new, (run_putchar_cells t y sx ex).out = s.out ++ new ∧
        count_moves new = 0 ∧ count_attrs new = 0 ∧ 1 ≤ count_chars new := by
    intro t hto htc
    obtain ⟨new, he, hc⟩ := run_putchar_cells_out t y sx ex
    have hlen := run_putchar_cells_longer t y sx ex hle
    obtain ⟨hm, ha, hcl⟩ := counts_all_chars hc
    refine ⟨new, by rw [he, hto], hm, ha, ?_⟩
    rw [hcl]
    rw [he, hto] at hlen
    simp at hlen
    omega
  rw [output_buffered_run]
  split
  · -- vectored
    rw [output_buffered_run_vectored]
    split
    · -- run_len ≤ 512: no inner move since the cursor is already at sx
      rw [if_neg (by simp [hcur])]
      obtain ⟨ho, hcu⟩ := run_copy_cells_preserved s y sx ex
      refine ⟨[out_tok.chars (run_copy_cells s y sx ex).1], ?_, ?_, ?_, ?_⟩
      · simp [emitTok, ho]
      · simp [count_moves, is_move_tok]
      · simp [count_attrs, is_attr_tok]
      · simp [count_chars, is_chars_tok]
    · obtain ⟨new, he, hm, ha, hc⟩ := putchar_case s rfl rfl
      exact ⟨new, by simpa using he, hm, ha, hc⟩
  · -- fallback
    have hmove : (if s.cursor.last_col ≠ sx then tui_move_cached s y sx else s)
        = s := if_neg (by simp [hcur])
    rw [output_buffered_run_fallback]
    simp only [hmove]
    split
    · obtain ⟨ho, hcu⟩ := run_copy_cells_preserved s y sx ex
      refine ⟨[out_tok.chars (run_copy_cells s y sx ex).1], ?_, ?_, ?_, ?_⟩
      · simp [emitTok, ho]
      · simp [count_moves, is_move_tok]
      · simp [count_attrs, is_attr_tok]
      · simp [count_chars, is_chars_tok]
    · obtain ⟨new, he, hm, ha, hc⟩ := putchar_case s rfl rfl
      exact ⟨new, by simpa using he, hm, ha, hc⟩

theorem out_chain {o1 o2 o3 : List out_tok}
    (h1 : ∃ n, o2 = o1 ++ n ∧ balanced_toks n)
    (h2 : ∃ n, o3 = o2 ++ n ∧ balanced_toks n) :
    ∃ n, o3 = o1 ++ n ∧ balanced_toks n := by
  obtain ⟨n1, e1, b1⟩ := h1
  obtain ⟨n2, e2, b2⟩ := h2
  exact ⟨n1 ++ n2, by rw [e2, e1, List.append_assoc],
    balanced_toks_append b1 b2⟩

theorem tile_run_extend_out : ∀ (fuel : Nat) (s : tui_st)
    (y ec smc : Int) (a : Nat) (e : Int),
    (tile_run_extend s y ec smc a e fuel).2.out = s.out := by
  intro fuel
  induction fuel with
  | zero => intro s y ec smc a e; rfl
  | succ n ih =>
    intro s y ec smc a e
    simp only [tile_run_extend]
    split
    · split
      · rw [ih]; rfl
      · rfl
    · rfl

theorem tile_run_extend_ge : ∀ (fuel : Nat) (s : tui_st)
    (y ec smc : Int) (a : Nat) (e : Int),
    e ≤ (tile_run_extend s y ec smc a e fuel).1 := by
  intro fuel
  induction fuel with
  | zero => intro s y ec smc a e; exact le_refl e
  | succ n ih =>
    intro s y ec smc a e
    simp only [tile_run_extend]
    split
    · split
      · exact le_trans (by omega) (ih _ y ec smc a (e + 1))
      · exact le_refl e
    · exact le_refl e

theorem tui_move_cached_ext (s : tui_st) (y x : Int) :
    (∃ mv, (tui_move_cached s y x).out = s.out ++ mv ∧
      count_moves mv ≤ 1 ∧ count_attrs mv = 0 ∧ count_chars mv = 0) ∧
    (tui_move_cached s y x).cursor.last_col = x := by
  simp only [tui_move_cached]
  split
  · rename_i h
    exact ⟨⟨[], by simp, by simp [count_moves], by simp [count_attrs],
      by simp [count_chars]⟩, h.2.symm⟩
  · split
    · rename_i rel0 t heq
      have ht : is_move_tok t = true := by
        split at heq
        · split at heq
          · split at heq
            · cases heq; rfl
            · split at heq
              · cases heq; rfl
              · split at heq
                · cases heq; rfl
                · cases heq
          · cases heq
        · cases heq
      refine ⟨⟨[t], rfl, ?_, ?_, ?_⟩, rfl⟩ <;>
        cases t <;>
          simp_all [count_moves, count_attrs, count_chars, is_move_tok,
            is_attr_tok, is_chars_tok, List.countP_cons]
    · refine ⟨⟨[out_tok.moveAbs y x], rfl, ?_, ?_, ?_⟩, rfl⟩ <;>
        simp [count_moves, count_attrs, count_chars, is_move_tok,
          is_attr_tok, is_chars_tok, List.countP_cons]

theorem apply_attributes_ext (s : tui_st) (a : Nat) :
    (∃ at0, (apply_attributes s a).out = s.out ++ at0 ∧
      count_attrs at0 ≤ 1 ∧ count_moves at0 = 0 ∧ count_chars at0 = 0) ∧
    (apply_attributes s a).cursor = s.cursor := by
  simp only [apply_attributes]
  split <;> split
  · exact ⟨⟨[], by simp, by simp [count_attrs], by simp [count_moves],
      by simp [count_chars]⟩, rfl⟩
  · refine ⟨⟨[out_tok.attrSeq _], rfl, ?_, ?_, ?_⟩, rfl⟩ <;>
      simp [count_attrs, count_moves, count_chars, List.countP_cons,
        is_attr_tok, is_move_tok, is_chars_tok]
  · exact ⟨⟨[], by simp, by simp [count_attrs], by simp [count_moves],
      by simp [count_chars]⟩, rfl⟩
  · refine ⟨⟨[out_tok.attrSeq _], rfl, ?_, ?_, ?_⟩, rfl⟩ <;>
      simp [count_attrs, count_moves, count_chars, List.countP_cons,
        is_attr_tok, is_move_tok, is_chars_tok]

theorem run_segment_ext (s : tui_st) (y x end_x : Int) (a : Nat)
    (hxe : x ≤ end_x) :
    ∃ new, (output_buffered_run (apply_attributes (tui_move_cached s y x) a)
        y x end_x).out = s.out ++ new ∧ balanced_toks new := by
  obtain ⟨⟨mv, hmv, hmv1, hmv2, hmv3⟩, hmc⟩ := tui_move_cached_ext s y x
  obtain ⟨⟨at0, hat, hat1, hat2, hat3⟩, hac⟩ :=
    apply_attributes_ext (tui_move_cached s y x) a
  have hcur : (apply_attributes (tui_move_cached s y x) a).cursor.last_col
      = x := by rw [hac, hmc]
  obtain ⟨run, hrun, hrm, hra, hrc⟩ :=
    output_buffered_run_out _ y x end_x hcur hxe
  refine ⟨mv ++ at0 ++ run, ?_, ?_, ?_⟩
  · rw [hrun, hat, hmv]; simp [List.append_assoc]
  · simp only [count_attrs, count_chars, List.countP_append]
    simp only [count_attrs, count_chars] at hat1 hmv2 hra hrc hmv3 hat3
    omega
  · simp only [count_moves, count_chars, List.countP_append]
    simp only [count_moves, count_chars] at hmv1 hat2 hrm hrc hmv3 hat3
    omega

theorem scan_tile_row_ext : ∀ (fuel : Nat) (s : tui_st) (hc : Bool)
    (y ec smc x : Int),
    ∃ new, (scan_tile_row s hc y ec smc x fuel).1.out = s.out ++ new ∧
      balanced_toks new := by
  intro fuel
  induction fuel with
  | zero =>
    intro s hc y ec smc x
    exact ⟨[], by simp [scan_tile_row], balanced_toks_nil⟩
  | succ n ih =>
    intro s hc y ec smc x
    simp only [scan_tile_row]
    split
    · split
      · rename_i hch
        refine @out_chain s.out ((output_buffered_run
          (apply_attributes
            (tui_move_cached
              (tile_run_extend (logCell s y x) y ec smc
                ((logCell s y x).attr_buf y x) x (ec - x).toNat).2
              y x)
            ((logCell s y x).attr_buf y x))
          y x
          (tile_run_extend (logCell s y x) y ec smc
            ((logCell s y x).attr_buf y x) x (ec - x).toNat).1).out) _ ?_ ?_
        · have hge := tile_run_extend_ge ((ec - x).toNat) (logCell s y x)
            y ec smc ((logCell s y x).attr_buf y x) x
          obtain ⟨new, he, hb⟩ := run_segment_ext
            (tile_run_extend (logCell s y x) y ec smc
              ((logCell s y x).attr_buf y x) x (ec - x).toNat).2
            y x
            (tile_run_extend (logCell s y x) y ec smc
              ((logCell s y x).attr_buf y x) x (ec - x).toNat).1
            ((logCell s y x).attr_buf y x) hge
          refine ⟨new, ?_, hb⟩
          rw [he, tile_run_extend_out]
          rfl
        · obtain ⟨new, he, hb⟩ := ih _ true y ec smc _
          exact ⟨new, he, hb⟩
      · obtain ⟨new, he, hb⟩ := ih (logCell s y x) hc y ec smc (x + 1)
        exact ⟨new, by simpa [logCell] using he, hb⟩
    · exact ⟨[], by simp, balanced_toks_nil⟩

theorem scan_l1_tile_ext (s : tui_st) (hc : Bool)
    (tr tc r1 r2 c1 c2 : Int) :
    ∃ new, (scan_l1_tile s hc tr tc r1 r2 c1 c2).1.out = s.out ++ new ∧
      balanced_toks new := by
  rw [scan_l1_tile]
  exact forInt_preserve
    (fun p : tui_st × Bool =>
      ∃ new, p.1.out = s.out ++ new ∧ balanced_toks new)
    _ (by
      intro i p hp
      exact out_chain hp (scan_tile_row_ext _ p.1 p.2 i _ _ _))
    _ _ _ (s, hc) ⟨[], by simp, balanced_toks_nil⟩

theorem scan_sparse_list_ext : ∀ (tiles : List (Nat × Nat)) (s : tui_st)
    (hc : Bool) (b : scan_bounds_t),
    ∃ new, (scan_sparse_list s hc tiles b).1.out = s.out ++ new ∧
      balanced_toks new := by
  intro tiles
  induction tiles with
  | nil => intro s hc b; exact ⟨[], by simp [scan_sparse_list], balanced_toks_nil⟩
  | cons t rest ih =>
    intro s hc b
    simp only [scan_sparse_list]
    refine @out_chain s.out ((if b.smin_row ≤ (t.1 : Int) * TILE_L1_SIZE +
        TILE_L1_SIZE - 1 ∧ (t.1 : Int) * TILE_L1_SIZE ≤ b.smax_row ∧
        b.smin_col ≤ (t.2 : Int) * TILE_L1_SIZE + TILE_L1_SIZE - 1 ∧
        (t.2 : Int) * TILE_L1_SIZE ≤ b.smax_col then
        scan_l1_tile s hc t.1 t.2 b.smin_row b.smax_row b.smin_col b.smax_col
      else (s, hc)).1.out) _ ?_ ?_
    · split
      · exact scan_l1_tile_ext s hc _ _ _ _ _ _
      · exact ⟨[], by simp, balanced_toks_nil⟩
    · split
      · exact ih _ _ b
      · exact ih _ _ b

theorem scan_sparse_hier_l1_ext : ∀ (l1s : List (Nat × Nat)) (s : tui_st)
    (hc : Bool) (l2r l2c : Int) (b : scan_bounds_t),
    ∃ new, (scan_sparse_hier_l1 s hc l1s l2r l2c b).1.out = s.out ++ new ∧
      balanced_toks new := by
  intro l1s
  induction l1s with
  | nil =>
    intro s hc l2r l2c b
    exact ⟨[], by simp [scan_sparse_hier_l1], balanced_toks_nil⟩
  | cons t rest ih =>
    intro s hc l2r l2c b
    simp only [scan_sparse_hier_l1]
    refine out_chain ?_ (ih _ _ l2r l2c b)
    split
    · split
      · exact scan_l1_tile_ext s hc _ _ _ _ _ _
      · exact ⟨[], by simp, balanced_toks_nil⟩
    · exact ⟨[], by simp, balanced_toks_nil⟩

theorem scan_sparse_hier_nil (s : tui_st) (hc : Bool)
    (l1s : List (Nat × Nat)) (b : scan_bounds_t) :
    scan_sparse_hier s hc [] l1s b = (s, hc) := rfl

theorem scan_sparse_hier_cons (s : tui_st) (hc : Bool) (blk : Nat × Nat)
    (rest l1s : List (Nat × Nat)) (b : scan_bounds_t) :
    scan_sparse_hier s hc (blk :: rest) l1s b =
      scan_sparse_hier
        (if b.smin_row ≤ (blk.1 : Int) * TILE_L2_SIZE + TILE_L2_SIZE - 1 ∧
            (blk.1 : Int) * TILE_L2_SIZE ≤ b.smax_row ∧
            b.smin_col ≤ (blk.2 : Int) * TILE_L2_SIZE + TILE_L2_SIZE - 1 ∧
            (blk.2 : Int) * TILE_L2_SIZE ≤ b.smax_col then
          scan_sparse_hier_l1 s hc l1s blk.1 blk.2 b
        else (s, hc)).1
        (if b.smin_row ≤ (blk.1 : Int) * TILE_L2_SIZE + TILE_L2_SIZE - 1 ∧
            (blk.1 : Int) * TILE_L2_SIZE ≤ b.smax_row ∧
            b.smin_col ≤ (blk.2 : Int) * TILE_L2_SIZE + TILE_L2_SIZE - 1 ∧
            (blk.2 : Int) * TILE_L2_SIZE ≤ b.smax_col then
          scan_sparse_hier_l1 s hc l1s blk.1 blk.2 b
        else (s, hc)).2
        rest l1s b := rfl

theorem scan_sparse_hier_ext : ∀ (l2s : List (Nat × Nat)) (s : tui_st)
    (hc : Bool) (l1s : List (Nat × Nat)) (b : scan_bounds_t),
    ∃ new, (scan_sparse_hier s hc l2s l1s b).1.out = s.out ++ new ∧
      balanced_toks new := by
  intro l2s
  induction l2s with
  | nil =>
    intro s hc l1s b
    rw [scan_sparse_hier_nil]
    exact ⟨[], by simp, balanced_toks_nil⟩
  | cons blk rest ih =>
    intro s hc l1s b
    rw [scan_sparse_hier_cons]
    refine @out_chain s.out ((if b.smin_row ≤ (blk.1 : Int) * TILE_L2_SIZE +
        TILE_L2_SIZE - 1 ∧ (blk.1 : Int) * TILE_L2_SIZE ≤ b.smax_row ∧
        b.smin_col ≤ (blk.2 : Int) * TILE_L2_SIZE + TILE_L2_SIZE - 1 ∧
        (blk.2 : Int) * TILE_L2_SIZE ≤ b.smax_col then
        scan_sparse_hier_l1 s hc l1s blk.1 blk.2 b
      else (s, hc)).1.out) _ ?_ (ih _ _ l1s b)
    split
    · exact scan_sparse_hier_l1_ext l1s s hc _ _ b
    · exact ⟨[], by simp, balanced_toks_nil⟩

set_option maxHeartbeats 2000000 in
theorem scan_dense_l2_block_ext (s : tui_st) (hc : Bool) (l2r l2c : Int)
    (b : scan_bounds_t) :
    ∃ new, (scan_dense_l2_block s hc l2r l2c b).1.out = s.out ++ new ∧
      balanced_toks new := by
  simp only [scan_dense_l2_block]
  refine forInt_preserve
    (fun p : tui_st × Bool =>
      ∃ new, p.1.out = s.out ++ new ∧ balanced_toks new)
    _ ?_ _ _ _ (s, hc) ⟨[], by simp, balanced_toks_nil⟩
  intro i p hp
  refine forInt_preserve
    (fun p : tui_st × Bool =>
      ∃ new, p.1.out = s.out ++ new ∧ balanced_toks new)
    _ ?_ _ _ _ p hp
  intro j q hq
  split
  · exact hq
  · exact out_chain hq (scan_l1_tile_ext q.1 q.2 _ _ _ _ _ _)

set_option maxHeartbeats 2000000 in
theorem scan_dense_hier_ext (s : tui_st) (hc : Bool) (b : scan_bounds_t) :
    ∃ new, (scan_dense_hier s hc b).1.out = s.out ++ new ∧
      balanced_toks new := by
  simp only [scan_dense_hier]
  refine forInt_preserve
    (fun p : tui_st × Bool =>
      ∃ new, p.1.out = s.out ++ new ∧ balanced_toks new)
    _ ?_ _ _ _ (s, hc) ⟨[], by simp, balanced_toks_nil⟩
  intro i p hp
  refine forInt_preserve
    (fun p : tui_st × Bool =>
      ∃ new, p.1.out = s.out ++ new ∧ balanced_toks new)
    _ ?_ _ _ _ p hp
  intro j q hq
  split
  · exact hq
  · exact out_chain hq (scan_dense_l2_block_ext q.1 q.2 _ _ b)

theorem linear_run_extend_out : ∀ (fuel : Nat) (s : tui_st) (y : Int)
    (a : Nat) (e g : Int),
    (linear_run_extend s y a e g fuel).2.out = s.out := by
  intro fuel
  induction fuel with
  | zero => intro s y a e g; rfl
  | succ n ih =>
    intro s y a e g
    simp only [linear_run_extend]
    split
    · split
      · split
        · rw [ih]; rfl
        · split
          · rw [ih]; rfl
          · rfl
      · rfl
    · rfl

theorem linear_run_extend_ge : ∀ (fuel : Nat) (s : tui_st) (y : Int)
    (a : Nat) (e g : Int), e ≤ (linear_run_extend s y a e g fuel).1 := by
  intro fuel
  induction fuel with
  | zero => intro s y a e g; exact le_refl e
  | succ n ih =>
    intro s y a e g
    simp only [linear_run_extend]
    split
    · split
      · split
        · exact le_trans (by omega) (ih _ y a (e + 1) 0)
        · split
          · exact le_trans (by omega) (ih _ y a (e + 1) (g + 1))
          · exact le_refl e
      · exact le_refl e
    · exact le_refl e

theorem linear_run_trim_out : ∀ (fuel : Nat) (s : tui_st) (y x e : Int),
    (linear_run_trim s y x e fuel).2.out = s.out := by
  intro fuel
  induction fuel with
  | zero => intro s y x e; rfl
  | succ n ih =>
    intro s y x e
    simp only [linear_run_trim]
    split
    · split
      · rw [ih]; rfl
      · rfl
    · rfl

theorem linear_run_trim_ge : ∀ (fuel : Nat) (s : tui_st) (y x e : Int),
    x ≤ e → x ≤ (linear_run_trim s y x e fuel).1 := by
  intro fuel
  induction fuel with
  | zero => intro s y x e he; exact he
  | succ n ih =>
    intro s y x e he
    simp only [linear_run_trim]
    split
    · rename_i hlt
      split
      · exact ih _ y x (e - 1) (by omega)
      · exact he
    · exact he

theorem row_has_changes_out (s : tui_st) (y a b : Int) :
    (row_has_changes s y a b).2.out = s.out := by
  rw [row_has_changes]
  split
  · rfl
  · rfl

theorem scan_linear_row_ext : ∀ (fuel : Nat) (s : tui_st) (hc : Bool)
    (y : Int) (b : scan_bounds_t) (x : Int),
    ∃ new, (scan_linear_row s hc y b x fuel).1.out = s.out ++ new ∧
      balanced_toks new := by
  intro fuel
  induction fuel with
  | zero =>
    intro s hc y b x
    exact ⟨[], by simp [scan_linear_row], balanced_toks_nil⟩
  | succ n ih =>
    intro s hc y b x
    simp only [scan_linear_row]
    split
    · split
      · refine @out_chain s.out ((output_buffered_run
          (apply_attributes
            (tui_move_cached
              (linear_run_trim
                (linear_run_extend (logCell s y x) y
                  ((logCell s y x).attr_buf y x) x 0
                  (min (logCell s y x).buf_cols (logCell s y x).tui_cols -
                    x).toNat).2
                y x
                (linear_run_extend (logCell s y x) y
                  ((logCell s y x).attr_buf y x) x 0
                  (min (logCell s y x).buf_cols (logCell s y x).tui_cols -
                    x).toNat).1
                ((linear_run_extend (logCell s y x) y
                  ((logCell s y x).attr_buf y x) x 0
                  (min (logCell s y x).buf_cols (logCell s y x).tui_cols -
                    x).toNat).1 - x).toNat).2
              y x)
            ((logCell s y x).attr_buf y x))
          y x
          (linear_run_trim
            (linear_run_extend (logCell s y x) y
              ((logCell s y x).attr_buf y x) x 0
              (min (logCell s y x).buf_cols (logCell s y x).tui_cols -
                x).toNat).2
            y x
            (linear_run_extend (logCell s y x) y
              ((logCell s y x).attr_buf y x) x 0
              (min (logCell s y x).buf_cols (logCell s y x).tui_cols -
                x).toNat).1
            ((linear_run_extend (logCell s y x) y
              ((logCell s y x).attr_buf y x) x 0
              (min (logCell s y x).buf_cols (logCell s y x).tui_cols -
                x).toNat).1 - x).toNat).1).out) _ ?_ ?_
        · have hge1 := linear_run_extend_ge
            ((min (logCell s y x).buf_cols (logCell s y x).tui_cols -
              x).toNat) (logCell s y x) y ((logCell s y x).attr_buf y x) x 0
          have hge2 := linear_run_trim_ge
            (((linear_run_extend (logCell s y x) y
              ((logCell s y x).attr_buf y x) x 0
              (min (logCell s y x).buf_cols (logCell s y x).tui_cols -
                x).toNat).1 - x).toNat)
            (linear_run_extend (logCell s y x) y
              ((logCell s y x).attr_buf y x) x 0
              (min (logCell s y x).buf_cols (logCell s y x).tui_cols -
                x).toNat).2
            y x
            (linear_run_extend (logCell s y x) y
              ((logCell s y x).attr_buf y x) x 0
              (min (logCell s y x).buf_cols (logCell s y x).tui_cols -
                x).toNat).1 hge1
          obtain ⟨new, he, hb⟩ := run_segment_ext _ y x _
            ((logCell s y x).attr_buf y x) hge2
          refine ⟨new, ?_, hb⟩
          rw [he, linear_run_trim_out, linear_run_extend_out]
          rfl
        · obtain ⟨new, he, hb⟩ := ih _ true y b _
          exact ⟨new, he, hb⟩
      · obtain ⟨new, he, hb⟩ := ih (logCell s y x) hc y b (x + 1)
        exact ⟨new, by simpa [logCell] using he, hb⟩
    · exact ⟨[], by simp, balanced_toks_nil⟩

theorem scan_linear_body_ext (s : tui_st) (p : tui_st × Bool)
    (i endcol : Int) (b : scan_bounds_t)
    (hp : ∃ new, p.1.out = s.out ++ new ∧ balanced_toks new) :
    ∃ new,
      (if ¬(row_has_changes p.1 i b.smin_col endcol).1 = true then
        ((row_has_changes p.1 i b.smin_col endcol).2, p.2)
      else
        scan_linear_row (row_has_changes p.1 i b.smin_col endcol).2 p.2 i b
          b.smin_col (b.smax_col + 1 - b.smin_col).toNat).1.out =
      s.out ++ new ∧ balanced_toks new := by
  obtain ⟨new, he, hb⟩ := hp
  split
  · exact ⟨new, by simpa [row_has_changes_out] using he, hb⟩
  · refine out_chain ?_
      (scan_linear_row_ext ((b.smax_col + 1 - b.smin_col).toNat)
        (row_has_changes p.1 i b.smin_col endcol).2 p.2 i b b.smin_col)
    exact ⟨new, by rw [row_has_changes_out]; exact he, hb⟩

theorem scan_linear_ext (s : tui_st) (hc : Bool) (b : scan_bounds_t) :
    ∃ new, (scan_linear s hc b).1.out = s.out ++ new ∧
      balanced_toks new := by
  rw [scan_linear]
  refine forInt_preserve
    (fun p : tui_st × Bool =>
      ∃ new, p.1.out = s.out ++ new ∧ balanced_toks new)
    _ ?_ _ _ _ (s, hc) ⟨[], by simp, balanced_toks_nil⟩
  intro i p hp
  split
  · exact scan_linear_body_ext s p i b.smax_col b hp
  · exact scan_linear_body_ext s p i (p.1.buf_cols - 1) b hp

theorem col_scan_rows_out : ∀ (fuel : Nat) (s : tui_st) (x y e : Int),
    (col_scan_rows s x y e fuel).2.out = s.out := by
  intro fuel
  induction fuel with
  | zero => intro s x y e; rfl
  | succ n ih =>
    intro s x y e
    simp only [col_scan_rows]
    split
    · split
      · rfl
      · rw [ih]; rfl
    · rfl

theorem col_has_changes_out (s : tui_st) (x a b : Int) :
    (col_has_changes s x a b).2.out = s.out := by
  rw [col_has_changes]
  split
  · rfl
  · exact col_scan_rows_out _ s x a b

theorem find_min_row_out : ∀ (fuel : Nat) (s : tui_st) (y m a b : Int),
    (find_min_row s y m a b fuel).2.out = s.out := by
  intro fuel
  induction fuel with
  | zero => intro s y m a b; rfl
  | succ n ih =>
    intro s y m a b
    simp only [find_min_row]
    split
    · split
      · exact row_has_changes_out s y a b
      · rw [ih, row_has_changes_out]
    · rfl

theorem find_max_row_out : ∀ (fuel : Nat) (s : tui_st) (y m a b : Int),
    (find_max_row s y m a b fuel).2.out = s.out := by
  intro fuel
  induction fuel with
  | zero => intro s y m a b; rfl
  | succ n ih =>
    intro s y m a b
    simp only [find_max_row]
    split
    · split
      · exact row_has_changes_out s y a b
      · rw [ih, row_has_changes_out]
    · rfl

theorem find_min_col_out : ∀ (fuel : Nat) (s : tui_st) (x m a b : Int),
    (find_min_col s x m a b fuel).2.out = s.out := by
  intro fuel
  induction fuel with
  | zero => intro s x m a b; rfl
  | succ n ih =>
    intro s x m a b
    simp only [find_min_col]
    split
    · split
      · exact col_has_changes_out s x a b
      · rw [ih, col_has_changes_out]
    · rfl

theorem find_max_col_out : ∀ (fuel : Nat) (s : tui_st) (x m a b : Int),
    (find_max_col s x m a b fuel).2.out = s.out := by
  intro fuel
  induction fuel with
  | zero => intro s x m a b; rfl
  | succ n ih =>
    intro s x m a b
    simp only [find_max_col]
    split
    · split
      · exact col_has_changes_out s x a b
      · rw [ih, col_has_changes_out]
    · rfl

theorem optimize_dirty_region_out (s : tui_st) :
    (optimize_dirty_region s).out = s.out := by
  simp only [optimize_dirty_region]
  split
  · rfl
  · split <;> split <;>
      simp [find_max_col_out, find_min_col_out, find_max_row_out,
        find_min_row_out]

theorem choose_scan_strategy_out (s : tui_st) (b : scan_bounds_t) :
    (choose_scan_strategy s b).1.out = s.out := by
  rw [choose_scan_strategy]
  split
  · rfl
  · rfl

theorem balanced_reset : balanced_toks [out_tok.reset] := by
  constructor <;>
    simp [count_attrs, count_chars, count_moves, is_attr_tok, is_chars_tok,
      is_move_tok, List.countP_cons]

theorem refresh_scan_choice_ext (s3 : tui_st) (b : scan_bounds_t)
    (use : Bool) :
    ∃ new, (if use then scan_sparse_list s3 false s3.dirty.dirty_l1_tiles b
      else if s3.dirty.use_hierarchical_tiles then
        if s3.dirty.use_sparse_tracking then
          scan_sparse_hier s3 false s3.dirty.dirty_l2_blocks
            s3.dirty.dirty_l1_tiles b
        else scan_dense_hier s3 false b
      else scan_linear s3 false b).1.out = s3.out ++ new ∧
      balanced_toks new := by
  split
  · exact scan_sparse_list_ext _ s3 false b
  · split
    · split
      · exact scan_sparse_hier_ext _ s3 false _ b
      · exact scan_dense_hier_ext s3 false b
    · exact scan_linear_ext s3 false b

theorem reset_wrap_ext (q : tui_st × Bool) :
    ∃ n,
      (if q.2 then
        { q.1 with
          out := q.1.out ++ [out_tok.reset], attr_state := reset_attr_state }
      else q.1).out = q.1.out ++ n ∧
      balanced_toks n := by
  split
  · exact ⟨[out_tok.reset], by simp, balanced_reset⟩
  · exact ⟨[], by simp, balanced_toks_nil⟩

theorem tui_refresh_out_balanced (s : tui_st) :
    ∃ new, (tui_refresh s).2.out = s.out ++ new ∧ balanced_toks new := by
  simp only [tui_refresh]
  split
  · exact ⟨[], by simp, balanced_toks_nil⟩
  · set o := optimize_dirty_region { s with auto_flush := false } with ho
    set b := compute_scan_bounds o with hb
    set c := choose_scan_strategy o b with hc
    have hco : c.1.out = s.out := by
      rw [hc, choose_scan_strategy_out, ho, optimize_dirty_region_out]
    refine @out_chain s.out
      ((if c.2 then scan_sparse_list c.1 false c.1.dirty.dirty_l1_tiles b
        else if c.1.dirty.use_hierarchical_tiles then
          if c.1.dirty.use_sparse_tracking then
            scan_sparse_hier c.1 false c.1.dirty.dirty_l2_blocks
              c.1.dirty.dirty_l1_tiles b
          else scan_dense_hier c.1 false b
        else scan_linear c.1 false b).1.out) _ ?_ ?_
    · exact @out_chain s.out c.1.out _
        ⟨[], by rw [hco]; simp, balanced_toks_nil⟩
        (refresh_scan_choice_ext c.1 b c.2)
    · exact reset_wrap_ext
        (if c.2 then scan_sparse_list c.1 false c.1.dirty.dirty_l1_tiles b
        else if c.1.dirty.use_hierarchical_tiles then
          if c.1.dirty.use_sparse_tracking then
            scan_sparse_hier c.1 false c.1.dirty.dirty_l2_blocks
              c.1.dirty.dirty_l1_tiles b
          else scan_dense_hier c.1 false b
        else scan_linear c.1 false b)

/-! ## Diff minimality (claim C3) -/

/-- Claim C3, counterexample: in the concrete 10×10 frame `c3_frame` three
cells of row 0 differ from the snapshot with attributes bold, normal,
bold.  The refresh emits three rendition sequences (the middle cell breaks
the run, and `apply_attributes` deduplicates only against the immediately
previous state), strictly more than the two distinct attribute values of
the changed cells — refuting the claimed bound. -/
theorem c3_attr_emissions_exceed_distinct_cex :
    distinct_attr_count c3_frame = 2 ∧
    count_attrs (tui_refresh c3_frame).2.out = 3 ∧
    ¬(count_attrs (tui_refresh c3_frame).2.out ≤
        distinct_attr_count c3_frame) := by
  refine ⟨by decide, by decide, by decide⟩

/-- Claim C3, amended: a refresh of the primary window starting with an
empty output stream emits at most one rendition (attribute) sequence and
at most one cursor-repositioning sequence per emitted character run: every
attribute change and every cursor move is followed by the characters of
the run it was emitted for. -/
theorem c3_refresh_token_balance (s : tui_st) (h : s.out = []) :
    balanced_toks (tui_refresh s).2.out := by
  obtain ⟨new, he, hb⟩ := tui_refresh_out_balanced s
  rw [he, h]
  simpa using hb

/-- Witness for the amended C3 at the fresh 10×10 engine. -/
theorem c3_refresh_token_balance_witness :
    (tui_init_state 10 10 false).out = [] ∧
    balanced_toks (tui_refresh (tui_init_state 10 10 false)).2.out :=
  ⟨rfl, c3_refresh_token_balance (tui_init_state 10 10 false) rfl⟩

/-! ## Resize safety and grid-access bounds (claim C10) -/

/-- Claim C10: a resize notification indeed only rewrites the cached
terminal extents and never the grids — but the access-bounding half of
the claim fails.  Printing `"ABCDEF"` at column −5 of a fresh 24×80
engine (`c10_state`) stores `min_col = −5` in the dirty rectangle, and
the next refresh's `optimize_dirty_region` bulk-compares row 0 from
column −5 (`row_has_changes` checks only the upper bounds), an access
outside the allocated `buf_rows × buf_cols` region. -/
theorem c10_refresh_reads_outside_allocated_grid :
    ((0 : Int), (-5 : Int)) ∈ (tui_refresh c10_state).2.acc ∧
    ¬ acc_in_bounds c10_state ((0 : Int), (-5 : Int)) ∧
    (∀ (s : tui_st) (lines cols : Int),
      (handle_resize s lines cols).buf_rows = s.buf_rows ∧
      (handle_resize s lines cols).buf_cols = s.buf_cols ∧
      (handle_resize s lines cols).screen_buf = s.screen_buf ∧
      (handle_resize s lines cols).prev_screen_buf = s.prev_screen_buf ∧
      (handle_resize s lines cols).attr_buf = s.attr_buf ∧
      (handle_resize s lines cols).prev_attr_buf = s.prev_attr_buf ∧
      (handle_resize s lines cols).tui_lines = lines ∧
      (handle_resize s lines cols).tui_cols = cols) := by
  refine ⟨by decide, fun h => absurd h.2.2.1 (by norm_num), ?_⟩
  intro s lines cols
  exact ⟨rfl, rfl, rfl, rfl, rfl, rfl, rfl, rfl⟩

/-! ## The pool-exhaustion refresh (claim C1) -/

theorem big_row0 : bigRowFn 0 bigDRect = bigStage 1 := by decide
theorem big_row1 : bigRowFn 1 (bigStage 1) = bigStage 2 := by decide
theorem big_row2 : bigRowFn 2 (bigStage 2) = bigStage 3 := by decide
theorem big_row3 : bigRowFn 3 (bigStage 3) = bigStage 4 := by decide
theorem big_row4 : bigRowFn 4 (bigStage 4) = bigStage 5 := by decide
theorem big_row5 : bigRowFn 5 (bigStage 5) = bigStage 6 := by decide
theorem big_row6 : bigRowFn 6 (bigStage 6) = bigStage 7 := by decide
theorem big_row7 : bigRowFn 7 (bigStage 7) = bigStage 8 := by decide
theorem big_row8 : bigRowFn 8 (bigStage 8) = bigStage 9 := by decide
theorem big_row9 : bigRowFn 9 (bigStage 9) = bigStage 10 := by decide
theorem big_row10 : bigRowFn 10 (bigStage 10) = bigStage 11 := by decide
theorem big_row11 : bigRowFn 11 (bigStage 11) = bigStage 12 := by decide
theorem big_row12 : bigRowFn 12 (bigStage 12) = bigStage 13 := by decide
theorem big_row13 : bigRowFn 13 (bigStage 13) = bigStage 14 := by decide
theorem big_row14 : bigRowFn 14 (bigStage 14) = bigStage 15 := by decide
theorem big_row15 : bigRowFn 15 (bigStage 15) = bigStage16 := by decide

theorem forInt_step {σ : Type} (fuel : Nat) (lo hi : Int) (f : Int → σ → σ)
    (x : σ) (h : lo ≤ hi) :
    forInt (fuel + 1) lo hi f x = forInt fuel (lo + 1) hi f (f lo x) := by
  rw [forInt, if_pos h]

theorem big_l1_rect : mark_l1_rect bigDRect 0 15 0 32 = bigStage16 := by
  show forInt (15 + 1) 0 15 bigRowFn bigDRect = bigStage16
  rw [forInt_step 15 0 15 bigRowFn bigDRect (by norm_num), big_row0]
  show forInt (14 + 1) 1 15 bigRowFn (bigStage 1) = bigStage16
  rw [forInt_step 14 1 15 bigRowFn (bigStage 1) (by norm_num), big_row1]
  show forInt (13 + 1) 2 15 bigRowFn (bigStage 2) = bigStage16
  rw [forInt_step 13 2 15 bigRowFn (bigStage 2) (by norm_num), big_row2]
  show forInt (12 + 1) 3 15 bigRowFn (bigStage 3) = bigStage16
  rw [forInt_step 12 3 15 bigRowFn (bigStage 3) (by norm_num), big_row3]
  show forInt (11 + 1) 4 15 bigRowFn (bigStage 4) = bigStage16
  rw [forInt_step 11 4 15 bigRowFn (bigStage 4) (by norm_num), big_row4]
  show forInt (10 + 1) 5 15 bigRowFn (bigStage 5) = bigStage16
  rw [forInt_step 10 5 15 bigRowFn (bigStage 5) (by norm_num), big_row5]
  show forInt (9 + 1) 6 15 bigRowFn (bigStage 6) = bigStage16
  rw [forInt_step 9 6 15 bigRowFn (bigStage 6) (by norm_num), big_row6]
  show forInt (8 + 1) 7 15 bigRowFn (bigStage 7) = bigStage16
  rw [forInt_step 8 7 15 bigRowFn (bigStage 7) (by norm_num), big_row7]
  show forInt (7 + 1) 8 15 bigRowFn (bigStage 8) = bigStage16
  rw [forInt_step 7 8 15 bigRowFn (bigStage 8) (by norm_num), big_row8]
  show forInt (6 + 1) 9 15 bigRowFn (bigStage 9) = bigStage16
  rw [forInt_step 6 9 15 bigRowFn (bigStage 9) (by norm_num), big_row9]
  show forInt (5 + 1) 10 15 bigRowFn (bigStage 10) = bigStage16
  rw [forInt_step 5 10 15 bigRowFn (bigStage 10) (by norm_num), big_row10]
  show forInt (4 + 1) 11 15 bigRowFn (bigStage 11) = bigStage16
  rw [forInt_step 4 11 15 bigRowFn (bigStage 11) (by norm_num), big_row11]
  show forInt (3 + 1) 12 15 bigRowFn (bigStage 12) = bigStage16
  rw [forInt_step 3 12 15 bigRowFn (bigStage 12) (by norm_num), big_row12]
  show forInt (2 + 1) 13 15 bigRowFn (bigStage 13) = bigStage16
  rw [forInt_step 2 13 15 bigRowFn (bigStage 13) (by norm_num), big_row13]
  show forInt (1 + 1) 14 15 bigRowFn (bigStage 14) = bigStage16
  rw [forInt_step 1 14 15 bigRowFn (bigStage 14) (by norm_num), big_row14]
  show forInt (0 + 1) 15 15 bigRowFn (bigStage 15) = bigStage16
  rw [forInt_step 0 15 15 bigRowFn (bigStage 15) (by norm_num), big_row15]
  rfl

theorem big_l2_rect2 : mark_l2_rect bigStage16 0 3 0 8 = bigDFinal := by
  decide

theorem big_mdr :
    mark_dirty_region sBig.dirty 0 0 (sBig.buf_rows - 1) (sBig.buf_cols - 1)
      = bigDFinal := by
  simp only [mark_dirty_region]
  split
  · rw [show ({ sBig.dirty with
        min_row := if 0 < sBig.dirty.min_row then 0 else sBig.dirty.min_row,
        max_row := if sBig.dirty.max_row < sBig.buf_rows - 1 then
          sBig.buf_rows - 1 else sBig.dirty.max_row,
        min_col := if 0 < sBig.dirty.min_col then 0 else sBig.dirty.min_col,
        max_col := if sBig.dirty.max_col < sBig.buf_cols - 1 then
          sBig.buf_cols - 1 else sBig.dirty.max_col,
        has_changes := true } : dirty_rec_t) = bigDRect from by decide]
    rw [show cdiv 0 TILE_L1_SIZE = (0 : Int) from by decide]
    rw [show min (cdiv (sBig.buf_rows - 1) TILE_L1_SIZE)
      (sBig.dirty.l1_tiles_y - 1) = (15 : Int) from by decide]
    rw [show min (cdiv (sBig.buf_cols - 1) TILE_L1_SIZE)
      (sBig.dirty.l1_tiles_x - 1) = (32 : Int) from by decide]
    rw [big_l1_rect]
    rw [show cdiv 0 TILE_L2_SIZE = (0 : Int) from by decide]
    rw [show min (cdiv (sBig.buf_rows - 1) TILE_L2_SIZE)
      (bigStage16.l2_blocks_y - 1) = (3 : Int) from by decide]
    rw [show min (cdiv (sBig.buf_cols - 1) TILE_L2_SIZE)
      (bigStage16.l2_blocks_x - 1) = (8 : Int) from by decide]
    exact big_l2_rect2
  · rename_i hn
    exact absurd rfl hn

theorem clear_big : (tui_clear_screen sBig).2 = sBigLit := by
  simp only [tui_clear_screen]
  rw [big_mdr]
  rfl

theorem big_opt_shape : optimize_dirty_region sBigAF = sBigOpt := rfl

theorem big_bounds : compute_scan_bounds sBigOpt = ⟨0, 127, 0, 263⟩ := rfl

theorem big_choose :
    choose_scan_strategy sBigOpt ⟨0, 127, 0, 263⟩ = (sBigScan, true) := rfl

theorem forInt_preserve_le {σ : Type} (P : σ → Prop) (body : Int → σ → σ)
    (hi : Int) (h : ∀ i x, i ≤ hi → P x → P (body i x)) :
    ∀ (fuel : Nat) (lo : Int) (x : σ), P x → P (forInt fuel lo hi body x) := by
  intro fuel
  induction fuel with
  | zero => intro lo x hx; exact hx
  | succ n ih =>
    intro lo x hx
    rw [forInt]
    split
    · rename_i hle
      exact ih (lo + 1) (body lo x) (h lo x hle hx)
    · exact hx

theorem upd2_pt (f : Int → Int → Nat) (r c : Int) (v : Nat) (r0 c0 : Int)
    (h : ¬(r0 = r ∧ c0 = c)) : upd2 f r c v r0 c0 = f r0 c0 := by
  simp only [upd2]
  rw [if_neg]
  simpa using h

theorem tui_move_cached_grids (s : tui_st) (y x : Int) :
    (tui_move_cached s y x).prev_screen_buf = s.prev_screen_buf ∧
    (tui_move_cached s y x).screen_buf = s.screen_buf := by
  simp only [tui_move_cached]
  split
  · exact ⟨rfl, rfl⟩
  · split
    · exact ⟨rfl, rfl⟩
    · exact ⟨rfl, rfl⟩

theorem apply_attributes_grids (s : tui_st) (a : Nat) :
    (apply_attributes s a).prev_screen_buf = s.prev_screen_buf ∧
    (apply_attributes s a).screen_buf = s.screen_buf := by
  simp only [apply_attributes]
  split <;> split
  · exact ⟨rfl, rfl⟩
  · exact ⟨rfl, rfl⟩
  · exact ⟨rfl, rfl⟩
  · exact ⟨rfl, rfl⟩

theorem run_copy_cells_prev_pt (s : tui_st) (y lo hi r0 c0 : Int)
    (h : y ≠ r0 ∨ hi < c0) :
    (run_copy_cells s y lo hi).2.prev_screen_buf r0 c0 =
      s.prev_screen_buf r0 c0 ∧
    (run_copy_cells s y lo hi).2.screen_buf = s.screen_buf := by
  rw [run_copy_cells]
  exact forInt_preserve_le
    (fun p : List Nat × tui_st =>
      p.2.prev_screen_buf r0 c0 = s.prev_screen_buf r0 c0 ∧
      p.2.screen_buf = s.screen_buf)
    _ hi (by
      intro i p hile hp
      refine ⟨?_, by simpa [logCell] using hp.2⟩
      have : ¬(r0 = y ∧ c0 = i) := by
        rcases h with h | h
        · intro hc; exact h hc.1.symm
        · intro hc; omega
      simp only [logCell]
      rw [upd2_pt _ _ _ _ _ _ this]
      exact hp.1)
    _ lo ([], s) ⟨rfl, rfl⟩

theorem run_putchar_cells_prev_pt (s : tui_st) (y lo hi r0 c0 : Int)
    (h : y ≠ r0 ∨ hi < c0) :
    (run_putchar_cells s y lo hi).prev_screen_buf r0 c0 =
      s.prev_screen_buf r0 c0 ∧
    (run_putchar_cells s y lo hi).screen_buf = s.screen_buf := by
  rw [run_putchar_cells]
  exact forInt_preserve_le
    (fun x : tui_st =>
      x.prev_screen_buf r0 c0 = s.prev_screen_buf r0 c0 ∧
      x.screen_buf = s.screen_buf)
    _ hi (by
      intro i x hile hp
      refine ⟨?_, by simpa [logCell, emitTok] using hp.2⟩
      have : ¬(r0 = y ∧ c0 = i) := by
        rcases h with h | h
        · intro hc; exact h hc.1.symm
        · intro hc; omega
      simp only [logCell, emitTok]
      rw [upd2_pt _ _ _ _ _ _ this]
      exact hp.1)
    _ lo s ⟨rfl, rfl⟩

theorem output_buffered_run_prev_pt (s : tui_st) (y sx ex r0 c0 : Int)
    (h : y ≠ r0 ∨ ex < c0) :
    (output_buffered_run s y sx ex).prev_screen_buf r0 c0 =
      s.prev_screen_buf r0 c0 ∧
    (output_buffered_run s y sx ex).screen_buf = s.screen_buf := by
  have hmv := tui_move_cached_grids s y sx
  rw [output_buffered_run]
  split
  · rw [output_buffered_run_vectored]
    split
    · split
      · obtain ⟨h1, h2⟩ := run_copy_cells_prev_pt (tui_move_cached s y sx)
          y sx ex r0 c0 h
        exact ⟨by simp [emitTok, h1, hmv.1], by simp [emitTok, h2, hmv.2]⟩
      · obtain ⟨h1, h2⟩ := run_copy_cells_prev_pt s y sx ex r0 c0 h
        exact ⟨by simp [emitTok, h1], by simp [emitTok, h2]⟩
    · obtain ⟨h1, h2⟩ := run_putchar_cells_prev_pt s y sx ex r0 c0 h
      exact ⟨by simpa using h1, by simpa using h2⟩
  · rw [output_buffered_run_fallback]
    split
    · split
      · obtain ⟨h1, h2⟩ := run_copy_cells_prev_pt (tui_move_cached s y sx)
          y sx ex r0 c0 h
        exact ⟨by simp [emitTok, h1, hmv.1], by simp [emitTok, h2, hmv.2]⟩
      · obtain ⟨h1, h2⟩ := run_copy_cells_prev_pt s y sx ex r0 c0 h
        exact ⟨by simp [emitTok, h1], by simp [emitTok, h2]⟩
    · split
      · obtain ⟨h1, h2⟩ := run_putchar_cells_prev_pt (tui_move_cached s y sx)
          y sx ex r0 c0 h
        exact ⟨by simp [h1, hmv.1], by simp [h2, hmv.2]⟩
      · obtain ⟨h1, h2⟩ := run_putchar_cells_prev_pt s y sx ex r0 c0 h
        exact ⟨by simpa using h1, by simpa using h2⟩

theorem tile_run_extend_grids : ∀ (fuel : Nat) (s : tui_st)
    (y ec smc : Int) (a : Nat) (e : Int),
    (tile_run_extend s y ec smc a e fuel).2.prev_screen_buf =
      s.prev_screen_buf ∧
    (tile_run_extend s y ec smc a e fuel).2.screen_buf = s.screen_buf := by
  intro fuel
  induction fuel with
  | zero => intro s y ec smc a e; exact ⟨rfl, rfl⟩
  | succ n ih =>
    intro s y ec smc a e
    simp only [tile_run_extend]
    split
    · split
      · obtain ⟨h1, h2⟩ := ih (logCell s y (e + 1)) y ec smc a (e + 1)
        exact ⟨by rw [h1]; rfl, by rw [h2]; rfl⟩
      · exact ⟨rfl, rfl⟩
    · exact ⟨rfl, rfl⟩

theorem tile_run_extend_lt : ∀ (fuel : Nat) (s : tui_st)
    (y ec smc : Int) (a : Nat) (e : Int), e < ec →
    (tile_run_extend s y ec smc a e fuel).1 < ec := by
  intro fuel
  induction fuel with
  | zero => intro s y ec smc a e he; exact he
  | succ n ih =>
    intro s y ec smc a e he
    simp only [tile_run_extend]
    split
    · rename_i hcond
      split
      · exact ih _ y ec smc a (e + 1) (by omega)
      · exact he
    · exact he

theorem scan_tile_row_prev_pt (r0 c0 : Int) :
    ∀ (fuel : Nat) (s : tui_st) (hc : Bool) (y ec smc x : Int),
    (y ≠ r0 ∨ ec ≤ c0) →
    (scan_tile_row s hc y ec smc x fuel).1.prev_screen_buf r0 c0 =
      s.prev_screen_buf r0 c0 ∧
    (scan_tile_row s hc y ec smc x fuel).1.screen_buf = s.screen_buf := by
  intro fuel
  induction fuel with
  | zero => intro s hc y ec smc x h; exact ⟨rfl, rfl⟩
  | succ n ih =>
    intro s hc y ec smc x h
    simp only [scan_tile_row]
    split
    · rename_i hxlt
      split
      · -- changed cell: run segment then recurse
        set sl := logCell s y x with hsl
        set p := tile_run_extend sl y ec smc (sl.attr_buf y x) x
          (ec - x).toNat with hp
        have hend : p.1 < ec :=
          tile_run_extend_lt _ sl y ec smc (sl.attr_buf y x) x hxlt
        have hcond : y ≠ r0 ∨ p.1 < c0 := by
          rcases h with h | h
          · exact Or.inl h
          · exact Or.inr (by omega)
        obtain ⟨he1, he2⟩ := tile_run_extend_grids ((ec - x).toNat) sl y ec
          smc (sl.attr_buf y x) x
        have hmv := tui_move_cached_grids p.2 y x
        have hat := apply_attributes_grids (tui_move_cached p.2 y x)
          (sl.attr_buf y x)
        obtain ⟨ho1, ho2⟩ := output_buffered_run_prev_pt
          (apply_attributes (tui_move_cached p.2 y x) (sl.attr_buf y x))
          y x p.1 r0 c0 hcond
        obtain ⟨hr1, hr2⟩ := ih _ true y ec smc (p.1 + 1) h
        refine ⟨?_, ?_⟩
        · rw [hr1]
          show (output_buffered_run _ y x p.1).prev_screen_buf r0 c0 = _
          rw [ho1, hat.1, hmv.1, he1]
          rfl
        · rw [hr2]
          show (output_buffered_run _ y x p.1).screen_buf = _
          rw [ho2, hat.2, hmv.2, he2]
          rfl
      · obtain ⟨h1, h2⟩ := ih (logCell s y x) hc y ec smc (x + 1) h
        exact ⟨by rw [h1]; rfl, by rw [h2]; rfl⟩
    · exact ⟨rfl, rfl⟩

theorem scan_l1_tile_prev_pt (r0 c0 : Int) (s : tui_st) (hc : Bool)
    (tr tc r1 r2 c1 c2 : Int)
    (h : (tr + 1) * TILE_L1_SIZE ≤ r0 ∨ (tc + 1) * TILE_L1_SIZE ≤ c0) :
    (scan_l1_tile s hc tr tc r1 r2 c1 c2).1.prev_screen_buf r0 c0 =
      s.prev_screen_buf r0 c0 ∧
    (scan_l1_tile s hc tr tc r1 r2 c1 c2).1.screen_buf = s.screen_buf := by
  simp only [scan_l1_tile]
  refine forInt_preserve_le
    (fun p : tui_st × Bool =>
      p.1.prev_screen_buf r0 c0 = s.prev_screen_buf r0 c0 ∧
      p.1.screen_buf = s.screen_buf)
    _ _ ?_ _ _ (s, hc) ⟨rfl, rfl⟩
  intro i p hile hp
  have hcond : i ≠ r0 ∨
      min (min (min ((tc + 1) * TILE_L1_SIZE) s.buf_cols) s.tui_cols)
        (c2 + 1) ≤ c0 := by
    rcases h with h | h
    · have t1 : min (min (min ((tr + 1) * TILE_L1_SIZE) s.buf_rows)
          s.tui_lines) (r2 + 1) ≤ (tr + 1) * TILE_L1_SIZE :=
        le_trans (min_le_left _ _) (le_trans (min_le_left _ _)
          (min_le_left _ _))
      exact Or.inl (by omega)
    · have t1 : min (min (min ((tc + 1) * TILE_L1_SIZE) s.buf_cols)
          s.tui_cols) (c2 + 1) ≤ (tc + 1) * TILE_L1_SIZE :=
        le_trans (min_le_left _ _) (le_trans (min_le_left _ _)
          (min_le_left _ _))
      exact Or.inr (by omega)
  obtain ⟨h1, h2⟩ := scan_tile_row_prev_pt r0 c0 _ p.1 p.2 i _ c2 _ hcond
  exact ⟨by rw [h1, hp.1], by rw [h2, hp.2]⟩

theorem scan_sparse_list_prev_pt (r0 c0 : Int) :
    ∀ (tiles : List (Nat × Nat)) (s : tui_st) (hc : Bool)
      (b : scan_bounds_t),
    (∀ t ∈ tiles, ((t.1 : Int) + 1) * TILE_L1_SIZE ≤ r0 ∨
      ((t.2 : Int) + 1) * TILE_L1_SIZE ≤ c0) →
    (scan_sparse_list s hc tiles b).1.prev_screen_buf r0 c0 =
      s.prev_screen_buf r0 c0 ∧
    (scan_sparse_list s hc tiles b).1.screen_buf = s.screen_buf := by
  intro tiles
  induction tiles with
  | nil => intro s hc b hT; exact ⟨rfl, rfl⟩
  | cons t rest ih =>
    intro s hc b hT
    simp only [scan_sparse_list]
    have hstep : (if b.smin_row ≤ (t.1 : Int) * TILE_L1_SIZE +
          TILE_L1_SIZE - 1 ∧ (t.1 : Int) * TILE_L1_SIZE ≤ b.smax_row ∧
          b.smin_col ≤ (t.2 : Int) * TILE_L1_SIZE + TILE_L1_SIZE - 1 ∧
          (t.2 : Int) * TILE_L1_SIZE ≤ b.smax_col then
          scan_l1_tile s hc t.1 t.2 b.smin_row b.smax_row b.smin_col
            b.smax_col
        else (s, hc)).1.prev_screen_buf r0 c0 = s.prev_screen_buf r0 c0 ∧
        (if b.smin_row ≤ (t.1 : Int) * TILE_L1_SIZE +
          TILE_L1_SIZE - 1 ∧ (t.1 : Int) * TILE_L1_SIZE ≤ b.smax_row ∧
          b.smin_col ≤ (t.2 : Int) * TILE_L1_SIZE + TILE_L1_SIZE - 1 ∧
          (t.2 : Int) * TILE_L1_SIZE ≤ b.smax_col then
          scan_l1_tile s hc t.1 t.2 b.smin_row b.smax_row b.smin_col
            b.smax_col
        else (s, hc)).1.screen_buf = s.screen_buf := by
      split
      · exact scan_l1_tile_prev_pt r0 c0 s hc t.1 t.2 _ _ _ _
          (hT t (List.mem_cons_self t rest))
      · exact ⟨rfl, rfl⟩
    obtain ⟨ih1, ih2⟩ := ih _ _ b (fun u hu => hT u (List.mem_cons_of_mem t hu))
    exact ⟨by rw [ih1, hstep.1], by rw [ih2, hstep.2]⟩

theorem bigL1List_misses_corner :
    ∀ t ∈ bigL1List, ((t.1 : Int) + 1) * TILE_L1_SIZE ≤ 127 ∨
      ((t.2 : Int) + 1) * TILE_L1_SIZE ≤ 263 := by decide

theorem refresh_wrap_grids (q : tui_st × Bool) :
    (if q.2 then
      { q.1 with
        out := q.1.out ++ [out_tok.reset], attr_state := reset_attr_state }
    else q.1).prev_screen_buf = q.1.prev_screen_buf ∧
    (if q.2 then
      { q.1 with
        out := q.1.out ++ [out_tok.reset], attr_state := reset_attr_state }
    else q.1).screen_buf = q.1.screen_buf := by
  split
  · exact ⟨rfl, rfl⟩
  · exact ⟨rfl, rfl⟩

theorem tui_refresh_decomp (s : tui_st)
    (h : s.dirty.has_changes = true) :
    tui_refresh s =
    (0, { { (if (if (choose_scan_strategy (optimize_dirty_region { s with auto_flush := false }) (compute_scan_bounds (optimize_dirty_region { s with auto_flush := false }))).2 then
        scan_sparse_list (choose_scan_strategy (optimize_dirty_region { s with auto_flush := false }) (compute_scan_bounds (optimize_dirty_region { s with auto_flush := false }))).1 false (choose_scan_strategy (optimize_dirty_region { s with auto_flush := false }) (compute_scan_bounds (optimize_dirty_region { s with auto_flush := false }))).1.dirty.dirty_l1_tiles (compute_scan_bounds (optimize_dirty_region { s with auto_flush := false }))
      else
        if (choose_scan_strategy (optimize_dirty_region { s with auto_flush := false }) (compute_scan_bounds (optimize_dirty_region { s with auto_flush := false }))).1.dirty.use_hierarchical_tiles then
          if (choose_scan_strategy (optimize_dirty_region { s with auto_flush := false }) (compute_scan_bounds (optimize_dirty_region { s with auto_flush := false }))).1.dirty.use_sparse_tracking then
            scan_sparse_hier (choose_scan_strategy (optimize_dirty_region { s with auto_flush := false }) (compute_scan_bounds (optimize_dirty_region { s with auto_flush := false }))).1 false (choose_scan_strategy (optimize_dirty_region { s with auto_flush := false }) (compute_scan_bounds (optimize_dirty_region { s with auto_flush := false }))).1.dirty.dirty_l2_blocks
              (choose_scan_strategy (optimize_dirty_region { s with auto_flush := false }) (compute_scan_bounds (optimize_dirty_region { s with auto_flush := false }))).1.dirty.dirty_l1_tiles (compute_scan_bounds (optimize_dirty_region { s with auto_flush := false }))
          else scan_dense_hier (choose_scan_strategy (optimize_dirty_region { s with auto_flush := false }) (compute_scan_bounds (optimize_dirty_region { s with auto_flush := false }))).1 false (compute_scan_bounds (optimize_dirty_region { s with auto_flush := false }))
        else scan_linear (choose_scan_strategy (optimize_dirty_region { s with auto_flush := false }) (compute_scan_bounds (optimize_dirty_region { s with auto_flush := false }))).1 false (compute_scan_bounds (optimize_dirty_region { s with auto_flush := false }))).2 then
      { (if (choose_scan_strategy (optimize_dirty_region { s with auto_flush := false }) (compute_scan_bounds (optimize_dirty_region { s with auto_flush := false }))).2 then
        scan_sparse_list (choose_scan_strategy (optimize_dirty_region { s with auto_flush := false }) (compute_scan_bounds (optimize_dirty_region { s with auto_flush := false }))).1 false (choose_scan_strategy (optimize_dirty_region { s with auto_flush := false }) (compute_scan_bounds (optimize_dirty_region { s with auto_flush := false }))).1.dirty.dirty_l1_tiles (compute_scan_bounds (optimize_dirty_region { s with auto_flush := false }))
      else
        if (choose_scan_strategy (optimize_dirty_region { s with auto_flush := false }) (compute_scan_bounds (optimize_dirty_region { s with auto_flush := false }))).1.dirty.use_hierarchical_tiles then
          if (choose_scan_strategy (optimize_dirty_region { s with auto_flush := false }) (compute_scan_bounds (optimize_dirty_region { s with auto_flush := false }))).1.dirty.use_sparse_tracking then
            scan_sparse_hier (choose_scan_strategy (optimize_dirty_region { s with auto_flush := false }) (compute_scan_bounds (optimize_dirty_region { s with auto_flush := false }))).1 false (choose_scan_strategy (optimize_dirty_region { s with auto_flush := false }) (compute_scan_bounds (optimize_dirty_region { s with auto_flush := false }))).1.dirty.dirty_l2_blocks
              (choose_scan_strategy (optimize_dirty_region { s with auto_flush := false }) (compute_scan_bounds (optimize_dirty_region { s with auto_flush := false }))).1.dirty.dirty_l1_tiles (compute_scan_bounds (optimize_dirty_region { s with auto_flush := false }))
          else scan_dense_hier (choose_scan_strategy (optimize_dirty_region { s with auto_flush := false }) (compute_scan_bounds (optimize_dirty_region { s with auto_flush := false }))).1 false (compute_scan_bounds (optimize_dirty_region { s with auto_flush := false }))
        else scan_linear (choose_scan_strategy (optimize_dirty_region { s with auto_flush := false }) (compute_scan_bounds (optimize_dirty_region { s with auto_flush := false }))).1 false (compute_scan_bounds (optimize_dirty_region { s with auto_flush := false }))).1 with
        out := (if (choose_scan_strategy (optimize_dirty_region { s with auto_flush := false }) (compute_scan_bounds (optimize_dirty_region { s with auto_flush := false }))).2 then
        scan_sparse_list (choose_scan_strategy (optimize_dirty_region { s with auto_flush := false }) (compute_scan_bounds (optimize_dirty_region { s with auto_flush := false }))).1 false (choose_scan_strategy (optimize_dirty_region { s with auto_flush := false }) (compute_scan_bounds (optimize_dirty_region { s with auto_flush := false }))).1.dirty.dirty_l1_tiles (compute_scan_bounds (optimize_dirty_region { s with auto_flush := false }))
      else
        if (choose_scan_strategy (optimize_dirty_region { s with auto_flush := false }) (compute_scan_bounds (optimize_dirty_region { s with auto_flush := false }))).1.dirty.use_hierarchical_tiles then
          if (choose_scan_strategy (optimize_dirty_region { s with auto_flush := false }) (compute_scan_bounds (optimize_dirty_region { s with auto_flush := false }))).1.dirty.use_sparse_tracking then
            scan_sparse_hier (choose_scan_strategy (optimize_dirty_region { s with auto_flush := false }) (compute_scan_bounds (optimize_dirty_region { s with auto_flush := false }))).1 false (choose_scan_strategy (optimize_dirty_region { s with auto_flush := false }) (compute_scan_bounds (optimize_dirty_region { s with auto_flush := false }))).1.dirty.dirty_l2_blocks
              (choose_scan_strategy (optimize_dirty_region { s with auto_flush := false }) (compute_scan_bounds (optimize_dirty_region { s with auto_flush := false }))).1.dirty.dirty_l1_tiles (compute_scan_bounds (optimize_dirty_region { s with auto_flush := false }))
          else scan_dense_hier (choose_scan_strategy (optimize_dirty_region { s with auto_flush := false }) (compute_scan_bounds (optimize_dirty_region { s with auto_flush := false }))).1 false (compute_scan_bounds (optimize_dirty_region { s with auto_flush := false }))
        else scan_linear (choose_scan_strategy (optimize_dirty_region { s with auto_flush := false }) (compute_scan_bounds (optimize_dirty_region { s with auto_flush := false }))).1 false (compute_scan_bounds (optimize_dirty_region { s with auto_flush := false }))).1.out ++ [out_tok.reset],
        attr_state := reset_attr_state }
    else (if (choose_scan_strategy (optimize_dirty_region { s with auto_flush := false }) (compute_scan_bounds (optimize_dirty_region { s with auto_flush := false }))).2 then
        scan_sparse_list (choose_scan_strategy (optimize_dirty_region { s with auto_flush := false }) (compute_scan_bounds (optimize_dirty_region { s with auto_flush := false }))).1 false (choose_scan_strategy (optimize_dirty_region { s with auto_flush := false }) (compute_scan_bounds (optimize_dirty_region { s with auto_flush := false }))).1.dirty.dirty_l1_tiles (compute_scan_bounds (optimize_dirty_region { s with auto_flush := false }))
      else
        if (choose_scan_strategy (optimize_dirty_region { s with auto_flush := false }) (compute_scan_bounds (optimize_dirty_region { s with auto_flush := false }))).1.dirty.use_hierarchical_tiles then
          if (choose_scan_strategy (optimize_dirty_region { s with auto_flush := false }) (compute_scan_bounds (optimize_dirty_region { s with auto_flush := false }))).1.dirty.use_sparse_tracking then
            scan_sparse_hier (choose_scan_strategy (optimize_dirty_region { s with auto_flush := false }) (compute_scan_bounds (optimize_dirty_region { s with auto_flush := false }))).1 false (choose_scan_strategy (optimize_dirty_region { s with auto_flush := false }) (compute_scan_bounds (optimize_dirty_region { s with auto_flush := false }))).1.dirty.dirty_l2_blocks
              (choose_scan_strategy (optimize_dirty_region { s with auto_flush := false }) (compute_scan_bounds (optimize_dirty_region { s with auto_flush := false }))).1.dirty.dirty_l1_tiles (compute_scan_bounds (optimize_dirty_region { s with auto_flush := false }))
          else scan_dense_hier (choose_scan_strategy (optimize_dirty_region { s with auto_flush := false }) (compute_scan_bounds (optimize_dirty_region { s with auto_flush := false }))).1 false (compute_scan_bounds (optimize_dirty_region { s with auto_flush := false }))
        else scan_linear (choose_scan_strategy (optimize_dirty_region { s with auto_flush := false }) (compute_scan_bounds (optimize_dirty_region { s with auto_flush := false }))).1 false (compute_scan_bounds (optimize_dirty_region { s with auto_flush := false }))).1) with auto_flush := true } with dirty := reset_dirty_region ({ (if (if (choose_scan_strategy (optimize_dirty_region { s with auto_flush := false }) (compute_scan_bounds (optimize_dirty_region { s with auto_flush := false }))).2 then
        scan_sparse_list (choose_scan_strategy (optimize_dirty_region { s with auto_flush := false }) (compute_scan_bounds (optimize_dirty_region { s with auto_flush := false }))).1 false (choose_scan_strategy (optimize_dirty_region { s with auto_flush := false }) (compute_scan_bounds (optimize_dirty_region { s with auto_flush := false }))).1.dirty.dirty_l1_tiles (compute_scan_bounds (optimize_dirty_region { s with auto_flush := false }))
      else
        if (choose_scan_strategy (optimize_dirty_region { s with auto_flush := false }) (compute_scan_bounds (optimize_dirty_region { s with auto_flush := false }))).1.dirty.use_hierarchical_tiles then
          if (choose_scan_strategy (optimize_dirty_region { s with auto_flush := false }) (compute_scan_bounds (optimize_dirty_region { s with auto_flush := false }))).1.dirty.use_sparse_tracking then
            scan_sparse_hier (choose_scan_strategy (optimize_dirty_region { s with auto_flush := false }) (compute_scan_bounds (optimize_dirty_region { s with auto_flush := false }))).1 false (choose_scan_strategy (optimize_dirty_region { s with auto_flush := false }) (compute_scan_bounds (optimize_dirty_region { s with auto_flush := false }))).1.dirty.dirty_l2_blocks
              (choose_scan_strategy (optimize_dirty_region { s with auto_flush := false }) (compute_scan_bounds (optimize_dirty_region { s with auto_flush := false }))).1.dirty.dirty_l1_tiles (compute_scan_bounds (optimize_dirty_region { s with auto_flush := false }))
          else scan_dense_hier (choose_scan_strategy (optimize_dirty_region { s with auto_flush := false }) (compute_scan_bounds (optimize_dirty_region { s with auto_flush := false }))).1 false (compute_scan_bounds (optimize_dirty_region { s with auto_flush := false }))
        else scan_linear (choose_scan_strategy (optimize_dirty_region { s with auto_flush := false }) (compute_scan_bounds (optimize_dirty_region { s with auto_flush := false }))).1 false (compute_scan_bounds (optimize_dirty_region { s with auto_flush := false }))).2 then
      { (if (choose_scan_strategy (optimize_dirty_region { s with auto_flush := false }) (compute_scan_bounds (optimize_dirty_region { s with auto_flush := false }))).2 then
        scan_sparse_list (choose_scan_strategy (optimize_dirty_region { s with auto_flush := false }) (compute_scan_bounds (optimize_dirty_region { s with auto_flush := false }))).1 false (choose_scan_strategy (optimize_dirty_region { s with auto_flush := false }) (compute_scan_bounds (optimize_dirty_region { s with auto_flush := false }))).1.dirty.dirty_l1_tiles (compute_scan_bounds (optimize_dirty_region { s with auto_flush := false }))
      else
        if (choose_scan_strategy (optimize_dirty_region { s with auto_flush := false }) (compute_scan_bounds (optimize_dirty_region { s with auto_flush := false }))).1.dirty.use_hierarchical_tiles then
          if (choose_scan_strategy (optimize_dirty_region { s with auto_flush := false }) (compute_scan_bounds (optimize_dirty_region { s with auto_flush := false }))).1.dirty.use_sparse_tracking then
            scan_sparse_hier (choose_scan_strategy (optimize_dirty_region { s with auto_flush := false }) (compute_scan_bounds (optimize_dirty_region { s with auto_flush := false }))).1 false (choose_scan_strategy (optimize_dirty_region { s with auto_flush := false }) (compute_scan_bounds (optimize_dirty_region { s with auto_flush := false }))).1.dirty.dirty_l2_blocks
              (choose_scan_strategy (optimize_dirty_region { s with auto_flush := false }) (compute_scan_bounds (optimize_dirty_region { s with auto_flush := false }))).1.dirty.dirty_l1_tiles (compute_scan_bounds (optimize_dirty_region { s with auto_flush := false }))
          else scan_dense_hier (choose_scan_strategy (optimize_dirty_region { s with auto_flush := false }) (compute_scan_bounds (optimize_dirty_region { s with auto_flush := false }))).1 false (compute_scan_bounds (optimize_dirty_region { s with auto_flush := false }))
        else scan_linear (choose_scan_strategy (optimize_dirty_region { s with auto_flush := false }) (compute_scan_bounds (optimize_dirty_region { s with auto_flush := false }))).1 false (compute_scan_bounds (optimize_dirty_region { s with auto_flush := false }))).1 with
        out := (if (choose_scan_strategy (optimize_dirty_region { s with auto_flush := false }) (compute_scan_bounds (optimize_dirty_region { s with auto_flush := false }))).2 then
        scan_sparse_list (choose_scan_strategy (optimize_dirty_region { s with auto_flush := false }) (compute_scan_bounds (optimize_dirty_region { s with auto_flush := false }))).1 false (choose_scan_strategy (optimize_dirty_region { s with auto_flush := false }) (compute_scan_bounds (optimize_dirty_region { s with auto_flush := false }))).1.dirty.dirty_l1_tiles (compute_scan_bounds (optimize_dirty_region { s with auto_flush := false }))
      else
        if (choose_scan_strategy (optimize_dirty_region { s with auto_flush := false }) (compute_scan_bounds (optimize_dirty_region { s with auto_flush := false }))).1.dirty.use_hierarchical_tiles then
          if (choose_scan_strategy (optimize_dirty_region { s with auto_flush := false }) (compute_scan_bounds (optimize_dirty_region { s with auto_flush := false }))).1.dirty.use_sparse_tracking then
            scan_sparse_hier (choose_scan_strategy (optimize_dirty_region { s with auto_flush := false }) (compute_scan_bounds (optimize_dirty_region { s with auto_flush := false }))).1 false (choose_scan_strategy (optimize_dirty_region { s with auto_flush := false }) (compute_scan_bounds (optimize_dirty_region { s with auto_flush := false }))).1.dirty.dirty_l2_blocks
              (choose_scan_strategy (optimize_dirty_region { s with auto_flush := false }) (compute_scan_bounds (optimize_dirty_region { s with auto_flush := false }))).1.dirty.dirty_l1_tiles (compute_scan_bounds (optimize_dirty_region { s with auto_flush := false }))
          else scan_dense_hier (choose_scan_strategy (optimize_dirty_region { s with auto_flush := false }) (compute_scan_bounds (optimize_dirty_region { s with auto_flush := false }))).1 false (compute_scan_bounds (optimize_dirty_region { s with auto_flush := false }))
        else scan_linear (choose_scan_strategy (optimize_dirty_region { s with auto_flush := false }) (compute_scan_bounds (optimize_dirty_region { s with auto_flush := false }))).1 false (compute_scan_bounds (optimize_dirty_region { s with auto_flush := false }))).1.out ++ [out_tok.reset],
        attr_state := reset_attr_state }
    else (if (choose_scan_strategy (optimize_dirty_region { s with auto_flush := false }) (compute_scan_bounds (optimize_dirty_region { s with auto_flush := false }))).2 then
        scan_sparse_list (choose_scan_strategy (optimize_dirty_region { s with auto_flush := false }) (compute_scan_bounds (optimize_dirty_region { s with auto_flush := false }))).1 false (choose_scan_strategy (optimize_dirty_region { s with auto_flush := false }) (compute_scan_bounds (optimize_dirty_region { s with auto_flush := false }))).1.dirty.dirty_l1_tiles (compute_scan_bounds (optimize_dirty_region { s with auto_flush := false }))
      else
        if (choose_scan_strategy (optimize_dirty_region { s with auto_flush := false }) (compute_scan_bounds (optimize_dirty_region { s with auto_flush := false }))).1.dirty.use_hierarchical_tiles then
          if (choose_scan_strategy (optimize_dirty_region { s with auto_flush := false }) (compute_scan_bounds (optimize_dirty_region { s with auto_flush := false }))).1.dirty.use_sparse_tracking then
            scan_sparse_hier (choose_scan_strategy (optimize_dirty_region { s with auto_flush := false }) (compute_scan_bounds (optimize_dirty_region { s with auto_flush := false }))).1 false (choose_scan_strategy (optimize_dirty_region { s with auto_flush := false }) (compute_scan_bounds (optimize_dirty_region { s with auto_flush := false }))).1.dirty.dirty_l2_blocks
              (choose_scan_strategy (optimize_dirty_region { s with auto_flush := false }) (compute_scan_bounds (optimize_dirty_region { s with auto_flush := false }))).1.dirty.dirty_l1_tiles (compute_scan_bounds (optimize_dirty_region { s with auto_flush := false }))
          else scan_dense_hier (choose_scan_strategy (optimize_dirty_region { s with auto_flush := false }) (compute_scan_bounds (optimize_dirty_region { s with auto_flush := false }))).1 false (compute_scan_bounds (optimize_dirty_region { s with auto_flush := false }))
        else scan_linear (choose_scan_strategy (optimize_dirty_region { s with auto_flush := false }) (compute_scan_bounds (optimize_dirty_region { s with auto_flush := false }))).1 false (compute_scan_bounds (optimize_dirty_region { s with auto_flush := false }))).1) with auto_flush := true }).dirty }) := by
  simp only [tui_refresh]
  rw [if_neg (show ¬¬({ s with auto_flush := false } :
    tui_st).dirty.has_changes = true from by simp [h])]

theorem tui_refresh_decomp4 (s s1 o : tui_st) (b : scan_bounds_t)
    (p q : tui_st × Bool)
    (h : s.dirty.has_changes = true)
    (h1 : ({ s with auto_flush := false } : tui_st) = s1)
    (ho : optimize_dirty_region s1 = o)
    (hb : compute_scan_bounds o = b)
    (hpair : choose_scan_strategy o b = p)
    (hq : (if p.2 then
        scan_sparse_list p.1 false p.1.dirty.dirty_l1_tiles b
      else
        if p.1.dirty.use_hierarchical_tiles then
          if p.1.dirty.use_sparse_tracking then
            scan_sparse_hier p.1 false p.1.dirty.dirty_l2_blocks
              p.1.dirty.dirty_l1_tiles b
          else scan_dense_hier p.1 false b
        else scan_linear p.1 false b) = q) :
    tui_refresh s =
    (0, { { (if q.2 then
      { q.1 with
        out := q.1.out ++ [out_tok.reset], attr_state := reset_attr_state }
    else q.1) with auto_flush := true } with dirty := reset_dirty_region ({ (if q.2 then
      { q.1 with
        out := q.1.out ++ [out_tok.reset], attr_state := reset_attr_state }
    else q.1) with auto_flush := true }).dirty }) := by
  subst h1
  subst ho
  subst hb
  subst hpair
  subst hq
  exact tui_refresh_decomp s h

theorem big_scan_choice :
    (if ((sBigScan, true) : tui_st × Bool).2 then
      scan_sparse_list ((sBigScan, true) : tui_st × Bool).1 false
        ((sBigScan, true) : tui_st × Bool).1.dirty.dirty_l1_tiles
        (⟨0, 127, 0, 263⟩ : scan_bounds_t)
    else
      if ((sBigScan, true) : tui_st × Bool).1.dirty.use_hierarchical_tiles
      then
        if ((sBigScan, true) : tui_st × Bool).1.dirty.use_sparse_tracking
        then
          scan_sparse_hier ((sBigScan, true) : tui_st × Bool).1 false
            ((sBigScan, true) : tui_st × Bool).1.dirty.dirty_l2_blocks
            ((sBigScan, true) : tui_st × Bool).1.dirty.dirty_l1_tiles
            (⟨0, 127, 0, 263⟩ : scan_bounds_t)
        else scan_dense_hier ((sBigScan, true) : tui_st × Bool).1 false
          (⟨0, 127, 0, 263⟩ : scan_bounds_t)
      else scan_linear ((sBigScan, true) : tui_st × Bool).1 false
        (⟨0, 127, 0, 263⟩ : scan_bounds_t)) =
    scan_sparse_list sBigScan false bigL1List
      (⟨0, 127, 0, 263⟩ : scan_bounds_t) := by
  rw [show ((sBigScan, true) : tui_st × Bool).2 = true from rfl]
  rw [show ((sBigScan, true) : tui_st × Bool).1 = sBigScan from rfl]
  rw [show sBigScan.dirty.dirty_l1_tiles = bigL1List from rfl]
  rw [if_pos (Eq.refl true)]

theorem big_refresh_step :
    tui_refresh sBigLit =
    (0, { { (if (scan_sparse_list sBigScan false bigL1List
      (⟨0, 127, 0, 263⟩ : scan_bounds_t)).2 then
      { (scan_sparse_list sBigScan false bigL1List
      (⟨0, 127, 0, 263⟩ : scan_bounds_t)).1 with
        out := (scan_sparse_list sBigScan false bigL1List
      (⟨0, 127, 0, 263⟩ : scan_bounds_t)).1.out ++ [out_tok.reset], attr_state := reset_attr_state }
    else (scan_sparse_list sBigScan false bigL1List
      (⟨0, 127, 0, 263⟩ : scan_bounds_t)).1) with auto_flush := true } with dirty := reset_dirty_region ({ (if (scan_sparse_list sBigScan false bigL1List
      (⟨0, 127, 0, 263⟩ : scan_bounds_t)).2 then
      { (scan_sparse_list sBigScan false bigL1List
      (⟨0, 127, 0, 263⟩ : scan_bounds_t)).1 with
        out := (scan_sparse_list sBigScan false bigL1List
      (⟨0, 127, 0, 263⟩ : scan_bounds_t)).1.out ++ [out_tok.reset], attr_state := reset_attr_state }
    else (scan_sparse_list sBigScan false bigL1List
      (⟨0, 127, 0, 263⟩ : scan_bounds_t)).1) with auto_flush := true }).dirty }) :=
  tui_refresh_decomp4 sBigLit sBigAF sBigOpt ⟨0, 127, 0, 263⟩
    (sBigScan, true)
    (scan_sparse_list sBigScan false bigL1List
      (⟨0, 127, 0, 263⟩ : scan_bounds_t))
    rfl rfl big_opt_shape big_bounds big_choose big_scan_choice

theorem big_wrap_extract (Q : tui_st × Bool)
    (hp : Q.1.prev_screen_buf 127 263 = sBigScan.prev_screen_buf 127 263)
    (hs : Q.1.screen_buf = sBigScan.screen_buf) :
    (((0 : Int),
      { { (if Q.2 then
      { Q.1 with
        out := Q.1.out ++ [out_tok.reset], attr_state := reset_attr_state }
    else Q.1) with auto_flush := true } with
        dirty := reset_dirty_region ({ (if Q.2 then
      { Q.1 with
        out := Q.1.out ++ [out_tok.reset], attr_state := reset_attr_state }
    else Q.1) with auto_flush := true }).dirty }) :
      Int × tui_st).2.prev_screen_buf 127 263 = 0 ∧
    (((0 : Int),
      { { (if Q.2 then
      { Q.1 with
        out := Q.1.out ++ [out_tok.reset], attr_state := reset_attr_state }
    else Q.1) with auto_flush := true } with
        dirty := reset_dirty_region ({ (if Q.2 then
      { Q.1 with
        out := Q.1.out ++ [out_tok.reset], attr_state := reset_attr_state }
    else Q.1) with auto_flush := true }).dirty }) :
      Int × tui_st).2.screen_buf 127 263 = 32 := by
  obtain ⟨hw1, hw2⟩ := refresh_wrap_grids Q
  constructor
  · show ((if Q.2 then
      { Q.1 with
        out := Q.1.out ++ [out_tok.reset], attr_state := reset_attr_state }
    else Q.1)).prev_screen_buf 127 263 = 0
    rw [hw1]
    exact hp.trans (by rfl)
  · show ((if Q.2 then
      { Q.1 with
        out := Q.1.out ++ [out_tok.reset], attr_state := reset_attr_state }
    else Q.1)).screen_buf 127 263 = 32
    rw [hw2]
    exact (congrFun (congrFun hs 127) 263).trans (by rfl)

theorem big_refresh_grids :
    (tui_refresh sBigLit).2.prev_screen_buf 127 263 = 0 ∧
    (tui_refresh sBigLit).2.screen_buf 127 263 = 32 := by
  rw [big_refresh_step]
  obtain ⟨hp, hs⟩ := scan_sparse_list_prev_pt 127 263 bigL1List
    sBigScan false ⟨0, 127, 0, 263⟩ bigL1List_misses_corner
  exact big_wrap_extract
    (scan_sparse_list sBigScan false bigL1List
      (⟨0, 127, 0, 263⟩ : scan_bounds_t)) hp hs


/-- Claim C1: on the 128×264 engine the claim fails.  `tui_clear_screen`
on the fresh engine (a public drawing operation) marks all 528 L1 tiles
dirty, but the 512-entry tile pool is exhausted after 512 of them, so the
tiles of rows 120–127, columns 136–263 never enter the sparse list.  The
following refresh chooses the sparse strategy (the capped tile count 100
is below a third of the 528-tile scan area), returns 0, and scans only
the listed tiles: cell (127, 263) lies inside the scanned region
`[0,127] × [0,263]` but its physical snapshot still differs from the
logical grid after the refresh returns. -/
theorem c1_refresh_misses_scanned_cell :
    (tui_clear_screen sBig).2 = sBigLit ∧
    (tui_refresh sBigLit).1 = 0 ∧
    refresh_scan_bounds sBigLit = ⟨0, 127, 0, 263⟩ ∧
    (tui_refresh sBigLit).2.prev_screen_buf 127 263 ≠
      (tui_refresh sBigLit).2.screen_buf 127 263 := by
  refine ⟨clear_big, tui_refresh_ret_zero sBigLit, rfl, ?_⟩
  rw [big_refresh_grids.1, big_refresh_grids.2]
  decide

/-! ## Dirty-cell tracking (claim C5) -/

/-- Sparse insertion puts the tile into the list when the pool has room
(or the tile is already listed) and the bitmap is coherent. -/
theorem add_sparse_l1_tile_mem (d : dirty_rec_t) (tr tc : Int)
    (hcoh : check_l1_tile_bitmap d.l1_tile_bitmap tr tc = true →
      (tr.toNat, tc.toNat) ∈ d.dirty_l1_tiles)
    (hpool : d.dirty_tile_pool_used < DIRTY_TILE_POOL_SIZE ∨
      (tr.toNat, tc.toNat) ∈ d.dirty_l1_tiles) :
    (tr.toNat, tc.toNat) ∈ (add_sparse_l1_tile d tr tc).dirty_l1_tiles := by
  simp only [add_sparse_l1_tile]
  split
  · exact hcoh (by assumption)
  · split
    · exact List.mem_cons_self _ _
    · rcases hpool with h | h
      · exact absurd h (by assumption)
      · exact h

/-- Sparse L1 insertion leaves the rectangle, the L2 data and the flags
untouched. -/
theorem add_sparse_l1_tile_fields (d : dirty_rec_t) (tr tc : Int) :
    (add_sparse_l1_tile d tr tc).min_row = d.min_row ∧
    (add_sparse_l1_tile d tr tc).max_row = d.max_row ∧
    (add_sparse_l1_tile d tr tc).min_col = d.min_col ∧
    (add_sparse_l1_tile d tr tc).max_col = d.max_col ∧
    (add_sparse_l1_tile d tr tc).l2_blocks_y = d.l2_blocks_y ∧
    (add_sparse_l1_tile d tr tc).l2_blocks_x = d.l2_blocks_x ∧
    (add_sparse_l1_tile d tr tc).l2_block_bitmap = d.l2_block_bitmap ∧
    (add_sparse_l1_tile d tr tc).use_sparse_tracking =
      d.use_sparse_tracking ∧
    (add_sparse_l1_tile d tr tc).dirty_l2_blocks = d.dirty_l2_blocks := by
  simp only [add_sparse_l1_tile]
  split
  · exact ⟨rfl, rfl, rfl, rfl, rfl, rfl, rfl, rfl, rfl⟩
  · split
    · exact ⟨rfl, rfl, rfl, rfl, rfl, rfl, rfl, rfl, rfl⟩
    · exact ⟨rfl, rfl, rfl, rfl, rfl, rfl, rfl, rfl, rfl⟩

/-- Sparse L1 insertion is the identity when the bitmap already records
the tile. -/
theorem add_sparse_l1_tile_skip (d : dirty_rec_t) (tr tc : Int)
    (hbit : check_l1_tile_bitmap d.l1_tile_bitmap tr tc = true) :
    add_sparse_l1_tile d tr tc = d := by
  simp only [add_sparse_l1_tile]
  rw [if_pos hbit]

/-- Sparse L2 insertion leaves the rectangle and the L1 list untouched. -/
theorem add_sparse_l2_block_fields (d : dirty_rec_t) (br bc : Int) :
    (add_sparse_l2_block d br bc).min_row = d.min_row ∧
    (add_sparse_l2_block d br bc).max_row = d.max_row ∧
    (add_sparse_l2_block d br bc).min_col = d.min_col ∧
    (add_sparse_l2_block d br bc).max_col = d.max_col ∧
    (add_sparse_l2_block d br bc).dirty_l1_tiles = d.dirty_l1_tiles := by
  simp only [add_sparse_l2_block]
  split
  · exact ⟨rfl, rfl, rfl, rfl, rfl⟩
  · split
    · exact ⟨rfl, rfl, rfl, rfl, rfl⟩
    · exact ⟨rfl, rfl, rfl, rfl, rfl⟩

/-- Sparse L2 insertion is the identity when the bitmap already records
the block. -/
theorem add_sparse_l2_block_skip (d : dirty_rec_t) (br bc : Int)
    (hbit : check_l2_block_bitmap d.l2_block_bitmap br bc = true) :
    add_sparse_l2_block d br bc = d := by
  simp only [add_sparse_l2_block]
  rw [if_pos hbit]

/-- The L1 half of `mark_dirty` lists the covering tile under the pool and
coherence hypotheses. -/
theorem mark_dirty_l1_mem (d : dirty_rec_t) (tr tc : Int)
    (hs : d.use_sparse_tracking = true)
    (hrange : tr < d.l1_tiles_y ∧ tc < d.l1_tiles_x)
    (hcoh : check_l1_tile_bitmap d.l1_tile_bitmap tr tc = true →
      (tr.toNat, tc.toNat) ∈ d.dirty_l1_tiles)
    (hpool : d.dirty_tile_pool_used < DIRTY_TILE_POOL_SIZE ∨
      (tr.toNat, tc.toNat) ∈ d.dirty_l1_tiles) :
    (tr.toNat, tc.toNat) ∈ (mark_dirty_l1 d tr tc).dirty_l1_tiles := by
  simp only [mark_dirty_l1, add_sparse_l1_tile]
  rw [if_pos hrange]
  split
  · split
    · exact hcoh (by assumption)
    · split
      · exact List.mem_cons_self _ _
      · rcases hpool with h | h
        · rename_i hnp
          exact absurd h hnp
        · exact h
  · rename_i hns
    exact absurd hs hns

/-- The L1 half of `mark_dirty` leaves the rectangle, the L2 data and the
sparse flag untouched. -/
theorem mark_dirty_l1_fields (d : dirty_rec_t) (tr tc : Int) :
    (mark_dirty_l1 d tr tc).min_row = d.min_row ∧
    (mark_dirty_l1 d tr tc).max_row = d.max_row ∧
    (mark_dirty_l1 d tr tc).min_col = d.min_col ∧
    (mark_dirty_l1 d tr tc).max_col = d.max_col ∧
    (mark_dirty_l1 d tr tc).l2_blocks_y = d.l2_blocks_y ∧
    (mark_dirty_l1 d tr tc).l2_blocks_x = d.l2_blocks_x ∧
    (mark_dirty_l1 d tr tc).l2_block_bitmap = d.l2_block_bitmap ∧
    (mark_dirty_l1 d tr tc).use_sparse_tracking = d.use_sparse_tracking ∧
    (mark_dirty_l1 d tr tc).dirty_l2_blocks = d.dirty_l2_blocks := by
  simp only [mark_dirty_l1]
  split
  · split
    · exact add_sparse_l1_tile_fields _ tr tc
    · exact ⟨rfl, rfl, rfl, rfl, rfl, rfl, rfl, rfl, rfl⟩
  · exact ⟨rfl, rfl, rfl, rfl, rfl, rfl, rfl, rfl, rfl⟩

/-- The L1 half of `mark_dirty` leaves the sparse lists and the pool
untouched when the tile bitmap bit is already set. -/
theorem mark_dirty_l1_skip (d : dirty_rec_t) (tr tc : Int)
    (hbit : check_l1_tile_bitmap d.l1_tile_bitmap tr tc = true) :
    (mark_dirty_l1 d tr tc).dirty_l1_tiles = d.dirty_l1_tiles ∧
    (mark_dirty_l1 d tr tc).dirty_l2_blocks = d.dirty_l2_blocks ∧
    (mark_dirty_l1 d tr tc).dirty_tile_pool_used =
      d.dirty_tile_pool_used := by
  simp only [mark_dirty_l1, add_sparse_l1_tile]
  split
  · split
    · exact ⟨rfl, rfl, rfl⟩
    · exact ⟨rfl, rfl, rfl⟩
  · exact ⟨rfl, rfl, rfl⟩

/-- The L2 half of `mark_dirty` leaves the rectangle and the L1 list
untouched. -/
theorem mark_dirty_l2_fields (d : dirty_rec_t) (br bc : Int) :
    (mark_dirty_l2 d br bc).min_row = d.min_row ∧
    (mark_dirty_l2 d br bc).max_row = d.max_row ∧
    (mark_dirty_l2 d br bc).min_col = d.min_col ∧
    (mark_dirty_l2 d br bc).max_col = d.max_col ∧
    (mark_dirty_l2 d br bc).dirty_l1_tiles = d.dirty_l1_tiles := by
  simp only [mark_dirty_l2]
  split
  · split
    · exact add_sparse_l2_block_fields _ br bc
    · exact ⟨rfl, rfl, rfl, rfl, rfl⟩
  · exact ⟨rfl, rfl, rfl, rfl, rfl⟩

/-- The L2 half of `mark_dirty` leaves the sparse lists and the pool
untouched when the block bitmap bit is already set. -/
theorem mark_dirty_l2_skip (d : dirty_rec_t) (br bc : Int)
    (hbit : check_l2_block_bitmap d.l2_block_bitmap br bc = true) :
    (mark_dirty_l2 d br bc).dirty_l1_tiles = d.dirty_l1_tiles ∧
    (mark_dirty_l2 d br bc).dirty_l2_blocks = d.dirty_l2_blocks ∧
    (mark_dirty_l2 d br bc).dirty_tile_pool_used =
      d.dirty_tile_pool_used := by
  simp only [mark_dirty_l2, add_sparse_l2_block]
  split
  · split
    · exact ⟨rfl, rfl, rfl⟩
    · exact ⟨rfl, rfl, rfl⟩
  · exact ⟨rfl, rfl, rfl⟩

/-- The bounding rectangle after `mark_dirty_rect` contains the marked
cell. -/
theorem mark_dirty_rect_facts (d : dirty_rec_t) (row col : Int) :
    (mark_dirty_rect d row col).min_row ≤ row ∧
    row ≤ (mark_dirty_rect d row col).max_row ∧
    (mark_dirty_rect d row col).min_col ≤ col ∧
    col ≤ (mark_dirty_rect d row col).max_col := by
  simp only [mark_dirty_rect]
  refine ⟨?_, ?_, ?_, ?_⟩ <;> dsimp only <;> split <;> omega

/-- Claim C5 (amended): for a `mark_dirty` on a cell whose covering L1 tile
lies inside the tracked tile grid, with hierarchical and sparse tracking
active, when the sparse bitmap is coherent with the sparse list and the
tile pool is not exhausted (or the tile is already listed), the bounding
rectangle contains the cell, the covering 8x8 tile is in the sparse L1
list, and re-marking an already fully recorded cell leaves the sparse tile
sets and the pool untouched.  The unconditional claim fails: when the pool
is exhausted the tile never enters the sparse list. -/
theorem c5_mark_dirty_tracking_amended (d : dirty_rec_t) (row col : Int)
    (hh : d.use_hierarchical_tiles = true)
    (hs : d.use_sparse_tracking = true)
    (hrange : cdiv row TILE_L1_SIZE < d.l1_tiles_y ∧
      cdiv col TILE_L1_SIZE < d.l1_tiles_x)
    (hcoh : check_l1_tile_bitmap d.l1_tile_bitmap (cdiv row TILE_L1_SIZE)
        (cdiv col TILE_L1_SIZE) = true →
      ((cdiv row TILE_L1_SIZE).toNat, (cdiv col TILE_L1_SIZE).toNat) ∈
        d.dirty_l1_tiles)
    (hpool : d.dirty_tile_pool_used < DIRTY_TILE_POOL_SIZE ∨
      ((cdiv row TILE_L1_SIZE).toNat, (cdiv col TILE_L1_SIZE).toNat) ∈
        d.dirty_l1_tiles) :
    ((mark_dirty d row col).min_row ≤ row ∧
     row ≤ (mark_dirty d row col).max_row ∧
     (mark_dirty d row col).min_col ≤ col ∧
     col ≤ (mark_dirty d row col).max_col) ∧
    ((cdiv row TILE_L1_SIZE).toNat, (cdiv col TILE_L1_SIZE).toNat) ∈
      (mark_dirty d row col).dirty_l1_tiles ∧
    (check_l1_tile_bitmap d.l1_tile_bitmap (cdiv row TILE_L1_SIZE)
        (cdiv col TILE_L1_SIZE) = true →
     check_l2_block_bitmap d.l2_block_bitmap (cdiv row TILE_L2_SIZE)
        (cdiv col TILE_L2_SIZE) = true →
     (mark_dirty d row col).dirty_l1_tiles = d.dirty_l1_tiles ∧
     (mark_dirty d row col).dirty_l2_blocks = d.dirty_l2_blocks ∧
     (mark_dirty d row col).dirty_tile_pool_used =
       d.dirty_tile_pool_used) := by
  have hrect := mark_dirty_rect_facts d row col
  simp only [mark_dirty]
  split
  · have hf1 := mark_dirty_l1_fields (mark_dirty_rect d row col)
      (cdiv row TILE_L1_SIZE) (cdiv col TILE_L1_SIZE)
    have hf2 := mark_dirty_l2_fields
      (mark_dirty_l1 (mark_dirty_rect d row col)
        (cdiv row TILE_L1_SIZE) (cdiv col TILE_L1_SIZE))
      (cdiv row TILE_L2_SIZE) (cdiv col TILE_L2_SIZE)
    refine ⟨⟨?_, ?_, ?_, ?_⟩, ?_, ?_⟩
    · rw [hf2.1, hf1.1]
      exact hrect.1
    · rw [hf2.2.1, hf1.2.1]
      exact hrect.2.1
    · rw [hf2.2.2.1, hf1.2.2.1]
      exact hrect.2.2.1
    · rw [hf2.2.2.2.1, hf1.2.2.2.1]
      exact hrect.2.2.2
    · rw [hf2.2.2.2.2]
      exact mark_dirty_l1_mem _ _ _ hs hrange hcoh hpool
    · intro hbit1 hbit2
      have hsk1 := mark_dirty_l1_skip (mark_dirty_rect d row col)
        (cdiv row TILE_L1_SIZE) (cdiv col TILE_L1_SIZE) hbit1
      have hb2 : check_l2_block_bitmap
          (mark_dirty_l1 (mark_dirty_rect d row col)
            (cdiv row TILE_L1_SIZE) (cdiv col TILE_L1_SIZE)).l2_block_bitmap
          (cdiv row TILE_L2_SIZE) (cdiv col TILE_L2_SIZE) = true := by
        rw [hf1.2.2.2.2.2.2.1]
        exact hbit2
      have hsk2 := mark_dirty_l2_skip
        (mark_dirty_l1 (mark_dirty_rect d row col)
          (cdiv row TILE_L1_SIZE) (cdiv col TILE_L1_SIZE))
        (cdiv row TILE_L2_SIZE) (cdiv col TILE_L2_SIZE) hb2
      exact ⟨hsk2.1.trans hsk1.1, hsk2.2.1.trans hsk1.2.1,
        hsk2.2.2.trans hsk1.2.2⟩
  · rename_i hn
    exact absurd hh hn

/-- Witness for the amended C5 theorem: on the fresh 24x80 engine all the
hypotheses hold at cell (5, 9), whose covering tile is (0, 1). -/
theorem c5_mark_dirty_tracking_amended_witness :
    ((cdiv (5:Int) TILE_L1_SIZE).toNat, (cdiv (9:Int) TILE_L1_SIZE).toNat) ∈
      (mark_dirty (tui_init_state 24 80 false).dirty 5 9).dirty_l1_tiles ∧
    (mark_dirty (tui_init_state 24 80 false).dirty 5 9).min_row ≤ 5 ∧
    5 ≤ (mark_dirty (tui_init_state 24 80 false).dirty 5 9).max_row ∧
    (mark_dirty (tui_init_state 24 80 false).dirty 5 9).min_col ≤ 9 ∧
    9 ≤ (mark_dirty (tui_init_state 24 80 false).dirty 5 9).max_col := by
  have h := c5_mark_dirty_tracking_amended (tui_init_state 24 80 false).dirty
    5 9 (by decide) (by decide) (by decide) (by decide) (Or.inl (by decide))
  exact ⟨h.2.1, h.1.1, h.1.2.1, h.1.2.2.1, h.1.2.2.2⟩

/-- Claim C5 counterexample: in the reachable dirty record left by
`tui_clear_screen` on the fresh 128x264 engine the tile pool is exhausted,
so `mark_dirty` at cell (127, 263) — hierarchical and sparse tracking
active, covering tile (15, 32) inside the tracked tile grid — does not
put the covering 8x8 tile into the sparse L1 tile list, refuting the
unconditional tile-presence part of the claim. -/
theorem c5_mark_dirty_tile_lost_cex :
    (tui_clear_screen sBig).2.dirty = bigDFinal ∧
    bigDFinal.use_hierarchical_tiles = true ∧
    bigDFinal.use_sparse_tracking = true ∧
    cdiv (127:Int) TILE_L1_SIZE < bigDFinal.l1_tiles_y ∧
    cdiv (263:Int) TILE_L1_SIZE < bigDFinal.l1_tiles_x ∧
    ((cdiv (127:Int) TILE_L1_SIZE).toNat,
      (cdiv (263:Int) TILE_L1_SIZE).toNat) ∉
      (mark_dirty bigDFinal 127 263).dirty_l1_tiles := by
  refine ⟨(congrArg tui_st.dirty clear_big).trans rfl, ?_, ?_, ?_, ?_, ?_⟩
  · decide
  · decide
  · decide
  · decide
  · decide
